import Mathlib

/-!
# BusSide SPI protocol driver (`busside_spi.c`): embedding and properties

The protocol engine of `busside_spi.c` is embedded as executable Lean definitions:
machine integers are naturals (reduced modulo `2^32` where the C type wraps), memory
buffers are lists of bytes, the sequence file and the serial transport are explicit
state.  Definitions keep the names of the C functions they are translated from.
-/

namespace Busside

/-! ## C integer conversions -/

/-- Value of a memory byte seen through a `char *` (plain `char` is signed here):
bytes `0x80..0xFF` read as `-128..-1`. -/
def char_of_byte (b : Nat) : Int :=
  if b % 256 < 128 then ((b % 256 : Nat) : Int) else ((b % 256 : Nat) : Int) - 256

/-- Conversion of an integer to `unsigned char` (reduction modulo 256). -/
def to_uchar (v : Int) : Nat := (v % 256).toNat

/-- Conversion of an integer to `uint32_t` / `unsigned int` (reduction modulo `2^32`). -/
def to_u32 (v : Int) : Nat := (v % 4294967296).toNat

/-- Conversion of a 32-bit unsigned value to `int` (two's complement). -/
def to_int (v : Nat) : Int :=
  if v % 4294967296 < 2147483648 then ((v % 4294967296 : Nat) : Int)
  else ((v % 4294967296 : Nat) : Int) - 4294967296

/-- The C expression `s[i]` for `char *s`: the byte at index `i` read as a `char`. -/
def char_at (s : List Nat) (i : Nat) : Int := char_of_byte (s.getD i 0)

/-! ## Checksum engine (`crc_table`, `crc_update`, `crc_mem`) -/

/-- The array `crc_table[16]`. -/
def crc_table : List Nat :=
  [0x00000000, 0x1db71064, 0x3b6e20c8, 0x26d930ac,
   0x76dc4190, 0x6b6b51f4, 0x4db26158, 0x5005713c,
   0xedb88320, 0xf00f9344, 0xd6d6a3e8, 0xcb61b38c,
   0x9b64c2b0, 0x86d3d2d4, 0xa00ae278, 0xbdbdf21c]

/-- The C expression `crc_table[i]`. -/
def crc_table_at (i : Nat) : Nat := crc_table.getD i 0

/-- Function `crc_update(crc, data)`: two nibble steps; `tbl_idx` is an `unsigned char`,
so each assignment to it truncates modulo 256. -/
def crc_update (crc data : Nat) : Nat :=
  let tbl_idx := (crc ^^^ (data >>> (0 * 4))) % 256
  let crc := crc_table_at (tbl_idx &&& 0x0f) ^^^ (crc >>> 4)
  let tbl_idx := (crc ^^^ (data >>> (1 * 4))) % 256
  let crc := crc_table_at (tbl_idx &&& 0x0f) ^^^ (crc >>> 4)
  crc

/-- Bitwise complement `~x` of an `unsigned int`. -/
def not32 (x : Nat) : Nat := 4294967295 - x

/-- Function `crc_mem(s, n)`: `crc = ~0L`, the loop `for (i = 0; i < n; i++)` feeding
`s[i]` (a `char`, converted to the `unsigned char` parameter), then `~crc`. -/
def crc_mem (s : List Nat) (n : Int) : Nat :=
  let crc := (List.range n.toNat).foldl
    (fun crc i => crc_update crc (to_uchar (char_at s i))) 4294967295
  not32 crc

/-! ### The textbook CRC-32, written from the specification -/

/-- One bit step of the reflected CRC-32: shift right, and xor the polynomial
`0xEDB88320` in when the bit shifted out is set. -/
def crc32_bit_step (c : Nat) : Nat :=
  (c >>> 1) ^^^ (if c % 2 = 1 then 0xEDB88320 else 0)

/-- Four bit steps. -/
def crc32_bit_step4 (c : Nat) : Nat :=
  crc32_bit_step (crc32_bit_step (crc32_bit_step (crc32_bit_step c)))

/-- Eight bit steps. -/
def crc32_bit_step8 (c : Nat) : Nat :=
  crc32_bit_step (crc32_bit_step (crc32_bit_step (crc32_bit_step
    (crc32_bit_step (crc32_bit_step (crc32_bit_step (crc32_bit_step c)))))))

/-- Standard CRC-32 processed bit by bit: initial value `0xFFFFFFFF`, each byte is
xored into the low bits and followed by eight bit steps, final complement. -/
def crc32_bitwise (s : List Nat) : Nat :=
  (s.foldl (fun c b => crc32_bit_step8 (c ^^^ b)) 0xFFFFFFFF) ^^^ 0xFFFFFFFF

/-- Entry `i` of the full 256-entry CRC-32 table (eight bit steps applied to `i`). -/
def crc32_table256 (i : Nat) : Nat := crc32_bit_step8 i

/-- Standard CRC-32 processed one byte at a time with the full 256-entry table. -/
def crc32_bytewise (s : List Nat) : Nat :=
  (s.foldl (fun c b => crc32_table256 ((c ^^^ b) % 256) ^^^ (c >>> 8)) 0xFFFFFFFF)
    ^^^ 0xFFFFFFFF

/-! ## Frame codec (`struct bs_frame_s`, stamping and reply check) -/

/-- The four bytes of a `uint32_t` in memory (little-endian host). -/
def u32_bytes (v : Nat) : List Nat :=
  [v % 256, v / 256 % 256, v / 65536 % 256, v / 16777216 % 256]

/-- Load of a `uint32_t` field at byte offset `off` of a buffer. -/
def rd32 (buf : List Nat) (off : Nat) : Nat :=
  buf.getD off 0 + 256 * buf.getD (off + 1) 0 + 65536 * buf.getD (off + 2) 0
    + 16777216 * buf.getD (off + 3) 0

/-- Store of a `uint32_t` field at byte offset `off` of a buffer (the value is reduced
modulo `2^32` by the field width). -/
def wr32 (buf : List Nat) (off v : Nat) : List Nat :=
  (((buf.set off (v % 256)).set (off + 1) (v / 256 % 256)).set (off + 2)
    (v / 65536 % 256)).set (off + 3) (v / 16777216 % 256)

/-- Macro `BS_HEADER_SIZE`. -/
def BS_HEADER_SIZE : Nat := 4 * 4

/-- Byte offset of `bs_command` in `struct bs_frame_s`. -/
def OFF_COMMAND : Nat := 0

/-- Byte offset of `bs_payload_length`. -/
def OFF_PAYLOAD_LENGTH : Nat := 4

/-- Byte offset of `bs_sequence_number`. -/
def OFF_SEQUENCE_NUMBER : Nat := 8

/-- Byte offset of `bs_checksum`. -/
def OFF_CHECKSUM : Nat := 12

/-- Stamping of a request inside the retry loop (`busside_requestreply` lines 205-209,
`busside_echo` lines 132-136), buffer part: the sequence number `seq` is stored, the
checksum field is zeroed, `crc_mem` is taken over `request_size` bytes and stored. -/
def bs_stamp (request : List Nat) (request_size seq : Nat) : List Nat :=
  let request := wr32 request OFF_SEQUENCE_NUMBER seq
  let request := wr32 request OFF_CHECKSUM 0
  wr32 request OFF_CHECKSUM (crc_mem request (to_int request_size))

/-- Checksum check of a reply (`busside_requestreply` lines 224-227): the stored checksum
is read out, the field zeroed, and `crc_mem` over `BS_HEADER_SIZE + reply->bs_payload_length`
bytes (32-bit unsigned arithmetic, passed as `int`) compared with it. -/
def bs_checksum_ok (reply : List Nat) : Bool :=
  let checksum := rd32 reply OFF_CHECKSUM
  let reply := wr32 reply OFF_CHECKSUM 0
  crc_mem reply (to_int ((BS_HEADER_SIZE + rd32 reply OFF_PAYLOAD_LENGTH) % 4294967296))
    == checksum

/-- Flip of bit `pos % 8` of byte `pos / 8` of a buffer. -/
def flip_bit (buf : List Nat) (pos : Nat) : List Nat :=
  buf.set (pos / 8) (buf.getD (pos / 8) 0 ^^^ (1 <<< (pos % 8)))

/-! ## Sequence manager (`bs_sequence_number`, `BS_SEQ_FILE`) -/

/-- The process-wide counter `bs_sequence_number` together with the file `BS_SEQ_FILE`:
`store = none` when the file does not exist, `some bytes` for its content. -/
structure SeqState where
  bs_sequence_number : Nat
  store : Option (List Nat)
deriving DecidableEq, Repr

/-- System call `write(fd, data, |data|)` on a file with content `content`, the
descriptor standing at offset `off`: the bytes are overwritten in place and the file grows
when the write passes its end. -/
def file_write (content : List Nat) (off : Nat) (data : List Nat) : List Nat :=
  content.take off ++ data ++ content.drop (off + data.length)

/-- Function `bs_sequence_number_init`.  `open` with `O_CREAT` creates a missing file
empty (on a store that is a byte file the `open` succeeds, so the return of -1 for
`fd == -1` does not arise); `read` delivers the first `n <= 4` bytes into the counter
variable and leaves the descriptor at offset `n`; when `n != 4` the counter is set to 2
and written at the descriptor's current offset.  The first component is the return
value. -/
def bs_sequence_number_init (s : SeqState) : Int × SeqState :=
  let file := match s.store with
    | none => []
    | some c => c
  let got := file.take 4
  let n := got.length
  let num := rd32 (got ++ (u32_bytes s.bs_sequence_number).drop n) 0
  if n ≠ 4 then
    let num := 2
    (0, { bs_sequence_number := num, store := some (file_write file n (u32_bytes num)) })
  else
    (0, { bs_sequence_number := num, store := some file })

/-- Function `bs_next_sequence_number`: the counter is incremented (32-bit wrap) and
written at offset 0 of the file opened without `O_CREAT`; when the file is missing the
`open` fails and so does the `write` on the invalid descriptor. -/
def bs_next_sequence_number (s : SeqState) : SeqState :=
  let num := (s.bs_sequence_number + 1) % 4294967296
  match s.store with
  | none => { bs_sequence_number := num, store := none }
  | some c => { bs_sequence_number := num, store := some (file_write c 0 (u32_bytes num)) }

/-- The two things that happen to the sequence manager in a run: a request takes a
number, or the process restarts. -/
inductive SeqEvent where
  | alloc
  | restart
deriving DecidableEq, Repr

/-- The numbers handed to requests along a list of events.  An allocation takes the
current `bs_sequence_number` and calls `bs_next_sequence_number` (lines 205-206 and
132-133); a restart begins a new process (the static counter is zero) and runs
`bs_sequence_number_init` on the store left behind. -/
def run_events : List SeqEvent → SeqState → List Nat
  | [], _ => []
  | SeqEvent.alloc :: es, s => s.bs_sequence_number :: run_events es (bs_next_sequence_number s)
  | SeqEvent.restart :: es, s =>
      run_events es (bs_sequence_number_init { s with bs_sequence_number := 0 }).2

/-- A run from process start: `bs_sequence_number_init` on the initial store, then the
events. -/
def run_from_store (store : Option (List Nat)) (es : List SeqEvent) : List Nat :=
  run_events es (bs_sequence_number_init { bs_sequence_number := 0, store := store }).2

/-- The store holds the counter: the file exists, has at least four bytes, and its first
four bytes are the in-memory `bs_sequence_number`. -/
def Synced (s : SeqState) : Prop :=
  ∃ c, s.store = some c ∧ 4 ≤ c.length ∧ rd32 (c.take 4) 0 = s.bs_sequence_number

/-! ## Serial transport and clock -/

/-- Outcome of one call of the external `serialport_read_nonblock(buf, cnt, timeout, &n)`:
its return value, the bytes it delivered (`n` is their number, capped by `cnt`), and the
wall-clock time the call took, in microseconds. -/
structure Rd where
  rv : Int
  data : List Nat
  dt : Nat
deriving DecidableEq, Repr

/-- Observable events of a run, in the order in which they happen. -/
inductive Ev where
  | rx (t : Nat)
  | tx (bytes : List Nat)
  | persist (store : Option (List Nat))
  | flush
deriving DecidableEq, Repr

/-- The environment of the driver: wall clock `now` (microseconds), number `pos` of
transport reads made so far on the current reply stream, the sequence manager, and the
trace of events (`rx t`: a transport read issued at time `t`; `tx b`: bytes `b` written
to the transport; `persist s`: the sequence store rewritten, now `s`; `flush`). -/
structure World where
  now : Nat
  pos : Nat
  seq : SeqState
  trace : List Ev
deriving DecidableEq, Repr

/-- One call `serialport_read_nonblock(buf, cnt, timeout, &n)` on the reply stream `rd`
(`rd k` is the outcome of the `k`-th read): returns the return value and the bytes stored
into `buf`, advances the clock by the duration of the call. -/
def sp_read (rd : Nat → Rd) (w : World) (cnt : Nat) : (Int × List Nat) × World :=
  (((rd w.pos).rv, (rd w.pos).data.take cnt),
    { w with now := w.now + (rd w.pos).dt, pos := w.pos + 1,
             trace := w.trace ++ [Ev.rx w.now] })

/-- The loop of `bs_sync`.  `got1 = false` is the top of `while (1)` (time check, then a
one-byte read); `got1 = true` is the label `got1` (a one-byte read without time check).
`fuel` bounds the number of iterations; `none` means the bound was hit. -/
def bs_sync_loop (timeout : Int) (rd : Nat → Rd) (tv_start : Nat) :
    Nat → Bool → World → Option (Int × World)
  | 0, _, _ => none
  | fuel + 1, false, w =>
    if (((w.now - tv_start) / 1000000 : Nat) : Int) ≥ timeout then some (-1, w)
    else
      let r := sp_read rd w 1
      if r.1.1 ≠ 0 then bs_sync_loop timeout rd tv_start fuel false r.2
      else if r.1.2.length ≠ 1 then bs_sync_loop timeout rd tv_start fuel false r.2
      else if r.1.2.getD 0 0 = 0xfe then bs_sync_loop timeout rd tv_start fuel true r.2
      else bs_sync_loop timeout rd tv_start fuel false r.2
  | fuel + 1, true, w =>
    let r := sp_read rd w 1
    if r.1.1 ≠ 0 then bs_sync_loop timeout rd tv_start fuel false r.2
    else if r.1.2.length ≠ 1 then bs_sync_loop timeout rd tv_start fuel false r.2
    else if r.1.2.getD 0 0 = 0xca then some (0, r.2)
    else if r.1.2.getD 0 0 = 0xfe then bs_sync_loop timeout rd tv_start fuel true r.2
    else bs_sync_loop timeout rd tv_start fuel false r.2

/-- Function `bs_sync(timeout)`: `gettimeofday(&tv_start)`, then the loop. -/
def bs_sync (fuel : Nat) (timeout : Int) (rd : Nat → Rd) (w : World) : Option (Int × World) :=
  bs_sync_loop timeout rd w.now fuel false w

/-- Total duration of the `j` reads `p, p+1, ..., p+j-1` of a reply stream. -/
def reads_duration (rd : Nat → Rd) (p : Nat) : Nat → Nat
  | 0 => 0
  | j + 1 => (rd p).dt + reads_duration rd (p + 1) j

/-- The byte delivered by read `k` of a reply stream. -/
def rd_byte (rd : Nat → Rd) (k : Nat) : Nat := (rd k).data.getD 0 0

/-- Read `k` of a reply stream succeeds and delivers at least one byte. -/
def rd_delivers (rd : Nat → Rd) (k : Nat) : Prop := (rd k).rv = 0 ∧ (rd k).data ≠ []

/-- A reply stream given by a finite list of read outcomes; every read after the last
listed one delivers nothing and takes one second. -/
def stream_of (l : List Rd) : Nat → Rd := fun k => l.getD k { rv := 0, data := [], dt := 1000000 }

/-- Reads that each deliver one byte of `bytes`, each taking `dt` microseconds. -/
def byte_reads (dt : Nat) (bytes : List Nat) : List Rd :=
  bytes.map (fun b => { rv := 0, data := [b], dt := dt })

/-- A world at time 0 with nothing read or written yet. -/
def world0 (seq : SeqState) : World := { now := 0, pos := 0, seq := seq, trace := [] }

instance rd_delivers_decidable (rd : Nat → Rd) (k : Nat) : Decidable (rd_delivers rd k) := by
  unfold rd_delivers
  exact inferInstance

/-! ## Transport retry engine (`busside_echo`, `busside_requestreply`) -/

/-- Array `bs_sync_word`. -/
def bs_sync_word : List Nat := [0xfe, 0xca]

/-- Macro `BUSSIDE_SPI_COMMAND`. -/
def BUSSIDE_SPI_COMMAND : Nat := 43

/-- Macro `BUSSIDE_SPI_ECHO`. -/
def BUSSIDE_SPI_ECHO : Nat := 0

/-- The table `spispeeds` (name, speed code, clock in Hz); the last row is the `NULL`
sentinel. -/
def spispeeds : List (Option String × Nat × Nat) :=
  [(some "30k", 0x0, 30000),
   (some "125k", 0x1, 125000),
   (some "250k", 0x2, 250000),
   (some "1M", 0x3, 1000000),
   (some "2M", 0x4, 2000000),
   (some "2.6M", 0x5, 2600000),
   (some "4M", 0x6, 4000000),
   (some "8M", 0x7, 8000000),
   (none, 0x0, 0)]

/-- The C expression `spispeeds[i].spispeed`. -/
def spispeeds_spispeed (i : Nat) : Nat := (spispeeds.getD i (none, 0, 0)).2.2

/-- Result of `malloc(size)`: `NULL` (`none`) when the allocation fails, else a fresh
buffer of `size` bytes whose uninitialised content is given by `junk`. -/
def malloc (ok : Bool) (junk : Nat → Nat) (size : Nat) : Option (List Nat) :=
  if ok then some ((List.range size).map junk) else none

/-- Store of the bytes `data` into a buffer at byte offset `off` (`memcpy`, or the bytes
a transport read puts into its buffer). -/
def mem_write (buf : List Nat) (off : Nat) (data : List Nat) : List Nat :=
  buf.take off ++ data ++ buf.drop (off + data.length)

/-- External `serialport_write(buf, len)`: the bytes appear on the transport. -/
def serialport_write (w : World) (bytes : List Nat) : World :=
  { w with trace := w.trace ++ [Ev.tx bytes] }

/-- The failure path `err:` of an attempt: `printf`, `usleep(5000)`, `sp_flush_incoming()`. -/
def attempt_err (w : World) : World :=
  { w with now := w.now + 5000, trace := w.trace ++ [Ev.flush] }

/-- The stamping and sending part of one loop iteration (lines 205-211 and 132-138): the
current `bs_sequence_number` goes into the request, `bs_next_sequence_number` increments
and persists the counter, the checksum is computed with its field zeroed, then the marker
and the request are written to the transport. -/
def attempt_send (request : List Nat) (request_size : Nat) (w : World) : List Nat × World :=
  let request := wr32 request OFF_SEQUENCE_NUMBER w.seq.bs_sequence_number
  let seq := bs_next_sequence_number w.seq
  let w := { w with seq := seq, trace := w.trace ++ [Ev.persist seq.store] }
  let request := wr32 request OFF_CHECKSUM 0
  let request := wr32 request OFF_CHECKSUM (crc_mem request (to_int request_size))
  let w := serialport_write w bs_sync_word
  let w := serialport_write w (request.take request_size)
  (request, w)

/-- One iteration of the retry loop of `busside_requestreply` (lines 205-232).  The
result is `(true, ...)` when the iteration reaches `break`, `(false, ...)` when it leaves
through `err:`; `none` when `bs_sync` does not return within `fuel` steps. -/
def requestreply_attempt (fuel : Nat) (rd : Nat → Rd) (readcnt request_size : Nat)
    (request reply : List Nat) (w : World) : Option (Bool × List Nat × List Nat × World) :=
  let s := attempt_send request request_size w
  let request := s.1
  match bs_sync fuel 3 rd s.2 with
  | none => none
  | some (r, w) =>
    if r ≠ 0 then some (false, request, reply, attempt_err w)
    else
      let h := sp_read rd w BS_HEADER_SIZE
      let reply := mem_write reply 0 h.1.2
      if h.1.1 ≠ 0 ∨ h.1.2.length ≠ BS_HEADER_SIZE then
        some (false, request, reply, attempt_err h.2)
      else if rd32 reply OFF_PAYLOAD_LENGTH ≠ readcnt then
        some (false, request, reply, attempt_err h.2)
      else
        let p := sp_read rd h.2 readcnt
        let reply := mem_write reply BS_HEADER_SIZE p.1.2
        if p.1.1 ≠ 0 ∨ p.1.2.length ≠ readcnt then
          some (false, request, reply, attempt_err p.2)
        else if rd32 reply OFF_SEQUENCE_NUMBER ≠ rd32 request OFF_SEQUENCE_NUMBER then
          some (false, request, reply, attempt_err p.2)
        else
          let checksum := rd32 reply OFF_CHECKSUM
          let reply := wr32 reply OFF_CHECKSUM 0
          if crc_mem reply
              (to_int ((BS_HEADER_SIZE + rd32 reply OFF_PAYLOAD_LENGTH) % 4294967296))
              ≠ checksum then
            some (false, request, reply, attempt_err p.2)
          else some (true, request, reply, p.2)

/-- The retry loop `for (i = 0; i < nretries; i++)` shared by `busside_echo` and
`busside_requestreply`, around the loop body `attempt`, with `k` iterations left and
counter `i`; the result carries the value of `i` on exit (the loop bound when no iteration
reached `break`). -/
def retry_loop (attempt : List Nat → List Nat → World → Option (Bool × List Nat × List Nat × World)) :
    Nat → Nat → List Nat → List Nat → World → Option (Nat × List Nat × List Nat × World)
  | 0, i, request, reply, w => some (i, request, reply, w)
  | k + 1, i, request, reply, w =>
    match attempt request reply w with
    | none => none
    | some (true, request, reply, w) => some (i, request, reply, w)
    | some (false, request, reply, w) => retry_loop attempt k (i + 1) request reply w

/-- The request buffer of `busside_requestreply` before the loop (lines 189-199): command,
payload length, the seven argument words and the bytes to write, laid into the buffer
`request` that `malloc` returned. -/
def requestreply_request (request : List Nat) (request_size spispeed writecnt readcnt : Nat)
    (writearr : List Nat) : List Nat :=
  let request := wr32 request OFF_COMMAND BUSSIDE_SPI_COMMAND
  let request := wr32 request OFF_PAYLOAD_LENGTH
    ((request_size + 4294967296 - BS_HEADER_SIZE) % 4294967296)
  let request := wr32 request (BS_HEADER_SIZE + 4 * 0) (spispeeds_spispeed spispeed)
  let request := wr32 request (BS_HEADER_SIZE + 4 * 1) 9
  let request := wr32 request (BS_HEADER_SIZE + 4 * 2) 6
  let request := wr32 request (BS_HEADER_SIZE + 4 * 3) 8
  let request := wr32 request (BS_HEADER_SIZE + 4 * 4) 7
  let request := wr32 request (BS_HEADER_SIZE + 4 * 5) writecnt
  let request := wr32 request (BS_HEADER_SIZE + 4 * 6) readcnt
  mem_write request (BS_HEADER_SIZE + 4 * 7) (writearr.take writecnt)

/-- Function `busside_requestreply`.  `ERROR_OOM` is the constant of `flash.h`;
`malloc1`, `malloc2`, `junk1`, `junk2` say how the two `malloc` calls turn out; `spispeed`
is the global of that name; `rd` gives the outcomes of the transport reads, which is why
the `timeout` handed to them does not appear in the body.  The result is the return
value, the caller's `readarr` afterwards, and the world. -/
def busside_requestreply (ERROR_OOM : Int) (fuel : Nat) (rd : Nat → Rd)
    (malloc1 malloc2 : Bool) (junk1 junk2 : Nat → Nat) (spispeed : Nat)
    (nretries _timeout : Int) (writecnt readcnt : Nat) (writearr readarr : List Nat)
    (w : World) : Option (Int × List Nat × World) :=
  let request_size := (BS_HEADER_SIZE + 7 * 4 + writecnt) % 4294967296
  match malloc malloc1 junk1 request_size with
  | none => some (ERROR_OOM, readarr, w)
  | some request =>
    match malloc malloc2 junk2 ((BS_HEADER_SIZE + readcnt) % 4294967296) with
    | none => some (ERROR_OOM, readarr, w)
    | some reply =>
      let request := requestreply_request request request_size spispeed writecnt readcnt
        writearr
      match retry_loop (requestreply_attempt fuel rd readcnt request_size)
          (to_u32 nretries) 0 request reply w with
      | none => none
      | some (i, _, reply, w) =>
        if i = to_u32 nretries then some (-1, readarr, w)
        else some (0, mem_write readarr 0 ((reply.drop BS_HEADER_SIZE).take readcnt), w)

/-- One iteration of the retry loop of `busside_echo` (lines 132-156). -/
def echo_attempt (fuel : Nat) (rd : Nat → Rd) (request reply : List Nat) (w : World) :
    Option (Bool × List Nat × List Nat × World) :=
  let s := attempt_send request BS_HEADER_SIZE w
  let request := s.1
  match bs_sync fuel 3 rd s.2 with
  | none => none
  | some (r, w) =>
    if r ≠ 0 then some (false, request, reply, attempt_err w)
    else
      let h := sp_read rd w BS_HEADER_SIZE
      let reply := mem_write reply 0 h.1.2
      if h.1.1 ≠ 0 ∨ h.1.2.length ≠ BS_HEADER_SIZE then
        some (false, request, reply, attempt_err h.2)
      else if rd32 reply OFF_PAYLOAD_LENGTH ≠ 0 then
        some (false, request, reply, attempt_err h.2)
      else if rd32 reply OFF_SEQUENCE_NUMBER ≠ rd32 request OFF_SEQUENCE_NUMBER then
        some (false, request, reply, attempt_err h.2)
      else
        let checksum := rd32 reply OFF_CHECKSUM
        let reply := wr32 reply OFF_CHECKSUM 0
        if crc_mem reply (to_int BS_HEADER_SIZE) ≠ checksum then
          some (false, request, reply, attempt_err h.2)
        else some (true, request, reply, h.2)

/-- Function `busside_echo`; parameters as for `busside_requestreply`. -/
def busside_echo (ERROR_OOM : Int) (fuel : Nat) (rd : Nat → Rd)
    (malloc1 malloc2 : Bool) (junk1 junk2 : Nat → Nat)
    (nretries _timeout : Int) (w : World) : Option (Int × World) :=
  match malloc malloc1 junk1 BS_HEADER_SIZE with
  | none => some (ERROR_OOM, w)
  | some request =>
    match malloc malloc2 junk2 BS_HEADER_SIZE with
    | none => some (ERROR_OOM, w)
    | some reply =>
      let request := wr32 request OFF_COMMAND BUSSIDE_SPI_ECHO
      let request := wr32 request OFF_PAYLOAD_LENGTH 0
      match retry_loop (echo_attempt fuel rd) (to_u32 nretries) 0 request reply w with
      | none => none
      | some (i, _, _, w) =>
        if i = to_u32 nretries then some (-1, w)
        else some (0, w)

/-- Number of transport writes in a trace whose bytes satisfy `P`. -/
def count_tx (P : List Nat → Bool) (trace : List Ev) : Nat :=
  (trace.filter (fun e => match e with
    | Ev.tx b => P b
    | _ => false)).length

/-- Number of request frames written to the transport in a trace: the transport
writes other than those of the two-byte marker. -/
def frames_sent (trace : List Ev) : Nat := count_tx (fun b => decide (b ≠ bs_sync_word)) trace

/-- Number of writes of the marker `FE CA` in a trace. -/
def markers_sent (trace : List Ev) : Nat := count_tx (fun b => decide (b = bs_sync_word)) trace

/-- The state after `k` loop iterations that all leave through `err:`; `none` when one
of them reaches `break` or does not return. -/
def failed_attempts
    (attempt : List Nat → List Nat → World → Option (Bool × List Nat × List Nat × World)) :
    Nat → List Nat → List Nat → World → Option (List Nat × List Nat × World)
  | 0, request, reply, w => some (request, reply, w)
  | k + 1, request, reply, w =>
    match attempt request reply w with
    | some (false, request, reply, w) => failed_attempts attempt k request reply w
    | _ => none

/-- A reply stream on which every read delivers the byte `0xFE` and takes one second. -/
def fe_stream : Nat → Rd := fun _ => { rv := 0, data := [0xfe], dt := 1000000 }

/-- An attempt body that sends one marker and one frame per iteration, the frame being
the first `request_size` bytes of a request buffer whose length it keeps. -/
def SendsOneFrame
    (attempt : List Nat → List Nat → World → Option (Bool × List Nat × List Nat × World))
    (request_size : Nat) : Prop :=
  ∀ (P : List Nat → Bool) request reply w ok rq' rp' w',
    attempt request reply w = some (ok, rq', rp', w') →
      rq'.length = request.length
        ∧ count_tx P w'.trace = count_tx P w.trace + (if P bs_sync_word then 1 else 0)
            + (if P (rq'.take request_size) then 1 else 0)

/-- The request buffer, the reply buffer and the world after the first `k` attempts of a
call of `busside_requestreply` whose two allocations succeed, when these `k` attempts all
leave through `err:` (`none` otherwise). -/
def requestreply_after_failures (fuel : Nat) (rd : Nat → Rd) (junk1 junk2 : Nat → Nat)
    (spispeed writecnt readcnt : Nat) (writearr : List Nat) (w : World) (k : Nat) :
    Option (List Nat × List Nat × World) :=
  failed_attempts
    (requestreply_attempt fuel rd readcnt ((BS_HEADER_SIZE + 7 * 4 + writecnt) % 4294967296))
    k
    (requestreply_request
      ((List.range ((BS_HEADER_SIZE + 7 * 4 + writecnt) % 4294967296)).map junk1)
      ((BS_HEADER_SIZE + 7 * 4 + writecnt) % 4294967296) spispeed writecnt readcnt writearr)
    ((List.range ((BS_HEADER_SIZE + readcnt) % 4294967296)).map junk2) w

/-! ## Example runs -/

/-- A world at time 0 whose sequence store holds 5. -/
def demo_world : World := world0 ⟨5, some [5, 0, 0, 0]⟩

/-- Header of a reply to sequence number 6 declaring three payload bytes, with the
checksum of the header followed by the payload `01 02 03`. -/
def demo_reply_header : List Nat := [43, 0, 0, 0, 3, 0, 0, 0, 6, 0, 0, 0, 98, 221, 78, 5]

/-- Three reads that time out after one second each, then the marker, the header
`demo_reply_header` and the payload `01 02 03`. -/
def demo_retry_stream : Nat → Rd :=
  stream_of ([⟨0, [], 1000000⟩, ⟨0, [], 1000000⟩, ⟨0, [], 1000000⟩]
    ++ byte_reads 1000 [0xfe, 0xca] ++ [⟨0, demo_reply_header, 1000⟩, ⟨0, [1, 2, 3], 1000⟩])

/-- The state after the first, failed attempt of a request `9F` with `readcnt = 3` on
`demo_retry_stream` from `demo_world`. -/
def demo_after_one_failure : List Nat × List Nat × World :=
  ([43, 0, 0, 0, 29, 0, 0, 0, 5, 0, 0, 0, 238, 247, 144, 98, 0, 18, 122, 0, 9, 0, 0, 0,
      6, 0, 0, 0, 8, 0, 0, 0, 7, 0, 0, 0, 1, 0, 0, 0, 3, 0, 0, 0, 159],
   [0, 0, 0, 0, 0, 0, 0, 0, 0, 0, 0, 0, 0, 0, 0, 0, 0, 0, 0],
   { now := 3005000, pos := 3, seq := ⟨6, some [6, 0, 0, 0]⟩,
     trace := [Ev.persist (some [6, 0, 0, 0]), Ev.tx [254, 202],
       Ev.tx [43, 0, 0, 0, 29, 0, 0, 0, 5, 0, 0, 0, 238, 247, 144, 98, 0, 18, 122, 0, 9, 0, 0, 0,
      6, 0, 0, 0, 8, 0, 0, 0, 7, 0, 0, 0, 1, 0, 0, 0, 3, 0, 0, 0, 159],
       Ev.rx 0, Ev.rx 1000000, Ev.rx 2000000, Ev.flush] })

/-- The marker, a valid header for sequence number 5 declaring three payload bytes, then
a payload read that fails after delivering two bytes. -/
def demo_short_payload_stream : Nat → Rd :=
  stream_of (byte_reads 1000 [0xfe, 0xca]
    ++ [⟨0, [43, 0, 0, 0, 3, 0, 0, 0, 5, 0, 0, 0, 99, 187, 172, 156], 1000⟩,
        ⟨1, [1, 2], 1000⟩])

/-- The outcome of a single-attempt request on `demo_short_payload_stream`. -/
def demo_failed_result : Int × List Nat × World :=
  (-1, [7, 7, 7],
   { now := 9000, pos := 4, seq := ⟨6, some [6, 0, 0, 0]⟩,
     trace := [Ev.persist (some [6, 0, 0, 0]), Ev.tx [254, 202],
       Ev.tx [43, 0, 0, 0, 29, 0, 0, 0, 5, 0, 0, 0, 238, 247, 144, 98, 0, 18, 122, 0, 9, 0, 0, 0,
      6, 0, 0, 0, 8, 0, 0, 0, 7, 0, 0, 0, 1, 0, 0, 0, 3, 0, 0, 0, 159],
       Ev.rx 0, Ev.rx 1000, Ev.rx 2000, Ev.rx 3000, Ev.flush] })

/-- The reads `FE`, a failed read, `CA`, then `FE CA`, ten microseconds each. -/
def demo_broken_marker_stream : Nat → Rd :=
  stream_of [⟨0, [0xfe], 10⟩, ⟨1, [], 10⟩, ⟨0, [0xca], 10⟩, ⟨0, [0xfe], 10⟩, ⟨0, [0xca], 10⟩]

/-! ## Clock speed parameter (`busside_get_spispeed`) -/

/-- Library function `strlen` on a C string. -/
def strlen (s : List Char) : Nat := s.length

/-- Library function `strncasecmp(s1, s2, n)`: the first `n` characters are compared
without regard to case, up to the end of the shorter string; the result is the
difference at the first position that differs, 0 when there is none. -/
def strncasecmp : List Char → List Char → Nat → Int
  | _, _, 0 => 0
  | [], [], _ + 1 => 0
  | [], c2 :: _, _ + 1 => 0 - (c2.toLower.toNat : Int)
  | c1 :: _, [], _ + 1 => (c1.toLower.toNat : Int)
  | c1 :: r1, c2 :: r2, n + 1 =>
    if c1.toLower ≠ c2.toLower then (c1.toLower.toNat : Int) - (c2.toLower.toNat : Int)
    else strncasecmp r1 r2 n

/-- The loop `for (i = 0; spispeeds[i].name; i++)` of `busside_get_spispeed` over the
rows from index `i` on: it ends at the first row whose name is `NULL`, or with
`speed = spispeeds[i].speed; break` at the first row whose name is matched.  The result
is the final `i` and `speed`. -/
def get_spispeed_loop (tmp : List Char) :
    List (Option String × Nat × Nat) → Nat → Int → Nat × Int
  | [], i, speed => (i, speed)
  | (none, _, _) :: _, i, speed => (i, speed)
  | (some name, code, _) :: rest, i, speed =>
    if strncasecmp name.toList tmp (strlen name.toList) = 0 then (i, (code : Int))
    else get_spispeed_loop tmp rest (i + 1) speed

/-- Function `busside_get_spispeed`; `tmp` is what `extract_programmer_param("spispeed")`
returned (`none` for `NULL`). -/
def busside_get_spispeed (tmp : Option String) : Int :=
  let speed : Int := 0x7
  match tmp with
  | none => speed
  | some t => (get_spispeed_loop t.toList spispeeds 0 speed).2

/-! ## Frames and events of a run -/

/-- The frame that an attempt of `busside_requestreply` made with counter value `seq`
writes to the transport: the request buffer built before the loop, stamped with `seq`. -/
def requestreply_frame (junk1 : Nat → Nat) (spispeed writecnt readcnt : Nat)
    (writearr : List Nat) (seq : Nat) : List Nat :=
  (bs_stamp
    (requestreply_request
      ((List.range ((BS_HEADER_SIZE + 7 * 4 + writecnt) % 4294967296)).map junk1)
      ((BS_HEADER_SIZE + 7 * 4 + writecnt) % 4294967296) spispeed writecnt readcnt writearr)
    ((BS_HEADER_SIZE + 7 * 4 + writecnt) % 4294967296) seq).take
      ((BS_HEADER_SIZE + 7 * 4 + writecnt) % 4294967296)

/-- The frame that an attempt of `busside_echo` made with counter value `seq` writes to
the transport. -/
def echo_frame (junk1 : Nat → Nat) (seq : Nat) : List Nat :=
  (bs_stamp
    (wr32 (wr32 ((List.range BS_HEADER_SIZE).map junk1) OFF_COMMAND BUSSIDE_SPI_ECHO)
      OFF_PAYLOAD_LENGTH 0)
    BS_HEADER_SIZE seq).take BS_HEADER_SIZE

/-- The writes of a trace (to the sequence store and to the transport), in order. -/
def io_log (trace : List Ev) : List Ev :=
  trace.filter (fun e => match e with
    | Ev.tx _ => true
    | Ev.persist _ => true
    | _ => false)

/-- The byte strings written to the transport in a trace, in order. -/
def tx_log (trace : List Ev) : List (List Nat) :=
  trace.filterMap (fun e => match e with
    | Ev.tx b => some b
    | _ => none)

/-- A stretch of a trace without writes: only transport reads and flushes. -/
def is_quiet (q : List Ev) : Bool :=
  q.all (fun e => match e with
    | Ev.rx _ => true
    | Ev.flush => true
    | _ => false)

/-- The writes of one attempt on the request buffer `request`, made with the sequence
manager in state `seq`: the store is rewritten, then the marker and the stamped request
go to the transport. -/
def attempt_events (request : List Nat) (request_size : Nat) (seq : SeqState) : List Ev :=
  [Ev.persist (bs_next_sequence_number seq).store, Ev.tx bs_sync_word,
    Ev.tx ((bs_stamp request request_size seq.bs_sequence_number).take request_size)]

/-- The writes of `m` attempts in a row. -/
def attempts_events (request : List Nat) (request_size : Nat) : Nat → SeqState → List Ev
  | 0, _ => []
  | m + 1, seq =>
    attempt_events request request_size seq
      ++ attempts_events request request_size m (bs_next_sequence_number seq)

/-- The sequence manager after `m` calls of `bs_next_sequence_number`. -/
def next_n : Nat → SeqState → SeqState
  | 0, seq => seq
  | m + 1, seq => next_n m (bs_next_sequence_number seq)

/-- What `m` attempts starting with counter value `s` write to the transport: for each
attempt the marker, then the frame for its counter value, the counter going up by one
(32 bits) from one attempt to the next. -/
def sent_log (frame : Nat → List Nat) : Nat → Nat → List (List Nat)
  | 0, _ => []
  | m + 1, s => bs_sync_word :: frame s :: sent_log frame m ((s + 1) % 4294967296)

/-- A list of writes made of blocks "store rewritten, marker sent, frame sent" in which
the store written holds the sequence number of the frame plus one (32 bits), a greater
value unless the number is `0xFFFFFFFF`. -/
def persisted_ahead : List Ev → Bool
  | [] => true
  | Ev.persist (some c) :: Ev.tx mk :: Ev.tx f :: rest =>
    decide (mk = bs_sync_word)
      && decide (rd32 c 0 = (rd32 f OFF_SEQUENCE_NUMBER + 1) % 4294967296)
      && decide (rd32 f OFF_SEQUENCE_NUMBER = 4294967295 ∨ rd32 f OFF_SEQUENCE_NUMBER < rd32 c 0)
      && persisted_ahead rest
  | _ => false

/-- Trace `t'` is trace `t` followed by a stretch without writes. -/
def quiet_ext (t t' : List Ev) : Prop := ∃ q, is_quiet q = true ∧ t' = t ++ q

/-- The outcome of the request `9F` with `readcnt = 3`, three attempts allowed, on
`demo_retry_stream` from `demo_world`: the second attempt is accepted. -/
def demo_retry_result : Int × List Nat × World :=
  (0, [1, 2, 3],
   { now := 3009000, pos := 7, seq := ⟨7, some [7, 0, 0, 0]⟩,
     trace := [Ev.persist (some [6, 0, 0, 0]), Ev.tx [254, 202],
       Ev.tx [43, 0, 0, 0, 29, 0, 0, 0, 5, 0, 0, 0, 238, 247, 144, 98, 0, 18, 122, 0, 9, 0, 0, 0,
      6, 0, 0, 0, 8, 0, 0, 0, 7, 0, 0, 0, 1, 0, 0, 0, 3, 0, 0, 0, 159],
       Ev.rx 0, Ev.rx 1000000, Ev.rx 2000000, Ev.flush,
       Ev.persist (some [7, 0, 0, 0]), Ev.tx [254, 202],
       Ev.tx [43, 0, 0, 0, 29, 0, 0, 0, 6, 0, 0, 0, 142, 200, 241, 56, 0, 18, 122, 0, 9, 0, 0, 0,
      6, 0, 0, 0, 8, 0, 0, 0, 7, 0, 0, 0, 1, 0, 0, 0, 3, 0, 0, 0, 159],
       Ev.rx 3005000, Ev.rx 3006000, Ev.rx 3007000, Ev.rx 3008000] })

/-- A probe reply header with command 0, no payload, sequence number 5 and the checksum
of these sixteen bytes. -/
def demo_echo_header : List Nat := [0, 0, 0, 0, 0, 0, 0, 0, 5, 0, 0, 0, 49, 69, 91, 164]

/-- The same header for sequence number 6, with the checksum that goes with it. -/
def demo_echo_header_six : List Nat := [0, 0, 0, 0, 0, 0, 0, 0, 6, 0, 0, 0, 210, 66, 212, 42]

/-- The marker followed by `demo_echo_header`. -/
def demo_echo_stream : Nat → Rd :=
  stream_of (byte_reads 1000 [0xfe, 0xca] ++ [⟨0, demo_echo_header, 1000⟩])

/-- The marker followed by `demo_echo_header_six`, twice. -/
def demo_echo_six_stream : Nat → Rd :=
  stream_of (byte_reads 1000 [0xfe, 0xca] ++ [⟨0, demo_echo_header_six, 1000⟩]
    ++ byte_reads 1000 [0xfe, 0xca] ++ [⟨0, demo_echo_header_six, 1000⟩])

/-- The outcome of a probe, three attempts allowed, on `demo_echo_six_stream` from
`demo_world`: the first attempt (sequence number 5) is rejected, the second accepted. -/
def demo_echo_six_result : Int × World :=
  (0, { now := 11000, pos := 6, seq := ⟨7, some [7, 0, 0, 0]⟩,
        trace := [Ev.persist (some [6, 0, 0, 0]), Ev.tx [254, 202],
          Ev.tx [0, 0, 0, 0, 0, 0, 0, 0, 5, 0, 0, 0, 49, 69, 91, 164],
          Ev.rx 0, Ev.rx 1000, Ev.rx 2000, Ev.flush,
          Ev.persist (some [7, 0, 0, 0]), Ev.tx [254, 202],
          Ev.tx [0, 0, 0, 0, 0, 0, 0, 0, 6, 0, 0, 0, 210, 66, 212, 42],
          Ev.rx 8000, Ev.rx 9000, Ev.rx 10000] })

/-- The writes `L` of `m` attempts that start with counter value `s` keep the store ahead
of the transport: `L` is made of `m` blocks of three writes, the store rewritten (then
holding the block's sequence number plus one, 32 bits), the marker sent, the frame sent;
and when the counter does not wrap (`s + m < 2^32`) the store content written in a block
is greater than the sequence number of the frame of that block and of every earlier
block. -/
def persist_before_send (s m : Nat) (L : List Ev) : Prop :=
  L.length = 3 * m
    ∧ (∀ j, j < m → ∃ c f, L[3 * j]? = some (Ev.persist (some c))
        ∧ L[3 * j + 1]? = some (Ev.tx bs_sync_word)
        ∧ L[3 * j + 2]? = some (Ev.tx f)
        ∧ rd32 f OFF_SEQUENCE_NUMBER = (s + j) % 4294967296
        ∧ rd32 c 0 = (s + j + 1) % 4294967296)
    ∧ (s + m < 4294967296 → ∀ i j c f, i ≤ j → j < m →
        L[3 * i + 2]? = some (Ev.tx f) → L[3 * j]? = some (Ev.persist (some c)) →
        rd32 f OFF_SEQUENCE_NUMBER < rd32 c 0)

/-- The request buffer of the request `9F` with `readcnt = 3` at speed code 7 before
the first attempt, allocated zeroed. -/
def demo_request : List Nat :=
  [43, 0, 0, 0, 29, 0, 0, 0, 0, 0, 0, 0, 0, 0, 0, 0, 0, 18, 122, 0, 9, 0, 0, 0,
    6, 0, 0, 0, 8, 0, 0, 0, 7, 0, 0, 0, 1, 0, 0, 0, 3, 0, 0, 0, 159]

/-- The reply buffer for `readcnt = 3`, allocated zeroed. -/
def demo_reply_buffer : List Nat := [0, 0, 0, 0, 0, 0, 0, 0, 0, 0, 0, 0, 0, 0, 0, 0, 0, 0, 0]

/-- The outcome of the first attempt of the request `9F` with `readcnt = 3` on
`demo_echo_stream`, whose header declares no payload: the attempt leaves through `err:`
after the header read. -/
def demo_mismatch_attempt : Bool × List Nat × List Nat × World :=
  (false,
   [43, 0, 0, 0, 29, 0, 0, 0, 5, 0, 0, 0, 238, 247, 144, 98, 0, 18, 122, 0, 9, 0, 0, 0,
     6, 0, 0, 0, 8, 0, 0, 0, 7, 0, 0, 0, 1, 0, 0, 0, 3, 0, 0, 0, 159],
   [0, 0, 0, 0, 0, 0, 0, 0, 5, 0, 0, 0, 49, 69, 91, 164, 0, 0, 0],
   { now := 8000, pos := 3, seq := ⟨6, some [6, 0, 0, 0]⟩,
     trace := [Ev.persist (some [6, 0, 0, 0]), Ev.tx [254, 202],
       Ev.tx [43, 0, 0, 0, 29, 0, 0, 0, 5, 0, 0, 0, 238, 247, 144, 98, 0, 18, 122, 0, 9, 0, 0, 0,
      6, 0, 0, 0, 8, 0, 0, 0, 7, 0, 0, 0, 1, 0, 0, 0, 3, 0, 0, 0, 159],
       Ev.rx 0, Ev.rx 1000, Ev.rx 2000, Ev.flush] })

/-- A well-formed frame of `struct bs_frame_s` as a peer sends it: the command, the
payload length `|B|`, the sequence number, the checksum of the whole frame taken with
the checksum field zeroed, then the payload `B`. -/
def reply_frame (command seq : Nat) (B : List Nat) : List Nat :=
  bs_stamp (u32_bytes command ++ u32_bytes B.length ++ u32_bytes 0 ++ u32_bytes 0 ++ B)
    (BS_HEADER_SIZE + B.length) seq

/-- In the attempt made on `request` from world `w`, `bs_sync` finds the marker and the
header read that follows succeeds and delivers the first 16 bytes of the frame `F`. -/
def header_delivered (fuel : Nat) (rd : Nat → Rd) (request : List Nat) (request_size : Nat)
    (w : World) (F : List Nat) : Bool :=
  match bs_sync fuel 3 rd (attempt_send request request_size w).2 with
  | some (r, ws) =>
    decide (r = 0 ∧ (rd ws.pos).rv = 0
      ∧ (rd ws.pos).data.take BS_HEADER_SIZE = F.take BS_HEADER_SIZE)
  | none => false

/-- In addition to `header_delivered`: when the frame `F` has `readcnt` payload bytes, a
read of `readcnt` bytes after the header read succeeds and delivers them. -/
def reply_delivered (fuel : Nat) (rd : Nat → Rd) (request : List Nat) (request_size : Nat)
    (w : World) (readcnt : Nat) (F : List Nat) : Bool :=
  header_delivered fuel rd request request_size w F
    && match bs_sync fuel 3 rd (attempt_send request request_size w).2 with
      | some (_, ws) =>
        decide (F.length = BS_HEADER_SIZE + readcnt →
          (rd (ws.pos + 1)).rv = 0
            ∧ (rd (ws.pos + 1)).data.take readcnt = F.drop BS_HEADER_SIZE)
      | none => false

/-- A reply stream that delivers the marker, then the first 16 bytes of the frame `F`,
then the rest of `F`, one millisecond per read. -/
def demo_frame_stream (F : List Nat) : Nat → Rd :=
  stream_of (byte_reads 1000 [0xfe, 0xca]
    ++ [⟨0, F.take BS_HEADER_SIZE, 1000⟩, ⟨0, F.drop BS_HEADER_SIZE, 1000⟩])

/-! ## Lemmas on the checksum engine -/

theorem crc_table_at_lt (i : Nat) : crc_table_at i < 4294967296 := by
  unfold crc_table_at crc_table
  rcases Nat.lt_or_ge i 16 with h | h
  · interval_cases i <;> simp
  · rw [List.getD_eq_default _ _ (by simpa using h)]
    decide

theorem to_uchar_char_of_byte (b : Nat) : to_uchar (char_of_byte b) = b % 256 := by
  unfold to_uchar char_of_byte
  split <;> omega

theorem shiftRight_xor (a b k : Nat) : (a ^^^ b) >>> k = (a >>> k) ^^^ (b >>> k) := by
  apply Nat.eq_of_testBit_eq
  intro i
  simp [Nat.testBit_xor, Nat.testBit_shiftRight]

theorem crc32_bit_step_xor (a b : Nat) :
    crc32_bit_step (a ^^^ b) = crc32_bit_step a ^^^ crc32_bit_step b := by
  unfold crc32_bit_step
  rw [shiftRight_xor]
  have h := @Nat.xor_mod_two_eq a b
  rcases Nat.mod_two_eq_zero_or_one a with ha | ha <;>
    rcases Nat.mod_two_eq_zero_or_one b with hb | hb
  · have : (a ^^^ b) % 2 = 0 := by omega
    simp [ha, hb, this]
  · have : (a ^^^ b) % 2 = 1 := by omega
    simp [ha, hb, this, Nat.xor_assoc]
  · have : (a ^^^ b) % 2 = 1 := by omega
    simp [ha, hb, this]
    rw [Nat.xor_assoc, Nat.xor_comm (b >>> 1), ← Nat.xor_assoc]
  · have : (a ^^^ b) % 2 = 0 := by omega
    simp [ha, hb, this]
    rw [Nat.xor_assoc, ← Nat.xor_assoc 3988292384, Nat.xor_comm 3988292384 (b >>> 1),
      Nat.xor_assoc (b >>> 1), Nat.xor_self, Nat.xor_zero]

theorem crc32_bit_step8_eq (c : Nat) :
    crc32_bit_step8 c = crc32_bit_step4 (crc32_bit_step4 c) := rfl

theorem crc32_bit_step4_xor (a b : Nat) :
    crc32_bit_step4 (a ^^^ b) = crc32_bit_step4 a ^^^ crc32_bit_step4 b := by
  simp only [crc32_bit_step4, crc32_bit_step_xor]

theorem crc32_bit_step4_low (r : Nat) (h : r < 16) :
    crc32_bit_step4 r = crc_table_at r := by
  interval_cases r <;> decide

theorem crc32_bit_step_even (z : Nat) : crc32_bit_step (2 * z) = z := by
  unfold crc32_bit_step
  have h1 : ¬ ((2 * z) % 2 = 1) := by omega
  have h2 : (2 * z) >>> 1 = z := by
    rw [Nat.shiftRight_eq_div_pow]; norm_num
  simp [h1, h2]

theorem crc32_bit_step4_high (z : Nat) : crc32_bit_step4 (16 * z) = z := by
  unfold crc32_bit_step4
  have e1 : 16 * z = 2 * (8 * z) := by omega
  have e2 : 8 * z = 2 * (4 * z) := by omega
  have e3 : 4 * z = 2 * (2 * z) := by omega
  rw [e1, crc32_bit_step_even, e2, crc32_bit_step_even, e3, crc32_bit_step_even,
    crc32_bit_step_even]

theorem split_low_nibble (x : Nat) : x = (x % 16) ^^^ (16 * (x >>> 4)) := by
  apply Nat.eq_of_testBit_eq
  intro i
  have e16 : (16 : Nat) = 2 ^ 4 := by norm_num
  rw [Nat.testBit_xor, e16, Nat.testBit_mod_two_pow, Nat.mul_comm, ← Nat.shiftLeft_eq,
    Nat.testBit_shiftLeft, Nat.testBit_shiftRight]
  by_cases h : i < 4
  · have : ¬ (i ≥ 4) := by omega
    simp [h, this]
  · have h4 : i ≥ 4 := by omega
    have : 4 + (i - 4) = i := by omega
    simp [h, h4, this]

/-- One nibble step of the table-driven code is four bit steps. -/
theorem crc32_bit_step4_eq (x : Nat) :
    crc32_bit_step4 x = crc_table_at (x % 16) ^^^ (x >>> 4) := by
  conv_lhs => rw [split_low_nibble x]
  rw [crc32_bit_step4_xor, crc32_bit_step4_low _ (Nat.mod_lt _ (by norm_num)),
    crc32_bit_step4_high]

theorem mod256_and_15 (x : Nat) : (x % 256) &&& 0x0f = x % 16 := by
  have e : (0x0f : Nat) = 2 ^ 4 - 1 := by norm_num
  rw [e, Nat.and_pow_two_sub_one_eq_mod]
  norm_num

/-- The function `crc_update` performs eight bit steps on `crc ^ data`. -/
theorem crc_update_eq_bitwise (crc data : Nat) (hd : data < 256) :
    crc_update crc data = crc32_bit_step8 (crc ^^^ data) := by
  have hd8 : data >>> 4 >>> 4 = 0 := by
    rw [Nat.shiftRight_eq_div_pow, Nat.shiftRight_eq_div_pow]; omega
  rw [crc32_bit_step8_eq, crc32_bit_step4_eq (crc ^^^ data), shiftRight_xor,
    crc32_bit_step4_eq, shiftRight_xor, shiftRight_xor, hd8]
  unfold crc_update
  simp only [mod256_and_15, Nat.zero_mul, Nat.shiftRight_zero, Nat.one_mul, Nat.xor_zero,
    Nat.xor_assoc, shiftRight_xor]

theorem crc_update_lt (crc data : Nat) (h : crc < 4294967296) :
    crc_update crc data < 4294967296 := by
  unfold crc_update
  have e : (4294967296 : Nat) = 2 ^ 32 := by norm_num
  have hs : ∀ x : Nat, x < 2 ^ 32 → x >>> 4 < 2 ^ 32 := by
    intro x hx
    rw [Nat.shiftRight_eq_div_pow]
    exact lt_of_le_of_lt (Nat.div_le_self _ _) hx
  have ht : ∀ i, crc_table_at i < 2 ^ 32 := fun i => by
    have := crc_table_at_lt i
    omega
  rw [e] at h ⊢
  exact Nat.xor_lt_two_pow (ht _) (hs _ (Nat.xor_lt_two_pow (ht _) (hs _ h)))

theorem foldl_range'_getD (f : Nat → Nat → Nat) (s post : List Nat) :
    ∀ (pre : List Nat) (c : Nat),
      (List.range' pre.length s.length).foldl
          (fun c i => f c ((pre ++ (s ++ post)).getD i 0)) c
        = s.foldl f c := by
  induction s with
  | nil => intro pre c; simp
  | cons a t ih =>
    intro pre c
    have h := ih (pre ++ [a]) (f c a)
    simp only [List.length_append, List.length_singleton, List.append_assoc,
      List.singleton_append] at h
    simp only [List.length_cons, List.range', List.foldl_cons, List.cons_append]
    rw [← h]
    have e : (pre ++ a :: (t ++ post)).getD pre.length 0 = a := by
      rw [List.getD_eq_getElem?_getD, List.getElem?_append_right (le_refl _)]
      simp
    rw [e]

/-- The `for` loop of `crc_mem` over the first `n` bytes of a buffer is a left fold over
those bytes. -/
theorem foldl_range_getD_append (f : Nat → Nat → Nat) (s post : List Nat) (c : Nat) :
    (List.range s.length).foldl (fun c i => f c ((s ++ post).getD i 0)) c = s.foldl f c := by
  have h := foldl_range'_getD f s post [] c
  simpa [List.range_eq_range'] using h

/-- The `for` loop of `crc_mem` over a buffer of exactly `n` bytes is a left fold. -/
theorem foldl_range_getD (f : Nat → Nat → Nat) (s : List Nat) (c : Nat) :
    (List.range s.length).foldl (fun c i => f c (s.getD i 0)) c = s.foldl f c := by
  have h := foldl_range_getD_append f s [] c
  simpa using h

theorem foldl_crc_update_lt (s : List Nat) :
    ∀ c, c < 4294967296 → s.foldl (fun c b => crc_update c (b % 256)) c < 4294967296 := by
  induction s with
  | nil => intro c h; simpa using h
  | cons a t ih => intro c h; exact ih _ (crc_update_lt _ _ h)

theorem not32_eq_xor (c : Nat) (h : c < 4294967296) : not32 c = c ^^^ 4294967295 := by
  unfold not32
  apply Nat.eq_of_testBit_eq
  intro i
  have e : (4294967295 : Nat) - c = 2 ^ 32 - (c + 1) := by norm_num; omega
  have e2 : (4294967295 : Nat) = 2 ^ 32 - 1 := by norm_num
  rw [e, Nat.testBit_two_pow_sub_succ (by norm_num; exact h), Nat.testBit_xor, e2,
    Nat.testBit_two_pow_sub_one]
  by_cases hi : i < 32
  · simp [hi]
  · have h32 : c < 2 ^ 32 := by norm_num; exact h
    have hle : 2 ^ 32 ≤ 2 ^ i := Nat.pow_le_pow_right (by norm_num) (by omega)
    have : c.testBit i = false := Nat.testBit_lt_two_pow (lt_of_lt_of_le h32 hle)
    simp [hi, this]

/-- The function `crc_mem` over a whole buffer, as a fold of `crc_update` over its bytes. -/
theorem crc_mem_eq_foldl (s : List Nat) :
    crc_mem s (s.length : Int) =
      not32 (s.foldl (fun c b => crc_update c (b % 256)) 4294967295) := by
  unfold crc_mem
  simp only [Int.toNat_ofNat, char_at, to_uchar_char_of_byte]
  rw [foldl_range_getD (fun c b => crc_update c (b % 256)) s]

/-- Function `crc_mem` reads only the first `n` bytes of its buffer. -/
theorem crc_mem_append (s post : List Nat) :
    crc_mem (s ++ post) (s.length : Int) = crc_mem s (s.length : Int) := by
  rw [crc_mem_eq_foldl]
  unfold crc_mem
  simp only [Int.toNat_ofNat, char_at, to_uchar_char_of_byte]
  rw [foldl_range_getD_append (fun c b => crc_update c (b % 256)) s post]

theorem foldl_congr_bytes (f g : Nat → Nat → Nat) (s : List Nat)
    (h : ∀ c, ∀ b ∈ s, f c b = g c b) : ∀ c, s.foldl f c = s.foldl g c := by
  induction s with
  | nil => intro c; rfl
  | cons a t ih =>
    intro c
    simp only [List.foldl_cons]
    rw [h c a (List.mem_cons_self _ _)]
    exact ih (fun c b hb => h c b (List.mem_cons_of_mem _ hb)) _

theorem crc32_bit_step8_xor (a b : Nat) :
    crc32_bit_step8 (a ^^^ b) = crc32_bit_step8 a ^^^ crc32_bit_step8 b := by
  simp only [crc32_bit_step8_eq, crc32_bit_step4_xor]

theorem crc32_bit_step8_high (z : Nat) : crc32_bit_step8 (256 * z) = z := by
  have e : 256 * z = 16 * (16 * z) := by omega
  rw [crc32_bit_step8_eq, e, crc32_bit_step4_high, crc32_bit_step4_high]

theorem split_low_byte (x : Nat) : x = (x % 256) ^^^ (256 * (x >>> 8)) := by
  apply Nat.eq_of_testBit_eq
  intro i
  have e256 : (256 : Nat) = 2 ^ 8 := by norm_num
  rw [Nat.testBit_xor, e256, Nat.testBit_mod_two_pow, Nat.mul_comm, ← Nat.shiftLeft_eq,
    Nat.testBit_shiftLeft, Nat.testBit_shiftRight]
  by_cases h : i < 8
  · have : ¬ (i ≥ 8) := by omega
    simp [h, this]
  · have h8 : i ≥ 8 := by omega
    have : 8 + (i - 8) = i := by omega
    simp [h, h8, this]

/-- One step of the full-table algorithm is eight bit steps. -/
theorem crc32_table256_step (c b : Nat) (hb : b < 256) :
    crc32_table256 ((c ^^^ b) % 256) ^^^ (c >>> 8) = crc32_bit_step8 (c ^^^ b) := by
  have hb8 : b >>> 8 = 0 := by
    rw [Nat.shiftRight_eq_div_pow]; omega
  conv_rhs => rw [split_low_byte (c ^^^ b)]
  rw [crc32_bit_step8_xor, crc32_bit_step8_high, shiftRight_xor, hb8, Nat.xor_zero]
  rfl

/-- C1: for every byte buffer `s` (bytes `>= 0x80` included, read through the signed
`char` pointer), `crc_mem` over the whole buffer is the standard CRC-32 (reflected polynomial
`0xEDB88320`, initial value `0xFFFFFFFF`, final complement), computed bit by bit and,
equivalently, with the full 256-entry table; the check value of `"123456789"` is
`0xCBF43926` and the checksum of the empty buffer is `0`. -/
theorem crc_mem_eq_crc32 (s : List Nat) (hs : ∀ b ∈ s, b < 256) :
    crc_mem s (s.length : Int) = crc32_bitwise s
      ∧ crc_mem s (s.length : Int) = crc32_bytewise s
      ∧ crc_mem [0x31, 0x32, 0x33, 0x34, 0x35, 0x36, 0x37, 0x38, 0x39] 9 = 0xCBF43926
      ∧ crc_mem [] 0 = 0 := by
  have h1 : s.foldl (fun c b => crc_update c (b % 256)) 4294967295
      = s.foldl (fun c b => crc32_bit_step8 (c ^^^ b)) 4294967295 := by
    apply foldl_congr_bytes
    intro c b hb
    have hlt := hs b hb
    show crc_update c (b % 256) = crc32_bit_step8 (c ^^^ b)
    rw [Nat.mod_eq_of_lt hlt, crc_update_eq_bitwise c b hlt]
  have h2 : s.foldl (fun c b => crc32_table256 ((c ^^^ b) % 256) ^^^ (c >>> 8)) 4294967295
      = s.foldl (fun c b => crc32_bit_step8 (c ^^^ b)) 4294967295 := by
    apply foldl_congr_bytes
    intro c b hb
    exact crc32_table256_step c b (hs b hb)
  have hlt := foldl_crc_update_lt s 4294967295 (by norm_num)
  refine ⟨?_, ?_, by decide, by decide⟩
  · rw [crc_mem_eq_foldl, not32_eq_xor _ hlt, h1]
    rfl
  · rw [crc_mem_eq_foldl, not32_eq_xor _ hlt, h1, ← h2]
    rfl

/-- The checksum of a buffer with bytes at and above `0x80` agrees with the standard CRC-32. -/
theorem crc_mem_eq_crc32_witness :
    (∀ b ∈ [0x80, 0xFF, 0x00, 0x7F], b < 256)
      ∧ (crc_mem [0x80, 0xFF, 0x00, 0x7F] (([0x80, 0xFF, 0x00, 0x7F] : List Nat).length : Int)
          = crc32_bitwise [0x80, 0xFF, 0x00, 0x7F]
        ∧ crc_mem [0x80, 0xFF, 0x00, 0x7F] (([0x80, 0xFF, 0x00, 0x7F] : List Nat).length : Int)
          = crc32_bytewise [0x80, 0xFF, 0x00, 0x7F]
        ∧ crc_mem [0x31, 0x32, 0x33, 0x34, 0x35, 0x36, 0x37, 0x38, 0x39] 9 = 0xCBF43926
        ∧ crc_mem [] 0 = 0) :=
  ⟨by decide, crc_mem_eq_crc32 [0x80, 0xFF, 0x00, 0x7F] (by decide)⟩

/-! ## Lemmas on the frame codec -/

theorem length_eq_four (l : List Nat) (h : l.length = 4) :
    ∃ a b c d, l = [a, b, c, d] := by
  match l, h with
  | [a, b, c, d], _ => exact ⟨a, b, c, d, rfl⟩

theorem crc_mem_lt (s : List Nat) (n : Int) : crc_mem s n < 4294967296 := by
  simp only [crc_mem, not32]
  omega

theorem u32_value (v : Nat) (h : v < 4294967296) :
    v % 256 + 256 * (v / 256 % 256) + 65536 * (v / 65536 % 256)
      + 16777216 * (v / 16777216 % 256) = v := by
  omega

/-- C2: round trip of the frame codec.  A request buffer holding `command`, the payload
length `|B|` and the payload `B` (sequence and checksum fields still uninitialised), once
stamped with `seq` and checksummed over its `16 + |B|` bytes, passes the checksum check
applied to replies, and its fields read back as `command`, `|B|`, `seq` and payload `B`. -/
theorem frame_round_trip (command seq : Nat) (B j1 j2 : List Nat)
    (hc : command < 4294967296) (hs : seq < 4294967296)
    (hB : BS_HEADER_SIZE + B.length < 4294967296)
    (h1 : j1.length = 4) (h2 : j2.length = 4) :
    bs_checksum_ok (bs_stamp (u32_bytes command ++ u32_bytes B.length ++ j1 ++ j2 ++ B)
        (BS_HEADER_SIZE + B.length) seq) = true
      ∧ rd32 (bs_stamp (u32_bytes command ++ u32_bytes B.length ++ j1 ++ j2 ++ B)
        (BS_HEADER_SIZE + B.length) seq) OFF_COMMAND = command
      ∧ rd32 (bs_stamp (u32_bytes command ++ u32_bytes B.length ++ j1 ++ j2 ++ B)
        (BS_HEADER_SIZE + B.length) seq) OFF_PAYLOAD_LENGTH = B.length
      ∧ rd32 (bs_stamp (u32_bytes command ++ u32_bytes B.length ++ j1 ++ j2 ++ B)
        (BS_HEADER_SIZE + B.length) seq) OFF_SEQUENCE_NUMBER = seq
      ∧ (bs_stamp (u32_bytes command ++ u32_bytes B.length ++ j1 ++ j2 ++ B)
        (BS_HEADER_SIZE + B.length) seq).drop BS_HEADER_SIZE = B := by
  obtain ⟨a1, a2, a3, a4, rfl⟩ := length_eq_four j1 h1
  obtain ⟨b1, b2, b3, b4, rfl⟩ := length_eq_four j2 h2
  have e16 : BS_HEADER_SIZE = 16 := rfl
  rw [e16] at hB
  have hlen : B.length < 4294967296 := by omega
  have hmod : (16 + B.length) % 4294967296 = 16 + B.length := Nat.mod_eq_of_lt (by omega)
  generalize hcrc : crc_mem (wr32 (wr32 (u32_bytes command ++ u32_bytes B.length ++
      [a1, a2, a3, a4] ++ [b1, b2, b3, b4] ++ B) OFF_SEQUENCE_NUMBER seq) OFF_CHECKSUM 0)
      (to_int (BS_HEADER_SIZE + B.length)) = crc
  have hcrc_lt : crc < 4294967296 := by rw [← hcrc]; exact crc_mem_lt _ _
  have hst : bs_stamp (u32_bytes command ++ u32_bytes B.length ++ [a1, a2, a3, a4] ++
      [b1, b2, b3, b4] ++ B) (BS_HEADER_SIZE + B.length) seq
      = u32_bytes command ++ u32_bytes B.length ++ u32_bytes seq ++ u32_bytes crc ++ B := by
    unfold bs_stamp
    simp only [hcrc]
    simp [wr32, u32_bytes, OFF_SEQUENCE_NUMBER, OFF_CHECKSUM]
  have hz : wr32 (wr32 (u32_bytes command ++ u32_bytes B.length ++
      [a1, a2, a3, a4] ++ [b1, b2, b3, b4] ++ B) OFF_SEQUENCE_NUMBER seq) OFF_CHECKSUM 0
      = wr32 (u32_bytes command ++ u32_bytes B.length ++ u32_bytes seq ++ u32_bytes crc ++ B)
          OFF_CHECKSUM 0 := by
    simp [wr32, u32_bytes, OFF_SEQUENCE_NUMBER, OFF_CHECKSUM]
  rw [hst]
  refine ⟨?_, ?_, ?_, ?_, ?_⟩
  · unfold bs_checksum_ok
    have hl : rd32 (wr32 (u32_bytes command ++ u32_bytes B.length ++ u32_bytes seq ++
        u32_bytes crc ++ B) OFF_CHECKSUM 0) OFF_PAYLOAD_LENGTH = B.length := by
      simp [wr32, rd32, u32_bytes, OFF_PAYLOAD_LENGTH, OFF_CHECKSUM]
      exact u32_value _ hlen
    have hk : rd32 (u32_bytes command ++ u32_bytes B.length ++ u32_bytes seq ++
        u32_bytes crc ++ B) OFF_CHECKSUM = crc := by
      simp [rd32, u32_bytes, OFF_CHECKSUM]
      exact u32_value _ hcrc_lt
    simp only [hl, hk]
    rw [← hz, e16, hmod, ← e16, hcrc]
    simp
  · simp [rd32, u32_bytes, OFF_COMMAND]
    exact u32_value _ hc
  · simp [rd32, u32_bytes, OFF_PAYLOAD_LENGTH]
    exact u32_value _ hlen
  · simp [rd32, u32_bytes, OFF_SEQUENCE_NUMBER]
    exact u32_value _ hs
  · simp [u32_bytes, BS_HEADER_SIZE]

/-- A stamped SPI-style frame with bytes at and above `0x80` in its payload round-trips. -/
theorem frame_round_trip_witness :
    ((43 : Nat) < 4294967296 ∧ (5 : Nat) < 4294967296
        ∧ BS_HEADER_SIZE + ([0x9F, 0x80, 0xFF] : List Nat).length < 4294967296
        ∧ ([1, 2, 3, 4] : List Nat).length = 4 ∧ ([5, 6, 7, 8] : List Nat).length = 4)
      ∧ (bs_checksum_ok (bs_stamp (u32_bytes 43 ++ u32_bytes ([0x9F, 0x80, 0xFF] : List Nat).length
            ++ [1, 2, 3, 4] ++ [5, 6, 7, 8] ++ [0x9F, 0x80, 0xFF])
            (BS_HEADER_SIZE + ([0x9F, 0x80, 0xFF] : List Nat).length) 5) = true
        ∧ rd32 (bs_stamp (u32_bytes 43 ++ u32_bytes ([0x9F, 0x80, 0xFF] : List Nat).length
            ++ [1, 2, 3, 4] ++ [5, 6, 7, 8] ++ [0x9F, 0x80, 0xFF])
            (BS_HEADER_SIZE + ([0x9F, 0x80, 0xFF] : List Nat).length) 5) OFF_COMMAND = 43
        ∧ rd32 (bs_stamp (u32_bytes 43 ++ u32_bytes ([0x9F, 0x80, 0xFF] : List Nat).length
            ++ [1, 2, 3, 4] ++ [5, 6, 7, 8] ++ [0x9F, 0x80, 0xFF])
            (BS_HEADER_SIZE + ([0x9F, 0x80, 0xFF] : List Nat).length) 5) OFF_PAYLOAD_LENGTH
            = ([0x9F, 0x80, 0xFF] : List Nat).length
        ∧ rd32 (bs_stamp (u32_bytes 43 ++ u32_bytes ([0x9F, 0x80, 0xFF] : List Nat).length
            ++ [1, 2, 3, 4] ++ [5, 6, 7, 8] ++ [0x9F, 0x80, 0xFF])
            (BS_HEADER_SIZE + ([0x9F, 0x80, 0xFF] : List Nat).length) 5) OFF_SEQUENCE_NUMBER = 5
        ∧ (bs_stamp (u32_bytes 43 ++ u32_bytes ([0x9F, 0x80, 0xFF] : List Nat).length
            ++ [1, 2, 3, 4] ++ [5, 6, 7, 8] ++ [0x9F, 0x80, 0xFF])
            (BS_HEADER_SIZE + ([0x9F, 0x80, 0xFF] : List Nat).length) 5).drop BS_HEADER_SIZE
            = [0x9F, 0x80, 0xFF]) :=
  ⟨⟨by decide, by decide, by decide, rfl, rfl⟩,
    frame_round_trip 43 5 [0x9F, 0x80, 0xFF] [1, 2, 3, 4] [5, 6, 7, 8]
      (by decide) (by decide) (by decide) rfl rfl⟩

/-! ## Error detection of the checksum -/

theorem crc32_bit_step_lt (a : Nat) (ha : a < 2 ^ 32) : crc32_bit_step a < 2 ^ 32 := by
  unfold crc32_bit_step
  have h1 : a >>> 1 < 2 ^ 32 := by
    rw [Nat.shiftRight_eq_div_pow]
    exact lt_of_le_of_lt (Nat.div_le_self _ _) ha
  split
  · exact Nat.xor_lt_two_pow h1 (by norm_num)
  · simpa using h1

theorem crc32_bit_step_inj (a b : Nat) (ha : a < 2 ^ 32) (hb : b < 2 ^ 32)
    (h : crc32_bit_step a = crc32_bit_step b) : a = b := by
  unfold crc32_bit_step at h
  have hta : (a >>> 1).testBit 31 = false := by
    rw [Nat.testBit_shiftRight]; exact Nat.testBit_lt_two_pow ha
  have htb : (b >>> 1).testBit 31 = false := by
    rw [Nat.testBit_shiftRight]; exact Nat.testBit_lt_two_pow hb
  have hP : (3988292384 : Nat).testBit 31 = true := by decide
  have key := congrArg (fun x => Nat.testBit x 31) h
  have da : a >>> 1 = a / 2 := by rw [Nat.shiftRight_eq_div_pow, Nat.pow_one]
  have db : b >>> 1 = b / 2 := by rw [Nat.shiftRight_eq_div_pow, Nat.pow_one]
  rcases Nat.mod_two_eq_zero_or_one a with pa | pa <;>
    rcases Nat.mod_two_eq_zero_or_one b with pb | pb
  · simp only [pa, pb, Nat.zero_ne_one, if_false, Nat.xor_zero] at h
    omega
  · simp [pa, pb, Nat.testBit_xor, hta, htb, hP] at key
  · simp [pa, pb, Nat.testBit_xor, hta, htb, hP] at key
  · simp only [pa, pb, if_true] at h
    have h2 := congrArg (fun x => x ^^^ 3988292384) h
    simp only [Nat.xor_cancel_right] at h2
    omega

theorem crc32_bit_step8_lt (a : Nat) (ha : a < 2 ^ 32) : crc32_bit_step8 a < 2 ^ 32 := by
  unfold crc32_bit_step8
  repeat apply crc32_bit_step_lt
  exact ha

theorem crc32_bit_step8_inj (a b : Nat) (ha : a < 2 ^ 32) (hb : b < 2 ^ 32)
    (h : crc32_bit_step8 a = crc32_bit_step8 b) : a = b := by
  unfold crc32_bit_step8 at h
  have l1 := fun x (hx : x < 2 ^ 32) => crc32_bit_step_lt x hx
  have s1 := l1 _ ha
  have s2 := l1 _ s1
  have s3 := l1 _ s2
  have s4 := l1 _ s3
  have s5 := l1 _ s4
  have s6 := l1 _ s5
  have s7 := l1 _ s6
  have t1 := l1 _ hb
  have t2 := l1 _ t1
  have t3 := l1 _ t2
  have t4 := l1 _ t3
  have t5 := l1 _ t4
  have t6 := l1 _ t5
  have t7 := l1 _ t6
  have i := crc32_bit_step_inj
  exact i _ _ ha hb (i _ _ s1 t1 (i _ _ s2 t2 (i _ _ s3 t3 (i _ _ s4 t4 (i _ _ s5 t5
    (i _ _ s6 t6 (i _ _ s7 t7 h)))))))

theorem byte_lt_two_pow_32 (d : Nat) (hd : d < 256) : d < 2 ^ 32 := by
  have : (2 : Nat) ^ 32 = 4294967296 := by norm_num
  omega

/-- Function `crc_update` is injective in the running checksum. -/
theorem crc_update_inj_crc (c c' d : Nat) (hc : c < 4294967296) (hc' : c' < 4294967296)
    (hd : d < 256) (h : crc_update c d = crc_update c' d) : c = c' := by
  have e : (4294967296 : Nat) = 2 ^ 32 := by norm_num
  rw [e] at hc hc'
  rw [crc_update_eq_bitwise c d hd, crc_update_eq_bitwise c' d hd] at h
  have hx := crc32_bit_step8_inj _ _ (Nat.xor_lt_two_pow hc (byte_lt_two_pow_32 d hd))
    (Nat.xor_lt_two_pow hc' (byte_lt_two_pow_32 d hd)) h
  have h2 := congrArg (fun x => x ^^^ d) hx
  simpa only [Nat.xor_cancel_right] using h2

/-- Function `crc_update` is injective in the data byte. -/
theorem crc_update_inj_data (c d d' : Nat) (hc : c < 4294967296)
    (hd : d < 256) (hd' : d' < 256) (h : crc_update c d = crc_update c d') : d = d' := by
  have e : (4294967296 : Nat) = 2 ^ 32 := by norm_num
  rw [e] at hc
  rw [crc_update_eq_bitwise c d hd, crc_update_eq_bitwise c d' hd'] at h
  have hx := crc32_bit_step8_inj _ _ (Nat.xor_lt_two_pow hc (byte_lt_two_pow_32 d hd))
    (Nat.xor_lt_two_pow hc (byte_lt_two_pow_32 d' hd')) h
  have h2 := congrArg (fun x => c ^^^ x) hx
  simpa only [Nat.xor_cancel_left] using h2

theorem foldl_crc_update_inj (s : List Nat) :
    ∀ c c', c < 4294967296 → c' < 4294967296 → c ≠ c' →
      s.foldl (fun c b => crc_update c (b % 256)) c
        ≠ s.foldl (fun c b => crc_update c (b % 256)) c' := by
  induction s with
  | nil => intro c c' _ _ h; simpa using h
  | cons a t ih =>
    intro c c' hc hc' h
    simp only [List.foldl_cons]
    apply ih _ _ (crc_update_lt _ _ hc) (crc_update_lt _ _ hc')
    intro he
    exact h (crc_update_inj_crc c c' (a % 256) hc hc' (Nat.mod_lt _ (by norm_num)) he)

theorem flip_mod_256_ne (a k : Nat) (hk : k < 8) : (a ^^^ (1 <<< k)) % 256 ≠ a % 256 := by
  intro h
  have e : (256 : Nat) = 2 ^ 8 := by norm_num
  have h2 := congrArg (fun x => Nat.testBit x k) h
  simp only [e, Nat.testBit_mod_two_pow, Nat.testBit_xor, Nat.one_shiftLeft,
    Nat.testBit_two_pow_self, hk, decide_True, Bool.true_and] at h2
  cases hb : a.testBit k <;> simp [hb] at h2

theorem flip_ne (a k : Nat) : a ^^^ (1 <<< k) ≠ a := by
  intro h
  have h2 := congrArg (fun x => Nat.testBit x k) h
  simp only [Nat.testBit_xor, Nat.one_shiftLeft, Nat.testBit_two_pow_self] at h2
  cases hb : a.testBit k <;> simp [hb] at h2

/-- Changing one bit of one byte of the data changes the running checksum at the end. -/
theorem foldl_crc_update_flip (k : Nat) (hk : k < 8) (s : List Nat) :
    ∀ (i c : Nat), i < s.length → c < 4294967296 →
      (s.set i (s.getD i 0 ^^^ (1 <<< k))).foldl (fun c b => crc_update c (b % 256)) c
        ≠ s.foldl (fun c b => crc_update c (b % 256)) c := by
  induction s with
  | nil => intro i c hi; simp at hi
  | cons a t ih =>
    intro i c hi hc
    cases i with
    | zero =>
      simp only [List.set_cons_zero, List.foldl_cons, List.getD_cons_zero]
      apply foldl_crc_update_inj _ _ _ (crc_update_lt _ _ hc) (crc_update_lt _ _ hc)
      intro he
      exact flip_mod_256_ne a k hk (crc_update_inj_data c _ _ hc
        (Nat.mod_lt _ (by norm_num)) (Nat.mod_lt _ (by norm_num)) he)
    | succ j =>
      simp only [List.set_cons_succ, List.foldl_cons, List.getD_cons_succ]
      exact ih j _ (by simpa using hi) (crc_update_lt _ _ hc)

theorem to_int_of_lt (n : Nat) (h : n < 2147483648) : to_int n = (n : Int) := by
  unfold to_int
  have : n % 4294967296 = n := Nat.mod_eq_of_lt (by omega)
  rw [this, if_pos h]

/-- Function `crc_mem` over a whole buffer changes when one bit of the buffer is flipped. -/
theorem crc_mem_flip (s : List Nat) (i k : Nat) (hi : i < s.length) (hk : k < 8) :
    crc_mem (s.set i (s.getD i 0 ^^^ (1 <<< k))) (s.length : Int)
      ≠ crc_mem s (s.length : Int) := by
  have h := foldl_crc_update_flip k hk s i 4294967295 hi (by norm_num)
  have hl : (s.set i (s.getD i 0 ^^^ (1 <<< k))).length = s.length := List.length_set _ _ _
  have e1 := crc_mem_eq_foldl (s.set i (s.getD i 0 ^^^ (1 <<< k)))
  rw [hl] at e1
  rw [e1, crc_mem_eq_foldl]
  have b1 := foldl_crc_update_lt (s.set i (s.getD i 0 ^^^ (1 <<< k))) 4294967295 (by norm_num)
  have b2 := foldl_crc_update_lt s 4294967295 (by norm_num)
  unfold not32
  omega

theorem wr32_length (buf : List Nat) (off v : Nat) : (wr32 buf off v).length = buf.length := by
  simp [wr32]

theorem getD_set_ne (buf : List Nat) (i j x : Nat) (h : i ≠ j) :
    (buf.set i x).getD j 0 = buf.getD j 0 := by
  simp [List.getD_eq_getElem?_getD, List.getElem?_set_ne h]

theorem getD_set_self (buf : List Nat) (i x : Nat) (h : i < buf.length) :
    (buf.set i x).getD i 0 = x := by
  simp [List.getD_eq_getElem?_getD, List.getElem?_set_self h]

/-- A store to a field does not see an earlier store to a byte outside the field. -/
theorem wr32_set_outside (buf : List Nat) (off v i x : Nat) (h : i < off ∨ off + 4 ≤ i) :
    wr32 (buf.set i x) off v = (wr32 buf off v).set i x := by
  unfold wr32
  rw [List.set_comm _ _ buf (show i ≠ off by omega),
    List.set_comm _ _ (buf.set off _) (show i ≠ off + 1 by omega),
    List.set_comm _ _ ((buf.set off _).set (off + 1) _) (show i ≠ off + 2 by omega),
    List.set_comm _ _ (((buf.set off _).set (off + 1) _).set (off + 2) _)
      (show i ≠ off + 3 by omega)]

/-- A store to a field overwrites an earlier store to a byte of the field. -/
theorem wr32_set_inside (buf : List Nat) (off v i x : Nat) (h : off ≤ i ∧ i < off + 4) :
    wr32 (buf.set i x) off v = wr32 buf off v := by
  unfold wr32
  have hc : i = off ∨ i = off + 1 ∨ i = off + 2 ∨ i = off + 3 := by omega
  rcases hc with rfl | rfl | rfl | rfl
  · rw [List.set_set]
  · rw [List.set_comm _ _ buf (show off + 1 ≠ off by omega), List.set_set]
  · rw [List.set_comm _ _ buf (show off + 2 ≠ off by omega),
      List.set_comm _ _ (buf.set off _) (show off + 2 ≠ off + 1 by omega), List.set_set]
  · rw [List.set_comm _ _ buf (show off + 3 ≠ off by omega),
      List.set_comm _ _ (buf.set off _) (show off + 3 ≠ off + 1 by omega),
      List.set_comm _ _ ((buf.set off _).set (off + 1) _) (show off + 3 ≠ off + 2 by omega),
      List.set_set]

theorem rd32_set_outside (buf : List Nat) (off i x : Nat) (h : i < off ∨ off + 4 ≤ i) :
    rd32 (buf.set i x) off = rd32 buf off := by
  unfold rd32
  rw [getD_set_ne _ _ _ _ (show i ≠ off by omega),
    getD_set_ne _ _ _ _ (show i ≠ off + 1 by omega),
    getD_set_ne _ _ _ _ (show i ≠ off + 2 by omega),
    getD_set_ne _ _ _ _ (show i ≠ off + 3 by omega)]

theorem rd32_set_inside (buf : List Nat) (off i x : Nat) (h : off ≤ i ∧ i < off + 4)
    (hl : i < buf.length) (hx : x ≠ buf.getD i 0) :
    rd32 (buf.set i x) off ≠ rd32 buf off := by
  unfold rd32
  have hc : i = off ∨ i = off + 1 ∨ i = off + 2 ∨ i = off + 3 := by omega
  rcases hc with rfl | rfl | rfl | rfl
  · rw [getD_set_self _ _ _ hl, getD_set_ne _ _ _ _ (show i ≠ i + 1 by omega),
      getD_set_ne _ _ _ _ (show i ≠ i + 2 by omega),
      getD_set_ne _ _ _ _ (show i ≠ i + 3 by omega)]
    omega
  · rw [getD_set_self _ _ _ hl, getD_set_ne _ _ _ _ (show off + 1 ≠ off by omega),
      getD_set_ne _ _ _ _ (show off + 1 ≠ off + 2 by omega),
      getD_set_ne _ _ _ _ (show off + 1 ≠ off + 3 by omega)]
    omega
  · rw [getD_set_self _ _ _ hl, getD_set_ne _ _ _ _ (show off + 2 ≠ off by omega),
      getD_set_ne _ _ _ _ (show off + 2 ≠ off + 1 by omega),
      getD_set_ne _ _ _ _ (show off + 2 ≠ off + 3 by omega)]
    omega
  · rw [getD_set_self _ _ _ hl, getD_set_ne _ _ _ _ (show off + 3 ≠ off by omega),
      getD_set_ne _ _ _ _ (show off + 3 ≠ off + 1 by omega),
      getD_set_ne _ _ _ _ (show off + 3 ≠ off + 2 by omega)]
    omega

theorem wr32_getD_outside (buf : List Nat) (off v i : Nat) (h : i < off ∨ off + 4 ≤ i) :
    (wr32 buf off v).getD i 0 = buf.getD i 0 := by
  unfold wr32
  rw [getD_set_ne _ _ _ _ (show off + 3 ≠ i by omega),
    getD_set_ne _ _ _ _ (show off + 2 ≠ i by omega),
    getD_set_ne _ _ _ _ (show off + 1 ≠ i by omega),
    getD_set_ne _ _ _ _ (show off ≠ i by omega)]

/-- Any buffer that passes the checksum comparison over its full length fails it after
a single bit flip, wherever the bit lies. -/
theorem flip_bit_detected (f : List Nat) (pos : Nat) (hl : f.length < 2147483648)
    (hp : pos < 8 * f.length)
    (hok : crc_mem (wr32 f OFF_CHECKSUM 0) (to_int f.length) = rd32 f OFF_CHECKSUM) :
    crc_mem (wr32 (flip_bit f pos) OFF_CHECKSUM 0) (to_int f.length)
      ≠ rd32 (flip_bit f pos) OFF_CHECKSUM := by
  have hi : pos / 8 < f.length := by omega
  have hk : pos % 8 < 8 := Nat.mod_lt _ (by norm_num)
  rw [to_int_of_lt _ hl] at hok ⊢
  unfold flip_bit
  by_cases hin : OFF_CHECKSUM ≤ pos / 8 ∧ pos / 8 < OFF_CHECKSUM + 4
  · rw [wr32_set_inside _ _ _ _ _ hin, hok]
    exact fun h => rd32_set_inside f OFF_CHECKSUM (pos / 8) _ hin hi (flip_ne _ _) h.symm
  · have hout : pos / 8 < OFF_CHECKSUM ∨ OFF_CHECKSUM + 4 ≤ pos / 8 := by omega
    rw [wr32_set_outside _ _ _ _ _ hout, rd32_set_outside _ _ _ _ hout, ← hok,
      ← wr32_getD_outside f OFF_CHECKSUM 0 (pos / 8) hout]
    have h := crc_mem_flip (wr32 f OFF_CHECKSUM 0) (pos / 8) (pos % 8)
      (by rw [wr32_length]; exact hi) hk
    rw [wr32_length] at h
    exact h

theorem wr32_wr32_same (buf : List Nat) (off v w : Nat) :
    wr32 (wr32 buf off v) off w = wr32 buf off w := by
  apply List.ext_getElem?
  intro n
  simp only [wr32, List.getElem?_set, List.length_set]
  split_ifs <;> rfl

theorem rd32_wr32_same (buf : List Nat) (off v : Nat) (h : off + 4 ≤ buf.length)
    (hv : v < 4294967296) : rd32 (wr32 buf off v) off = v := by
  simp only [rd32, wr32, List.getD_eq_getElem?_getD, List.getElem?_set, List.length_set]
  have h0 : off < buf.length := by omega
  have h1 : off + 1 < buf.length := by omega
  have h2 : off + 2 < buf.length := by omega
  have h3 : off + 3 < buf.length := by omega
  simp [h0, h1, h2, h3]
  omega

theorem rd32_wr32_other (buf : List Nat) (off off' v : Nat)
    (h : off' + 4 ≤ off ∨ off + 4 ≤ off') : rd32 (wr32 buf off v) off' = rd32 buf off' := by
  unfold rd32
  rw [wr32_getD_outside _ _ _ _ (by omega), wr32_getD_outside _ _ _ _ (by omega),
    wr32_getD_outside _ _ _ _ (by omega), wr32_getD_outside _ _ _ _ (by omega)]

theorem bs_stamp_length (request : List Nat) (request_size seq : Nat) :
    (bs_stamp request request_size seq).length = request.length := by
  simp [bs_stamp, wr32_length]

/-- A stamped request carries the checksum of itself with the checksum field zeroed. -/
theorem bs_stamp_checksum (request : List Nat) (request_size seq : Nat)
    (h : BS_HEADER_SIZE ≤ request.length) :
    crc_mem (wr32 (bs_stamp request request_size seq) OFF_CHECKSUM 0) (to_int request_size)
      = rd32 (bs_stamp request request_size seq) OFF_CHECKSUM := by
  have e16 : BS_HEADER_SIZE = 16 := rfl
  have e12 : OFF_CHECKSUM = 12 := rfl
  simp only [bs_stamp]
  rw [wr32_wr32_same, wr32_wr32_same, rd32_wr32_same _ _ _ _ (crc_mem_lt _ _)]
  rw [wr32_length, wr32_length]
  omega

theorem frame_length (command seq : Nat) (B j1 j2 : List Nat)
    (h1 : j1.length = 4) (h2 : j2.length = 4) :
    (bs_stamp (u32_bytes command ++ u32_bytes B.length ++ j1 ++ j2 ++ B)
      (BS_HEADER_SIZE + B.length) seq).length = BS_HEADER_SIZE + B.length := by
  rw [bs_stamp_length]
  simp [u32_bytes, h1, h2, BS_HEADER_SIZE]
  omega

/-- C3: single-bit error detection.  For a request frame built and checksummed as in the
retry loop (any command, sequence number and payload `B`) and any bit position `pos` of
its `16 + |B|` bytes, the buffer with that bit flipped fails the checksum comparison
(stored checksum read out, field zeroed, `crc_mem` over the same `16 + |B|` bytes); the
check `bs_checksum_ok` of the code, which takes the length from the frame, fails as well
whenever the length field of the damaged frame still reads `|B|`. -/
theorem single_bit_error_detected (command seq : Nat) (B j1 j2 : List Nat) (pos : Nat)
    (hB : BS_HEADER_SIZE + B.length < 2147483648)
    (h1 : j1.length = 4) (h2 : j2.length = 4)
    (hp : pos < 8 * (BS_HEADER_SIZE + B.length)) :
    crc_mem (wr32 (flip_bit (bs_stamp (u32_bytes command ++ u32_bytes B.length ++ j1 ++ j2 ++ B)
          (BS_HEADER_SIZE + B.length) seq) pos) OFF_CHECKSUM 0)
        (to_int (BS_HEADER_SIZE + B.length))
      ≠ rd32 (flip_bit (bs_stamp (u32_bytes command ++ u32_bytes B.length ++ j1 ++ j2 ++ B)
          (BS_HEADER_SIZE + B.length) seq) pos) OFF_CHECKSUM
    ∧ (rd32 (flip_bit (bs_stamp (u32_bytes command ++ u32_bytes B.length ++ j1 ++ j2 ++ B)
          (BS_HEADER_SIZE + B.length) seq) pos) OFF_PAYLOAD_LENGTH = B.length →
        bs_checksum_ok (flip_bit (bs_stamp (u32_bytes command ++ u32_bytes B.length ++ j1
          ++ j2 ++ B) (BS_HEADER_SIZE + B.length) seq) pos) = false) := by
  have hlen := frame_length command seq B j1 j2 h1 h2
  have hok := bs_stamp_checksum (u32_bytes command ++ u32_bytes B.length ++ j1 ++ j2 ++ B)
    (BS_HEADER_SIZE + B.length) seq (by simp [u32_bytes, h1, h2, BS_HEADER_SIZE]; omega)
  generalize bs_stamp (u32_bytes command ++ u32_bytes B.length ++ j1 ++ j2 ++ B)
    (BS_HEADER_SIZE + B.length) seq = f at hlen hok ⊢
  rw [← hlen] at hok hB hp ⊢
  have hne := flip_bit_detected f pos hB hp hok
  refine ⟨hne, ?_⟩
  intro hpl
  simp only [bs_checksum_ok]
  rw [rd32_wr32_other _ _ _ _ (by simp [OFF_CHECKSUM, OFF_PAYLOAD_LENGTH]), hpl]
  have e : (BS_HEADER_SIZE + B.length) % 4294967296 = f.length := by
    rw [hlen]
    exact Nat.mod_eq_of_lt (by omega)
  rw [e]
  simpa using hne

/-- A frame with one payload bit flipped is rejected. -/
theorem single_bit_error_detected_witness :
    (BS_HEADER_SIZE + ([0x9F, 0x80, 0xFF] : List Nat).length < 2147483648
        ∧ ([1, 2, 3, 4] : List Nat).length = 4 ∧ ([5, 6, 7, 8] : List Nat).length = 4
        ∧ 130 < 8 * (BS_HEADER_SIZE + ([0x9F, 0x80, 0xFF] : List Nat).length))
      ∧ (crc_mem (wr32 (flip_bit (bs_stamp (u32_bytes 43
              ++ u32_bytes ([0x9F, 0x80, 0xFF] : List Nat).length ++ [1, 2, 3, 4] ++ [5, 6, 7, 8]
              ++ [0x9F, 0x80, 0xFF])
            (BS_HEADER_SIZE + ([0x9F, 0x80, 0xFF] : List Nat).length) 5) 130) OFF_CHECKSUM 0)
            (to_int (BS_HEADER_SIZE + ([0x9F, 0x80, 0xFF] : List Nat).length))
          ≠ rd32 (flip_bit (bs_stamp (u32_bytes 43
              ++ u32_bytes ([0x9F, 0x80, 0xFF] : List Nat).length ++ [1, 2, 3, 4] ++ [5, 6, 7, 8]
              ++ [0x9F, 0x80, 0xFF])
            (BS_HEADER_SIZE + ([0x9F, 0x80, 0xFF] : List Nat).length) 5) 130) OFF_CHECKSUM
        ∧ (rd32 (flip_bit (bs_stamp (u32_bytes 43
              ++ u32_bytes ([0x9F, 0x80, 0xFF] : List Nat).length ++ [1, 2, 3, 4] ++ [5, 6, 7, 8]
              ++ [0x9F, 0x80, 0xFF])
            (BS_HEADER_SIZE + ([0x9F, 0x80, 0xFF] : List Nat).length) 5) 130) OFF_PAYLOAD_LENGTH
            = ([0x9F, 0x80, 0xFF] : List Nat).length →
          bs_checksum_ok (flip_bit (bs_stamp (u32_bytes 43
              ++ u32_bytes ([0x9F, 0x80, 0xFF] : List Nat).length ++ [1, 2, 3, 4] ++ [5, 6, 7, 8]
              ++ [0x9F, 0x80, 0xFF])
            (BS_HEADER_SIZE + ([0x9F, 0x80, 0xFF] : List Nat).length) 5) 130) = false)) :=
  ⟨⟨by decide, rfl, rfl, by decide⟩,
    single_bit_error_detected 43 5 [0x9F, 0x80, 0xFF] [1, 2, 3, 4] [5, 6, 7, 8] 130
      (by decide) rfl rfl (by decide)⟩

/-! ## Sequence manager -/

theorem rd32_u32_bytes (v : Nat) (h : v < 4294967296) : rd32 (u32_bytes v) 0 = v := by
  simp [rd32, u32_bytes]
  omega

theorem init_store_some (s : SeqState) : ∃ c, (bs_sequence_number_init s).2.store = some c := by
  unfold bs_sequence_number_init
  simp only
  split_ifs <;> exact ⟨_, rfl⟩

theorem next_store_some (s : SeqState) (h : ∃ c, s.store = some c) :
    ∃ c, (bs_next_sequence_number s).store = some c := by
  obtain ⟨c, hc⟩ := h
  unfold bs_next_sequence_number
  rw [hc]
  exact ⟨_, rfl⟩

/-- After an allocation the store holds the incremented counter. -/
theorem next_synced (s : SeqState) (h : ∃ c, s.store = some c) :
    Synced (bs_next_sequence_number s) := by
  obtain ⟨c, hc⟩ := h
  unfold bs_next_sequence_number Synced
  rw [hc]
  refine ⟨_, rfl, ?_, ?_⟩
  · simp [file_write, u32_bytes]
  · have hlt : (s.bs_sequence_number + 1) % 4294967296 < 4294967296 :=
      Nat.mod_lt _ (by norm_num)
    have ht : (file_write c 0 (u32_bytes ((s.bs_sequence_number + 1) % 4294967296))).take 4
        = u32_bytes ((s.bs_sequence_number + 1) % 4294967296) := by
      simp [file_write, u32_bytes]
    simp only [ht]
    exact rd32_u32_bytes _ hlt

/-- A restart on a store that holds the counter reads the counter back and leaves the
store as it is. -/
theorem init_of_synced (s : SeqState) (h : Synced s) :
    (bs_sequence_number_init { s with bs_sequence_number := 0 }).2 = s := by
  obtain ⟨c, hc, hl, hv⟩ := h
  have hlen : (c.take 4).length = 4 := by simp [List.length_take]; omega
  unfold bs_sequence_number_init
  simp only [hc, hlen]
  simp only [ne_eq, not_true_eq_false, if_false]
  have hd : (u32_bytes 0).drop 4 = [] := by simp [u32_bytes]
  rw [hd, List.append_nil, hv]
  cases s
  simp_all

theorem run_events_head (es : List SeqEvent) :
    ∀ s, Synced s → ∀ x ∈ (run_events es s).head?, x = s.bs_sequence_number := by
  induction es with
  | nil => intro s _ x hx; simp [run_events] at hx
  | cons e t ih =>
    intro s hs x hx
    cases e with
    | alloc => simp [run_events] at hx; exact hx.symm
    | restart =>
      simp only [run_events] at hx
      rw [init_of_synced s hs] at hx
      exact ih s hs x hx

/-- Consecutive numbers handed out differ by one (modulo `2^32`). -/
theorem run_events_chain (es : List SeqEvent) :
    ∀ s, (∃ c, s.store = some c) →
      List.Chain' (fun a b => b = (a + 1) % 4294967296) (run_events es s) := by
  induction es with
  | nil => intro s _; simp [run_events]
  | cons e t ih =>
    intro s hs
    cases e with
    | alloc =>
      simp only [run_events]
      rw [List.chain'_cons']
      refine ⟨?_, ih _ (next_store_some s hs)⟩
      intro y hy
      have := run_events_head t _ (next_synced s hs) y hy
      rw [this]
      obtain ⟨c, hc⟩ := hs
      simp [bs_next_sequence_number, hc]
    | restart =>
      simp only [run_events]
      exact ih _ (init_store_some _)

theorem chain_succ_lt (l : List Nat) :
    List.Chain' (fun a b => b = (a + 1) % 4294967296) l →
      (∀ x ∈ l.dropLast, x < 4294967295) → List.Chain' (fun a b => a < b) l := by
  induction l with
  | nil => intro _ _; simp
  | cons a t ih =>
    intro hc hb
    cases t with
    | nil => simp
    | cons b u =>
      rw [List.chain'_cons] at hc ⊢
      have ha : a < 4294967295 := hb a (by simp [List.dropLast])
      refine ⟨?_, ih hc.2 ?_⟩
      · rw [hc.1, Nat.mod_eq_of_lt (by omega)]
        omega
      · intro x hx
        exact hb x (by simp [List.dropLast]; right; simpa using hx)

/-- C4 (as amended): along any run of allocations and restarts from any initial store,
each number handed to a request is the previous one plus one modulo `2^32`, whether or
not the counter wraps; and as long as the counter does not wrap (no number handed out
before the last one is `0xFFFFFFFF`) the numbers are strictly increasing, without
repeats. -/
theorem sequence_numbers_increasing (store : Option (List Nat)) (es : List SeqEvent) :
    List.Chain' (fun a b => b = (a + 1) % 4294967296) (run_from_store store es)
      ∧ ((∀ x ∈ (run_from_store store es).dropLast, x < 4294967295) →
        List.Pairwise (fun a b => a < b) (run_from_store store es)
          ∧ (run_from_store store es).Nodup) := by
  have hc := run_events_chain es _ (init_store_some { bs_sequence_number := 0, store := store })
  refine ⟨hc, fun hw => ?_⟩
  have hlt := chain_succ_lt _ hc hw
  have hp : List.Pairwise (fun a b => a < b) (run_from_store store es) :=
    List.chain'_iff_pairwise.mp hlt
  exact ⟨hp, hp.imp (fun h => Nat.ne_of_lt h)⟩

/-- A run over a short store with restarts before and between allocations, which does not
wrap, and a run from a store holding `0xFFFFFFFE` with a restart, which does. -/
theorem sequence_numbers_increasing_witness :
    (∀ x ∈ (run_from_store (some [7]) [SeqEvent.restart, SeqEvent.alloc, SeqEvent.restart,
        SeqEvent.alloc, SeqEvent.alloc]).dropLast, x < 4294967295)
      ∧ List.Chain' (fun a b => b = (a + 1) % 4294967296)
          (run_from_store (some [7]) [SeqEvent.restart, SeqEvent.alloc, SeqEvent.restart,
            SeqEvent.alloc, SeqEvent.alloc])
      ∧ (List.Pairwise (fun a b => a < b)
          (run_from_store (some [7]) [SeqEvent.restart, SeqEvent.alloc, SeqEvent.restart,
            SeqEvent.alloc, SeqEvent.alloc])
        ∧ (run_from_store (some [7]) [SeqEvent.restart, SeqEvent.alloc, SeqEvent.restart,
            SeqEvent.alloc, SeqEvent.alloc]).Nodup)
      ∧ run_from_store (some [0xFE, 0xFF, 0xFF, 0xFF]) [SeqEvent.alloc, SeqEvent.alloc,
          SeqEvent.restart, SeqEvent.alloc, SeqEvent.alloc] = [4294967294, 4294967295, 0, 1]
      ∧ List.Chain' (fun a b => b = (a + 1) % 4294967296)
          (run_from_store (some [0xFE, 0xFF, 0xFF, 0xFF]) [SeqEvent.alloc, SeqEvent.alloc,
            SeqEvent.restart, SeqEvent.alloc, SeqEvent.alloc]) :=
  ⟨by decide,
    (sequence_numbers_increasing (some [7]) [SeqEvent.restart, SeqEvent.alloc,
      SeqEvent.restart, SeqEvent.alloc, SeqEvent.alloc]).1,
    (sequence_numbers_increasing (some [7]) [SeqEvent.restart, SeqEvent.alloc,
      SeqEvent.restart, SeqEvent.alloc, SeqEvent.alloc]).2 (by decide),
    by decide,
    (sequence_numbers_increasing (some [0xFE, 0xFF, 0xFF, 0xFF]) [SeqEvent.alloc,
      SeqEvent.alloc, SeqEvent.restart, SeqEvent.alloc, SeqEvent.alloc]).1⟩

/-- C4 (as stated) fails at the 32-bit wrap: from a store holding `0xFFFFFFFF` two
allocations hand out `4294967295` and then `0`. -/
theorem sequence_numbers_wrap :
    run_from_store (some [0xFF, 0xFF, 0xFF, 0xFF]) [SeqEvent.alloc, SeqEvent.alloc]
        = [4294967295, 0]
      ∧ ¬ List.Pairwise (fun a b => a < b)
        (run_from_store (some [0xFF, 0xFF, 0xFF, 0xFF]) [SeqEvent.alloc, SeqEvent.alloc]) := by
  decide

/-- C5 at a one-byte store: `bs_sequence_number_init` returns 0 and sets the counter to 2,
but the write lands behind the byte already read, so the store then holds
`07 02 00 00 00` and a second `bs_sequence_number_init` reads 519, not 2.  For a missing
or empty store the value written is read back as 2. -/
theorem init_short_store_not_two :
    bs_sequence_number_init { bs_sequence_number := 0, store := some [0x07] }
        = (0, { bs_sequence_number := 2, store := some [0x07, 0x02, 0x00, 0x00, 0x00] })
      ∧ (bs_sequence_number_init
          { bs_sequence_number := 0, store := some [0x07, 0x02, 0x00, 0x00, 0x00] }
          ).2.bs_sequence_number = 519
      ∧ bs_sequence_number_init { bs_sequence_number := 0, store := none }
        = (0, { bs_sequence_number := 2, store := some [0x02, 0x00, 0x00, 0x00] })
      ∧ bs_sequence_number_init { bs_sequence_number := 0, store := some [] }
        = (0, { bs_sequence_number := 2, store := some [0x02, 0x00, 0x00, 0x00] })
      ∧ (bs_sequence_number_init
          { bs_sequence_number := 0, store := some [0x02, 0x00, 0x00, 0x00] }
          ).2.bs_sequence_number = 2 := by
  decide

/-! ## Stream synchroniser -/

theorem take_one_of_ne_nil (l : List Nat) (h : l ≠ []) :
    (l.take 1).length = 1 ∧ (l.take 1).getD 0 0 = l.getD 0 0 := by
  cases l with
  | nil => exact absurd rfl h
  | cons a t => simp

/-- A step of the searching state on a delivered byte. -/
theorem bs_sync_loop_search_step (timeout : Int) (rd : Nat → Rd) (tv_start fuel : Nat)
    (w : World) (ht : (((w.now - tv_start) / 1000000 : Nat) : Int) < timeout)
    (hd : rd_delivers rd w.pos) :
    bs_sync_loop timeout rd tv_start (fuel + 1) false w
      = bs_sync_loop timeout rd tv_start fuel (decide (rd_byte rd w.pos = 0xfe))
          (sp_read rd w 1).2 := by
  obtain ⟨hrv, hne⟩ := hd
  obtain ⟨hl, hb⟩ := take_one_of_ne_nil _ hne
  have hnt : ¬ ((((w.now - tv_start) / 1000000 : Nat) : Int) ≥ timeout) := by omega
  rw [bs_sync_loop]
  simp only [hnt, if_false, sp_read, hrv, hl, hb, ne_eq, not_true_eq_false]
  by_cases hfe : (rd w.pos).data.getD 0 0 = 0xfe
  · rw [decide_eq_true (show rd_byte rd w.pos = 0xfe from hfe), if_pos hfe]
  · rw [decide_eq_false (show ¬ rd_byte rd w.pos = 0xfe from hfe), if_neg hfe]

/-- A step at label `got1` on a delivered byte other than `0xCA`. -/
theorem bs_sync_loop_got1_step (timeout : Int) (rd : Nat → Rd) (tv_start fuel : Nat)
    (w : World) (hd : rd_delivers rd w.pos) (hca : rd_byte rd w.pos ≠ 0xca) :
    bs_sync_loop timeout rd tv_start (fuel + 1) true w
      = bs_sync_loop timeout rd tv_start fuel (decide (rd_byte rd w.pos = 0xfe))
          (sp_read rd w 1).2 := by
  obtain ⟨hrv, hne⟩ := hd
  obtain ⟨hl, hb⟩ := take_one_of_ne_nil _ hne
  have hca2 : ¬ (rd w.pos).data.getD 0 0 = 0xca := hca
  rw [bs_sync_loop]
  simp only [sp_read, hrv, hl, hb, ne_eq, not_true_eq_false, if_false, hca2]
  by_cases hfe : (rd w.pos).data.getD 0 0 = 0xfe
  · rw [decide_eq_true (show rd_byte rd w.pos = 0xfe from hfe), if_pos hfe]
  · rw [decide_eq_false (show ¬ rd_byte rd w.pos = 0xfe from hfe), if_neg hfe]

/-- At label `got1` a delivered `0xCA` ends the scan with success. -/
theorem bs_sync_loop_got1_ca (timeout : Int) (rd : Nat → Rd) (tv_start fuel : Nat)
    (w : World) (hd : rd_delivers rd w.pos) (hca : rd_byte rd w.pos = 0xca) :
    bs_sync_loop timeout rd tv_start (fuel + 1) true w = some (0, (sp_read rd w 1).2) := by
  obtain ⟨hrv, hne⟩ := hd
  obtain ⟨hl, hb⟩ := take_one_of_ne_nil _ hne
  have hca2 : (rd w.pos).data.getD 0 0 = 0xca := hca
  rw [bs_sync_loop]
  simp only [sp_read, hrv, hl, hb, ne_eq, not_true_eq_false, if_false, hca2, if_true]

theorem sp_read_pos (rd : Nat → Rd) (w : World) (cnt : Nat) :
    (sp_read rd w cnt).2.pos = w.pos + 1 := rfl

theorem sp_read_now (rd : Nat → Rd) (w : World) (cnt : Nat) :
    (sp_read rd w cnt).2.now = w.now + (rd w.pos).dt := rfl

/-- From either state of the scanner, on a stream of delivered bytes whose first marker
`FE CA` starts `idx` reads ahead, the loop returns success after exactly `idx + 2` reads. -/
theorem bs_sync_loop_finds (timeout : Int) (rd : Nat → Rd) (tv_start : Nat) :
    ∀ (idx fuel : Nat) (got1 : Bool) (w : World),
      idx + 2 ≤ fuel →
      (∀ j, j ≤ idx + 1 → rd_delivers rd (w.pos + j)) →
      rd_byte rd (w.pos + idx) = 0xfe →
      rd_byte rd (w.pos + idx + 1) = 0xca →
      (∀ j, j < idx → ¬ (rd_byte rd (w.pos + j) = 0xfe ∧ rd_byte rd (w.pos + j + 1) = 0xca)) →
      (got1 = true → rd_byte rd w.pos ≠ 0xca) →
      (((w.now + reads_duration rd w.pos idx - tv_start) / 1000000 : Nat) : Int) < timeout →
      ∃ w', bs_sync_loop timeout rd tv_start fuel got1 w = some (0, w')
        ∧ w'.pos = w.pos + idx + 2 := by
  intro idx
  induction idx with
  | zero =>
    intro fuel got1 w hf hdel hfe hca _ _ htime
    obtain ⟨f, rfl⟩ : ∃ f, fuel = f + 2 := ⟨fuel - 2, by omega⟩
    have hd0 : rd_delivers rd w.pos := by simpa using hdel 0 (by omega)
    have hd1 : rd_delivers rd ((sp_read rd w 1).2.pos) := by
      rw [sp_read_pos]; exact hdel 1 (by omega)
    have hfe0 : rd_byte rd w.pos = 0xfe := by simpa using hfe
    have hca1 : rd_byte rd ((sp_read rd w 1).2.pos) = 0xca := by
      rw [sp_read_pos]; simpa using hca
    have hstep : bs_sync_loop timeout rd tv_start (f + 1 + 1) got1 w
        = bs_sync_loop timeout rd tv_start (f + 1) true (sp_read rd w 1).2 := by
      cases got1 with
      | false =>
        rw [bs_sync_loop_search_step timeout rd tv_start (f + 1) w
          (by simp only [reads_duration] at htime; simpa using htime) hd0]
        simp [hfe0]
      | true =>
        rw [bs_sync_loop_got1_step timeout rd tv_start (f + 1) w hd0 (by rw [hfe0]; decide)]
        simp [hfe0]
    refine ⟨(sp_read rd (sp_read rd w 1).2 1).2, ?_, ?_⟩
    · rw [hstep, bs_sync_loop_got1_ca timeout rd tv_start f _ hd1 hca1]
    · rw [sp_read_pos, sp_read_pos]
  | succ n ih =>
    intro fuel got1 w hf hdel hfe hca hfirst hg htime
    obtain ⟨f, rfl⟩ : ∃ f, fuel = f + 1 := ⟨fuel - 1, by omega⟩
    have hd0 : rd_delivers rd w.pos := by simpa using hdel 0 (by omega)
    have hnow : w.now + reads_duration rd w.pos (n + 1)
        = (sp_read rd w 1).2.now + reads_duration rd (sp_read rd w 1).2.pos n := by
      rw [sp_read_now, sp_read_pos]
      simp only [reads_duration]
      omega
    have hstep : bs_sync_loop timeout rd tv_start (f + 1) got1 w
        = bs_sync_loop timeout rd tv_start f (decide (rd_byte rd w.pos = 0xfe))
            (sp_read rd w 1).2 := by
      cases got1 with
      | false =>
        exact bs_sync_loop_search_step timeout rd tv_start f w (by omega) hd0
      | true =>
        exact bs_sync_loop_got1_step timeout rd tv_start f w hd0 (hg rfl)
    have hrec := ih f (decide (rd_byte rd w.pos = 0xfe)) (sp_read rd w 1).2 (by omega)
      (by
        intro j hj
        rw [sp_read_pos]
        have := hdel (j + 1) (by omega)
        rwa [show w.pos + (j + 1) = w.pos + 1 + j by omega] at this)
      (by rw [sp_read_pos]; rwa [show w.pos + (n + 1) = w.pos + 1 + n by omega] at hfe)
      (by rw [sp_read_pos]; rwa [show w.pos + (n + 1) + 1 = w.pos + 1 + n + 1 by omega] at hca)
      (by
        intro j hj
        rw [sp_read_pos]
        have := hfirst (j + 1) (by omega)
        rwa [show w.pos + (j + 1) = w.pos + 1 + j by omega] at this)
      (by
        intro hdec
        rw [sp_read_pos]
        have h0 := hfirst 0 (by omega)
        have hfe0 : rd_byte rd w.pos = 0xfe := by simpa using hdec
        intro hc
        exact h0 ⟨by simpa using hfe0, by simpa using hc⟩)
      (by rw [← hnow]; exact htime)
    obtain ⟨w', hw', hp⟩ := hrec
    refine ⟨w', ?_, ?_⟩
    · rw [hstep, hw']
    · rw [hp, sp_read_pos]; omega

/-- C6: on a reply stream whose reads each deliver a byte and whose first marker `FE CA`
starts `idx` reads ahead (after any noise, runs of `FE` included), `bs_sync` returns 0
provided the time spent on the reads before the marker stays below the bound, and it has
then made exactly `idx + 2` reads: it has consumed the stream through the `CA` of that
first marker and nothing after it. -/
theorem bs_sync_consumes_through_marker (timeout : Int) (rd : Nat → Rd) (w : World)
    (idx fuel : Nat) (hfuel : idx + 2 ≤ fuel)
    (hdel : ∀ j, j ≤ idx + 1 → rd_delivers rd (w.pos + j))
    (hfe : rd_byte rd (w.pos + idx) = 0xfe)
    (hca : rd_byte rd (w.pos + idx + 1) = 0xca)
    (hfirst : ∀ j, j < idx →
      ¬ (rd_byte rd (w.pos + j) = 0xfe ∧ rd_byte rd (w.pos + j + 1) = 0xca))
    (htime : (((reads_duration rd w.pos idx) / 1000000 : Nat) : Int) < timeout) :
    ∃ w', bs_sync fuel timeout rd w = some (0, w') ∧ w'.pos = w.pos + idx + 2 := by
  unfold bs_sync
  apply bs_sync_loop_finds timeout rd w.now idx fuel false w hfuel hdel hfe hca hfirst
  · intro h; cases h
  · rw [Nat.add_sub_cancel_left]
    exact htime

/-- The marker is found behind noise and a run of `FE` bytes, and the two bytes after it
stay unread. -/
theorem bs_sync_consumes_through_marker_witness :
    (4 + 2 ≤ 10
      ∧ (∀ j, j ≤ 4 + 1 → rd_delivers
          (stream_of (byte_reads 1000 [1, 2, 0xfe, 0xfe, 0xfe, 0xca, 9, 9]))
          ((world0 ⟨5, none⟩).pos + j))
      ∧ rd_byte (stream_of (byte_reads 1000 [1, 2, 0xfe, 0xfe, 0xfe, 0xca, 9, 9]))
          ((world0 ⟨5, none⟩).pos + 4) = 0xfe
      ∧ rd_byte (stream_of (byte_reads 1000 [1, 2, 0xfe, 0xfe, 0xfe, 0xca, 9, 9]))
          ((world0 ⟨5, none⟩).pos + 4 + 1) = 0xca
      ∧ (∀ j, j < 4 →
          ¬ (rd_byte (stream_of (byte_reads 1000 [1, 2, 0xfe, 0xfe, 0xfe, 0xca, 9, 9]))
                ((world0 ⟨5, none⟩).pos + j) = 0xfe
              ∧ rd_byte (stream_of (byte_reads 1000 [1, 2, 0xfe, 0xfe, 0xfe, 0xca, 9, 9]))
                ((world0 ⟨5, none⟩).pos + j + 1) = 0xca))
      ∧ (((reads_duration (stream_of (byte_reads 1000 [1, 2, 0xfe, 0xfe, 0xfe, 0xca, 9, 9]))
          (world0 ⟨5, none⟩).pos 4) / 1000000 : Nat) : Int) < 3)
    ∧ ∃ w', bs_sync 10 3 (stream_of (byte_reads 1000 [1, 2, 0xfe, 0xfe, 0xfe, 0xca, 9, 9]))
          (world0 ⟨5, none⟩) = some (0, w')
        ∧ w'.pos = (world0 ⟨5, none⟩).pos + 4 + 2 :=
  ⟨⟨by decide, by decide, by decide, by decide, by decide, by decide⟩,
    bs_sync_consumes_through_marker 3
      (stream_of (byte_reads 1000 [1, 2, 0xfe, 0xfe, 0xfe, 0xca, 9, 9]))
      (world0 ⟨5, none⟩) 4 10 (by decide) (by decide) (by decide) (by decide) (by decide)
      (by decide)⟩

theorem bs_sync_loop_fe_stream (timeout : Int) (tv_start : Nat) :
    ∀ (fuel : Nat) (w : World), bs_sync_loop timeout fe_stream tv_start fuel true w = none := by
  intro fuel
  induction fuel with
  | zero => intro w; rfl
  | succ n ih =>
    intro w
    rw [bs_sync_loop_got1_step timeout fe_stream tv_start n w ⟨rfl, by simp [fe_stream]⟩
      (by simp [rd_byte, fe_stream])]
    have : decide (rd_byte fe_stream w.pos = 0xfe) = true := by
      simp [rd_byte, fe_stream]
    rw [this]
    exact ih _

/-- C7 on the code: with a bound of 3 seconds and reads of one second each, the stream
`FE FE FE FE FE CA` makes `bs_sync` issue reads at 3, 4 and 5 seconds after its entry and
return 0 at 6 seconds; and on an unending run of `FE` bytes `bs_sync` never returns,
whatever the number of steps it is given. -/
theorem bs_sync_reads_past_timeout :
    bs_sync 10 3 (stream_of (byte_reads 1000000 [0xfe, 0xfe, 0xfe, 0xfe, 0xfe, 0xca]))
        (world0 ⟨5, none⟩)
      = some (0, { now := 6000000, pos := 6, seq := ⟨5, none⟩,
                   trace := [Ev.rx 0, Ev.rx 1000000, Ev.rx 2000000, Ev.rx 3000000,
                             Ev.rx 4000000, Ev.rx 5000000] })
    ∧ ∀ fuel, bs_sync fuel 3 fe_stream (world0 ⟨5, none⟩) = none := by
  refine ⟨by decide, ?_⟩
  intro fuel
  cases fuel with
  | zero => rfl
  | succ n =>
    unfold bs_sync
    rw [bs_sync_loop_search_step 3 fe_stream _ n _ (by decide) ⟨rfl, by simp [fe_stream]⟩]
    have : decide (rd_byte fe_stream (world0 ⟨5, none⟩).pos = 0xfe) = true := by
      simp [rd_byte, fe_stream]
    rw [this]
    exact bs_sync_loop_fe_stream 3 _ n _

/-! ## Transport retry engine -/

theorem count_tx_append (P : List Nat → Bool) (a b : List Ev) :
    count_tx P (a ++ b) = count_tx P a + count_tx P b := by
  simp [count_tx, List.filter_append]

theorem count_tx_rx (P : List Nat → Bool) (a : List Ev) (t : Nat) :
    count_tx P (a ++ [Ev.rx t]) = count_tx P a := by
  simp [count_tx, List.filter_append, List.filter_cons]

theorem count_tx_flush (P : List Nat → Bool) (a : List Ev) :
    count_tx P (a ++ [Ev.flush]) = count_tx P a := by
  simp [count_tx, List.filter_append, List.filter_cons]

theorem count_tx_persist (P : List Nat → Bool) (a : List Ev) (st : Option (List Nat)) :
    count_tx P (a ++ [Ev.persist st]) = count_tx P a := by
  simp [count_tx, List.filter_append, List.filter_cons]

theorem count_tx_tx (P : List Nat → Bool) (a : List Ev) (b : List Nat) :
    count_tx P (a ++ [Ev.tx b]) = count_tx P a + (if P b then 1 else 0) := by
  by_cases h : P b = true <;> simp [count_tx, List.filter_append, List.filter_cons, h]

theorem sp_read_count_tx (P : List Nat → Bool) (rd : Nat → Rd) (w : World) (cnt : Nat) :
    count_tx P (sp_read rd w cnt).2.trace = count_tx P w.trace := by
  simp [sp_read, count_tx_rx]

theorem sp_read_seq (rd : Nat → Rd) (w : World) (cnt : Nat) :
    (sp_read rd w cnt).2.seq = w.seq := rfl

theorem attempt_err_count_tx (P : List Nat → Bool) (w : World) :
    count_tx P (attempt_err w).trace = count_tx P w.trace := by
  simp [attempt_err, count_tx_flush]

/-- Function `bs_sync` writes nothing to the transport and leaves the sequence manager
alone. -/
theorem bs_sync_loop_count_tx (P : List Nat → Bool) (timeout : Int) (rd : Nat → Rd)
    (tv_start : Nat) :
    ∀ (fuel : Nat) (got1 : Bool) (w : World) (r : Int) (w' : World),
      bs_sync_loop timeout rd tv_start fuel got1 w = some (r, w') →
      count_tx P w'.trace = count_tx P w.trace ∧ w'.seq = w.seq := by
  intro fuel
  induction fuel with
  | zero => intro got1 w r w' h; simp [bs_sync_loop] at h
  | succ n ih =>
    intro got1 w r w' h
    have hstep : ∀ g, bs_sync_loop timeout rd tv_start n g (sp_read rd w 1).2 = some (r, w') →
        count_tx P w'.trace = count_tx P w.trace ∧ w'.seq = w.seq := by
      intro g hg
      have := ih g _ r w' hg
      rw [sp_read_count_tx, sp_read_seq] at this
      exact this
    cases got1 with
    | false =>
      rw [bs_sync_loop] at h
      dsimp only at h
      split_ifs at h
      · cases h; exact ⟨rfl, rfl⟩
      · exact hstep _ h
      · exact hstep _ h
      · exact hstep _ h
      · exact hstep _ h
    | true =>
      rw [bs_sync_loop] at h
      split_ifs at h
      · exact hstep _ h
      · exact hstep _ h
      · cases h
        exact ⟨sp_read_count_tx P rd w 1, rfl⟩
      · exact hstep _ h
      · exact hstep _ h

theorem attempt_send_count_tx (P : List Nat → Bool) (request : List Nat) (request_size : Nat)
    (w : World) :
    count_tx P (attempt_send request request_size w).2.trace
      = count_tx P w.trace + (if P bs_sync_word then 1 else 0)
        + (if P ((attempt_send request request_size w).1.take request_size) then 1 else 0) := by
  simp only [attempt_send, serialport_write, count_tx_tx, count_tx_persist]

/-- The request that an attempt sends is the request stamped with the current counter. -/
theorem attempt_send_eq_stamp (request : List Nat) (request_size : Nat) (w : World) :
    (attempt_send request request_size w).1
      = bs_stamp request request_size w.seq.bs_sequence_number := rfl

theorem attempt_send_length (request : List Nat) (request_size : Nat) (w : World) :
    (attempt_send request request_size w).1.length = request.length := by
  simp [attempt_send, wr32_length]

theorem attempt_err_seq (w : World) : (attempt_err w).seq = w.seq := rfl

/-- What an iteration of the loop of `busside_requestreply` does to the request, to the
transport writes and to the sequence manager is what its stamping and sending part does. -/
theorem requestreply_attempt_effect (P : List Nat → Bool) (fuel : Nat) (rd : Nat → Rd)
    (readcnt request_size : Nat) (request reply : List Nat) (w : World)
    (ok : Bool) (rq' rp' : List Nat) (w' : World)
    (h : requestreply_attempt fuel rd readcnt request_size request reply w
      = some (ok, rq', rp', w')) :
    rq' = (attempt_send request request_size w).1
      ∧ count_tx P w'.trace = count_tx P (attempt_send request request_size w).2.trace
      ∧ w'.seq = (attempt_send request request_size w).2.seq := by
  unfold requestreply_attempt at h
  dsimp only at h
  split at h
  · cases h
  · rename_i r w1 hb
    have hs := bs_sync_loop_count_tx P 3 rd _ fuel false _ r w1 hb
    split_ifs at h <;> cases h <;>
      simp only [attempt_err_count_tx, attempt_err_seq, sp_read_count_tx, sp_read_seq, hs,
        and_self]

/-- The same for an iteration of the loop of `busside_echo`. -/
theorem echo_attempt_effect (P : List Nat → Bool) (fuel : Nat) (rd : Nat → Rd)
    (request reply : List Nat) (w : World)
    (ok : Bool) (rq' rp' : List Nat) (w' : World)
    (h : echo_attempt fuel rd request reply w = some (ok, rq', rp', w')) :
    rq' = (attempt_send request BS_HEADER_SIZE w).1
      ∧ count_tx P w'.trace = count_tx P (attempt_send request BS_HEADER_SIZE w).2.trace
      ∧ w'.seq = (attempt_send request BS_HEADER_SIZE w).2.seq := by
  unfold echo_attempt at h
  dsimp only at h
  split at h
  · cases h
  · rename_i r w1 hb
    have hs := bs_sync_loop_count_tx P 3 rd _ fuel false _ r w1 hb
    split_ifs at h <;> cases h <;>
      simp only [attempt_err_count_tx, attempt_err_seq, sp_read_count_tx, sp_read_seq, hs,
        and_self]

theorem requestreply_attempt_sends (fuel : Nat) (rd : Nat → Rd) (readcnt request_size : Nat) :
    SendsOneFrame (requestreply_attempt fuel rd readcnt request_size) request_size := by
  intro P request reply w ok rq' rp' w' h
  obtain ⟨h1, h2, _⟩ := requestreply_attempt_effect P fuel rd readcnt request_size request
    reply w ok rq' rp' w' h
  rw [h1, h2, attempt_send_length, attempt_send_count_tx]
  exact ⟨rfl, rfl⟩

theorem take_ne_sync_word (request : List Nat) (request_size : Nat)
    (h2 : 2 < request_size) (hl : request_size ≤ request.length) :
    request.take request_size ≠ bs_sync_word := by
  intro h
  have := congrArg List.length h
  simp [bs_sync_word, List.length_take] at this
  omega

/-- After `k` failed iterations exactly `k` markers and `k` frames have been written. -/
theorem failed_attempts_sent
    (attempt : List Nat → List Nat → World → Option (Bool × List Nat × List Nat × World))
    (request_size : Nat) (hs : SendsOneFrame attempt request_size) (h2 : 2 < request_size) :
    ∀ (k : Nat) (request reply : List Nat) (w : World) (rq' rp' : List Nat) (w' : World),
      request_size ≤ request.length →
      failed_attempts attempt k request reply w = some (rq', rp', w') →
      rq'.length = request.length
        ∧ frames_sent w'.trace = frames_sent w.trace + k
        ∧ markers_sent w'.trace = markers_sent w.trace + k := by
  intro k
  induction k with
  | zero =>
    intro request reply w rq' rp' w' _ h
    simp only [failed_attempts, Option.some.injEq, Prod.mk.injEq] at h
    obtain ⟨rfl, rfl, rfl⟩ := h
    exact ⟨rfl, rfl, rfl⟩
  | succ n ih =>
    intro request reply w rq' rp' w' hl h
    rw [failed_attempts] at h
    split at h
    · rename_i rq1 rp1 w1 ha
      obtain ⟨hlen, _⟩ := hs (fun _ => true) request reply w false rq1 rp1 w1 ha
      have hne := take_ne_sync_word rq1 request_size h2 (by omega)
      have hf := (hs (fun b => decide (b ≠ bs_sync_word)) request reply w false rq1 rp1 w1 ha).2
      have hm := (hs (fun b => decide (b = bs_sync_word)) request reply w false rq1 rp1 w1 ha).2
      obtain ⟨i1, i2, i3⟩ := ih rq1 rp1 w1 rq' rp' w' (by omega) h
      refine ⟨by omega, ?_, ?_⟩
      · rw [i2]
        unfold frames_sent
        rw [hf]
        simp [hne]
        omega
      · rw [i3]
        unfold markers_sent
        rw [hm]
        simp [hne]
        omega
    · cases h

/-- A loop whose first `k` iterations fail goes on from the state they leave. -/
theorem retry_loop_of_failed
    (attempt : List Nat → List Nat → World → Option (Bool × List Nat × List Nat × World)) :
    ∀ (k m i : Nat) (request reply : List Nat) (w : World) (rq' rp' : List Nat) (w' : World),
      failed_attempts attempt k request reply w = some (rq', rp', w') →
      retry_loop attempt (k + m) i request reply w = retry_loop attempt m (i + k) rq' rp' w' := by
  intro k
  induction k with
  | zero =>
    intro m i request reply w rq' rp' w' h
    simp only [failed_attempts, Option.some.injEq, Prod.mk.injEq] at h
    obtain ⟨rfl, rfl, rfl⟩ := h
    simp
  | succ n ih =>
    intro m i request reply w rq' rp' w' h
    rw [failed_attempts] at h
    split at h
    · rename_i rq1 rp1 w1 ha
      rw [show n + 1 + m = (n + m) + 1 by omega, retry_loop, ha]
      simp only
      rw [ih m (i + 1) rq1 rp1 w1 rq' rp' w' h]
      congr 1
      omega
    · cases h

theorem mem_write_length (buf : List Nat) (off : Nat) (data : List Nat)
    (h : off + data.length ≤ buf.length) : (mem_write buf off data).length = buf.length := by
  simp [mem_write, List.length_take, List.length_drop]
  omega

theorem requestreply_request_length (request : List Nat) (request_size spispeed writecnt readcnt : Nat)
    (writearr : List Nat) (h : BS_HEADER_SIZE + 4 * 7 + writecnt ≤ request.length) :
    (requestreply_request request request_size spispeed writecnt readcnt writearr).length
      = request.length := by
  unfold requestreply_request
  dsimp only
  rw [mem_write_length]
  · simp only [wr32_length]
  · simp only [wr32_length, List.length_take]
    omega

theorem to_u32_of_nonneg (n : Int) (h0 : 0 ≤ n) (h1 : n < 2147483648) :
    to_u32 n = n.toNat := by
  unfold to_u32
  rw [Int.emod_eq_of_lt h0 (by omega)]

theorem getD_append_left (a b : List Nat) (i : Nat) (h : i < a.length) :
    (a ++ b).getD i 0 = a.getD i 0 := by
  simp [List.getD_eq_getElem?_getD, List.getElem?_append_left h]

theorem rd32_append_left (a b : List Nat) (off : Nat) (h : off + 4 ≤ a.length) :
    rd32 (a ++ b) off = rd32 a off := by
  unfold rd32
  rw [getD_append_left a b off (by omega), getD_append_left a b (off + 1) (by omega),
    getD_append_left a b (off + 2) (by omega), getD_append_left a b (off + 3) (by omega)]

theorem set_append_left (a b : List Nat) (i x : Nat) (h : i < a.length) :
    (a ++ b).set i x = a.set i x ++ b := by
  rw [List.set_append, if_pos h]

theorem wr32_append_left (a b : List Nat) (off v : Nat) (h : off + 4 ≤ a.length) :
    wr32 (a ++ b) off v = wr32 a off v ++ b := by
  unfold wr32
  rw [set_append_left a b off _ (by omega),
    set_append_left _ b (off + 1) _ (by rw [List.length_set]; omega),
    set_append_left _ b (off + 2) _ (by rw [List.length_set, List.length_set]; omega),
    set_append_left _ b (off + 3) _
      (by rw [List.length_set, List.length_set, List.length_set]; omega)]

theorem wr32_drop (buf : List Nat) (off v n : Nat) (h : off + 4 ≤ n) :
    (wr32 buf off v).drop n = buf.drop n := by
  unfold wr32
  rw [List.drop_set_of_lt _ _ (by omega), List.drop_set_of_lt _ _ (by omega),
    List.drop_set_of_lt _ _ (by omega), List.drop_set_of_lt _ _ (by omega)]

theorem mem_write_zero (buf data : List Nat) :
    mem_write buf 0 data = data ++ buf.drop data.length := by
  simp [mem_write]

theorem mem_write_after (a rest data : List Nat) :
    mem_write (a ++ rest) a.length data = a ++ data ++ rest.drop data.length := by
  simp [mem_write, List.drop_append]

theorem attempt_send_pos (request : List Nat) (request_size : Nat) (w : World) :
    (attempt_send request request_size w).2.pos = w.pos := rfl

theorem attempt_send_now (request : List Nat) (request_size : Nat) (w : World) :
    (attempt_send request request_size w).2.now = w.now := rfl

theorem attempt_send_seq_field (request : List Nat) (request_size : Nat) (w : World)
    (hl : BS_HEADER_SIZE ≤ request.length) (hs : w.seq.bs_sequence_number < 4294967296) :
    rd32 (attempt_send request request_size w).1 OFF_SEQUENCE_NUMBER
      = w.seq.bs_sequence_number := by
  have e16 : BS_HEADER_SIZE = 16 := rfl
  have e8 : OFF_SEQUENCE_NUMBER = 8 := rfl
  have e12 : OFF_CHECKSUM = 12 := rfl
  simp only [attempt_send]
  rw [rd32_wr32_other _ _ _ _ (by omega), rd32_wr32_other _ _ _ _ (by omega),
    rd32_wr32_same _ _ _ (by omega) hs]

/-- An attempt of `busside_requestreply` that gets a valid reply (marker found in
time, header `H` of 16 bytes declaring `readcnt` payload bytes and carrying the sequence
number just stamped, payload `P` of `readcnt` bytes, checksum of `H ++ P` right) reaches
`break`, and the reply buffer then holds `P` as its payload. -/
theorem requestreply_attempt_valid (fuel : Nat) (rd : Nat → Rd) (readcnt request_size : Nat)
    (request reply : List Nat) (w : World) (idx : Nat) (H P : List Nat)
    (hl : BS_HEADER_SIZE ≤ request.length) (hs : w.seq.bs_sequence_number < 4294967296)
    (hr : BS_HEADER_SIZE + readcnt < 2147483648)
    (hfuel : idx + 2 ≤ fuel)
    (hdel : ∀ j, j ≤ idx + 1 → rd_delivers rd (w.pos + j))
    (hfe : rd_byte rd (w.pos + idx) = 0xfe)
    (hca : rd_byte rd (w.pos + idx + 1) = 0xca)
    (hfirst : ∀ j, j < idx →
      ¬ (rd_byte rd (w.pos + j) = 0xfe ∧ rd_byte rd (w.pos + j + 1) = 0xca))
    (htime : (((reads_duration rd w.pos idx) / 1000000 : Nat) : Int) < 3)
    (hH : (rd (w.pos + idx + 2)).rv = 0
      ∧ (rd (w.pos + idx + 2)).data.take BS_HEADER_SIZE = H ∧ H.length = BS_HEADER_SIZE)
    (hpl : rd32 H OFF_PAYLOAD_LENGTH = readcnt)
    (hP : (rd (w.pos + idx + 3)).rv = 0
      ∧ (rd (w.pos + idx + 3)).data.take readcnt = P ∧ P.length = readcnt)
    (hseq : rd32 H OFF_SEQUENCE_NUMBER = w.seq.bs_sequence_number)
    (hsum : crc_mem (wr32 (H ++ P) OFF_CHECKSUM 0) (to_int (BS_HEADER_SIZE + readcnt))
      = rd32 H OFF_CHECKSUM) :
    ∃ rq' rp' w', requestreply_attempt fuel rd readcnt request_size request reply w
        = some (true, rq', rp', w')
      ∧ (rp'.drop BS_HEADER_SIZE).take readcnt = P := by
  have e16 : BS_HEADER_SIZE = 16 := rfl
  have e4 : OFF_PAYLOAD_LENGTH = 4 := rfl
  have e8 : OFF_SEQUENCE_NUMBER = 8 := rfl
  have e12 : OFF_CHECKSUM = 12 := rfl
  obtain ⟨hHrv, hHd, hHl⟩ := hH
  obtain ⟨hPrv, hPd, hPl⟩ := hP
  obtain ⟨w1, hb, hp1⟩ : ∃ w', bs_sync fuel 3 rd (attempt_send request request_size w).2
      = some (0, w') ∧ w'.pos = (attempt_send request request_size w).2.pos + idx + 2 := by
    unfold bs_sync
    apply bs_sync_loop_finds 3 rd _ idx fuel false _ hfuel
      (by simpa only [attempt_send_pos] using hdel)
      (by simpa only [attempt_send_pos] using hfe)
      (by simpa only [attempt_send_pos] using hca)
      (by simpa only [attempt_send_pos] using hfirst)
    · intro h; cases h
    · rw [Nat.add_sub_cancel_left, attempt_send_pos]
      exact htime
  rw [attempt_send_pos] at hp1
  have F1 : (sp_read rd w1 BS_HEADER_SIZE).1.1 = 0 := by
    simp only [sp_read, hp1, hHrv]
  have F2 : (sp_read rd w1 BS_HEADER_SIZE).1.2 = H := by
    simp only [sp_read, hp1, hHd]
  have hp2 : (sp_read rd w1 BS_HEADER_SIZE).2.pos = w.pos + idx + 3 := by
    rw [sp_read_pos, hp1]
  have F3 : (sp_read rd (sp_read rd w1 BS_HEADER_SIZE).2 readcnt).1.1 = 0 := by
    simp only [sp_read, hp1, hPrv]
  have F4 : (sp_read rd (sp_read rd w1 BS_HEADER_SIZE).2 readcnt).1.2 = P := by
    simp only [sp_read, hp1, hPd]
  have G1 : mem_write reply 0 H = H ++ reply.drop BS_HEADER_SIZE := by
    rw [mem_write_zero, hHl]
  have G2 : mem_write (H ++ reply.drop BS_HEADER_SIZE) BS_HEADER_SIZE P
      = (H ++ P) ++ (reply.drop BS_HEADER_SIZE).drop readcnt := by
    have := mem_write_after H (reply.drop BS_HEADER_SIZE) P
    rw [hHl, hPl] at this
    exact this
  have hHP : (H ++ P).length = BS_HEADER_SIZE + readcnt := by
    rw [List.length_append, hHl, hPl]
  have G3 : rd32 (H ++ reply.drop BS_HEADER_SIZE) OFF_PAYLOAD_LENGTH = readcnt := by
    rw [rd32_append_left _ _ _ (by omega), hpl]
  have G4 : rd32 ((H ++ P) ++ (reply.drop BS_HEADER_SIZE).drop readcnt) OFF_SEQUENCE_NUMBER
      = w.seq.bs_sequence_number := by
    rw [rd32_append_left _ _ _ (by omega), rd32_append_left _ _ _ (by omega), hseq]
  have G5 := attempt_send_seq_field request request_size w hl hs
  have G6 : rd32 ((H ++ P) ++ (reply.drop BS_HEADER_SIZE).drop readcnt) OFF_CHECKSUM
      = rd32 H OFF_CHECKSUM := by
    rw [rd32_append_left _ _ _ (by omega), rd32_append_left _ _ _ (by omega)]
  have G7 : wr32 ((H ++ P) ++ (reply.drop BS_HEADER_SIZE).drop readcnt) OFF_CHECKSUM 0
      = wr32 (H ++ P) OFF_CHECKSUM 0 ++ (reply.drop BS_HEADER_SIZE).drop readcnt := by
    rw [wr32_append_left _ _ _ _ (by omega)]
  have G8 : rd32 (wr32 (H ++ P) OFF_CHECKSUM 0 ++ (reply.drop BS_HEADER_SIZE).drop readcnt)
      OFF_PAYLOAD_LENGTH = readcnt := by
    rw [rd32_append_left _ _ _ (by rw [wr32_length]; omega),
      rd32_wr32_other _ _ _ _ (by omega), rd32_append_left _ _ _ (by omega), hpl]
  have G9 : crc_mem (wr32 (H ++ P) OFF_CHECKSUM 0 ++ (reply.drop BS_HEADER_SIZE).drop readcnt)
      (to_int ((BS_HEADER_SIZE + readcnt) % 4294967296)) = rd32 H OFF_CHECKSUM := by
    rw [Nat.mod_eq_of_lt (by omega), ← hsum, to_int_of_lt _ hr]
    have := crc_mem_append (wr32 (H ++ P) OFF_CHECKSUM 0)
      ((reply.drop BS_HEADER_SIZE).drop readcnt)
    rw [wr32_length, hHP] at this
    exact this
  refine ⟨(attempt_send request request_size w).1,
    wr32 (H ++ P) OFF_CHECKSUM 0 ++ (reply.drop BS_HEADER_SIZE).drop readcnt,
    (sp_read rd (sp_read rd w1 BS_HEADER_SIZE).2 readcnt).2, ?_, ?_⟩
  · unfold requestreply_attempt
    dsimp only
    rw [hb]
    simp only [F1, F2, F3, F4, G1, G2, G3, G4, G5, G6, G7, G8, G9, hHl, hPl, ne_eq,
      not_true_eq_false, if_false, or_self]
  · rw [List.drop_append_of_le_length (by rw [wr32_length]; omega),
      wr32_drop _ _ _ _ (by omega), List.drop_left' hHl,
      List.take_append_of_le_length (by omega), List.take_of_length_le (by omega)]

/-- C9: when the first `k < nretries` attempts of `busside_requestreply` fail and the
reply to attempt `k + 1` is valid (marker found within the 3 second budget, a 16-byte
header `H` declaring `readcnt` payload bytes and carrying the sequence number stamped on
that attempt, `readcnt` payload bytes `P`, right checksum), the call returns 0 after
exactly `k + 1` attempts and the first `readcnt` bytes of `readarr` are `P`, unchanged and
in order. -/
theorem reply_after_failures (ERROR_OOM : Int) (fuel : Nat) (rd : Nat → Rd)
    (junk1 junk2 : Nat → Nat) (spispeed : Nat) (nretries timeout : Int)
    (writecnt readcnt : Nat) (writearr readarr : List Nat) (w : World)
    (k idx : Nat) (sk : List Nat × List Nat × World) (H P : List Nat)
    (h1 : nretries < 2147483648) (hk : (k : Int) < nretries)
    (hw : BS_HEADER_SIZE + 7 * 4 + writecnt < 4294967296)
    (hr : BS_HEADER_SIZE + readcnt < 2147483648)
    (hfail : requestreply_after_failures fuel rd junk1 junk2 spispeed writecnt readcnt
      writearr w k = some sk)
    (hs : sk.2.2.seq.bs_sequence_number < 4294967296)
    (hfuel : idx + 2 ≤ fuel)
    (hdel : ∀ j, j ≤ idx + 1 → rd_delivers rd (sk.2.2.pos + j))
    (hfe : rd_byte rd (sk.2.2.pos + idx) = 0xfe)
    (hca : rd_byte rd (sk.2.2.pos + idx + 1) = 0xca)
    (hfirst : ∀ j, j < idx →
      ¬ (rd_byte rd (sk.2.2.pos + j) = 0xfe ∧ rd_byte rd (sk.2.2.pos + j + 1) = 0xca))
    (htime : (((reads_duration rd sk.2.2.pos idx) / 1000000 : Nat) : Int) < 3)
    (hH : (rd (sk.2.2.pos + idx + 2)).rv = 0
      ∧ (rd (sk.2.2.pos + idx + 2)).data.take BS_HEADER_SIZE = H
      ∧ H.length = BS_HEADER_SIZE)
    (hpl : rd32 H OFF_PAYLOAD_LENGTH = readcnt)
    (hP : (rd (sk.2.2.pos + idx + 3)).rv = 0
      ∧ (rd (sk.2.2.pos + idx + 3)).data.take readcnt = P ∧ P.length = readcnt)
    (hseq : rd32 H OFF_SEQUENCE_NUMBER = sk.2.2.seq.bs_sequence_number)
    (hsum : crc_mem (wr32 (H ++ P) OFF_CHECKSUM 0) (to_int (BS_HEADER_SIZE + readcnt))
      = rd32 H OFF_CHECKSUM) :
    ∃ readarr' w', busside_requestreply ERROR_OOM fuel rd true true junk1 junk2 spispeed
          nretries timeout writecnt readcnt writearr readarr w = some (0, readarr', w')
      ∧ readarr'.take readcnt = P
      ∧ frames_sent w'.trace = frames_sent w.trace + (k + 1)
      ∧ markers_sent w'.trace = markers_sent w.trace + (k + 1) := by
  obtain ⟨rq_k, rp_k, w_k⟩ := sk
  have e16 : BS_HEADER_SIZE = 16 := rfl
  have hu := to_u32_of_nonneg nretries (by omega) h1
  have hsz : (BS_HEADER_SIZE + 7 * 4 + writecnt) % 4294967296
      = BS_HEADER_SIZE + 7 * 4 + writecnt := Nat.mod_eq_of_lt hw
  unfold requestreply_after_failures at hfail
  have hsends := requestreply_attempt_sends fuel rd readcnt
    ((BS_HEADER_SIZE + 7 * 4 + writecnt) % 4294967296)
  have hsz2 : 2 < (BS_HEADER_SIZE + 7 * 4 + writecnt) % 4294967296 := by
    rw [hsz, e16]; omega
  have hsent := failed_attempts_sent _ _ hsends hsz2 _ _ _ _ rq_k rp_k w_k
    (by
      rw [requestreply_request_length]
      · simp
      · simp [hsz]) hfail
  have hlen0 : (requestreply_request
      ((List.range ((BS_HEADER_SIZE + 7 * 4 + writecnt) % 4294967296)).map junk1)
      ((BS_HEADER_SIZE + 7 * 4 + writecnt) % 4294967296) spispeed writecnt readcnt
      writearr).length = (BS_HEADER_SIZE + 7 * 4 + writecnt) % 4294967296 := by
    rw [requestreply_request_length]
    · simp
    · simp [hsz]
  have hlk : rq_k.length = (BS_HEADER_SIZE + 7 * 4 + writecnt) % 4294967296 := by
    rw [hsent.1, hlen0]
  obtain ⟨rq', rp', w', hatt, hpay⟩ := requestreply_attempt_valid fuel rd readcnt
    ((BS_HEADER_SIZE + 7 * 4 + writecnt) % 4294967296) rq_k rp_k w_k idx H P
    (by rw [hlk, hsz]; omega) hs hr hfuel hdel hfe hca hfirst htime hH hpl hP hseq hsum
  obtain ⟨m, hm⟩ : ∃ m, to_u32 nretries = k + (m + 1) := ⟨nretries.toNat - k - 1, by omega⟩
  have hloop := retry_loop_of_failed _ k (m + 1) 0 _ _ _ rq_k rp_k w_k hfail
  rw [← hm, retry_loop, hatt] at hloop
  have hone := hsends (fun b => decide (b ≠ bs_sync_word)) rq_k rp_k w_k true rq' rp' w' hatt
  have hmark := hsends (fun b => decide (b = bs_sync_word)) rq_k rp_k w_k true rq' rp' w' hatt
  have hne := take_ne_sync_word rq' _ hsz2 (by rw [hone.1, hlk])
  refine ⟨mem_write readarr 0 ((rp'.drop BS_HEADER_SIZE).take readcnt), w', ?_, ?_, ?_, ?_⟩
  · unfold busside_requestreply
    simp only [malloc, if_true]
    rw [hloop]
    have hik : ¬ (0 + k = to_u32 nretries) := by omega
    simp only [hik, if_false]
  · rw [hpay, mem_write_zero, List.take_append_of_le_length (by omega),
      List.take_of_length_le (by omega)]
  · unfold frames_sent at hsent ⊢
    rw [hone.2, hsent.2.1]
    simp [hne]
    omega
  · unfold markers_sent at hsent ⊢
    rw [hmark.2, hsent.2.2]
    simp [hne]
    omega

/-- C10: whenever `busside_requestreply` returns a non-zero result (`-1` after exhausted
retries, or `ERROR_OOM` when an allocation fails), the caller's `readarr` is unchanged. -/
theorem failure_keeps_readarr (ERROR_OOM : Int) (fuel : Nat) (rd : Nat → Rd)
    (malloc1 malloc2 : Bool) (junk1 junk2 : Nat → Nat) (spispeed : Nat)
    (nretries timeout : Int) (writecnt readcnt : Nat) (writearr readarr : List Nat)
    (w : World) (r : Int × List Nat × World)
    (h : busside_requestreply ERROR_OOM fuel rd malloc1 malloc2 junk1 junk2 spispeed
      nretries timeout writecnt readcnt writearr readarr w = some r)
    (hne : r.1 ≠ 0) : r.2.1 = readarr := by
  unfold busside_requestreply at h
  dsimp only at h
  split at h
  · cases h; rfl
  · split at h
    · cases h; rfl
    · split at h
      · cases h
      · split_ifs at h
        · cases h; rfl
        · cases h; exact absurd rfl hne

set_option maxRecDepth 16384 in
/-- A request whose first attempt times out and whose second attempt is answered by a
valid reply returns the payload `01 02 03` after two attempts. -/
theorem reply_after_failures_witness :
    ((3 : Int) < 2147483648 ∧ ((1 : Nat) : Int) < 3
      ∧ BS_HEADER_SIZE + 7 * 4 + 1 < 4294967296
      ∧ BS_HEADER_SIZE + 3 < 2147483648
      ∧ requestreply_after_failures 10 demo_retry_stream (fun _ => 0) (fun _ => 0) 7 1 3
          [0x9F] demo_world 1 = some demo_after_one_failure
      ∧ demo_after_one_failure.2.2.seq.bs_sequence_number < 4294967296
      ∧ 0 + 2 ≤ 10
      ∧ (∀ j, j ≤ 0 + 1 → rd_delivers demo_retry_stream (demo_after_one_failure.2.2.pos + j))
      ∧ rd_byte demo_retry_stream (demo_after_one_failure.2.2.pos + 0) = 0xfe
      ∧ rd_byte demo_retry_stream (demo_after_one_failure.2.2.pos + 0 + 1) = 0xca
      ∧ (∀ j, j < 0 →
          ¬ (rd_byte demo_retry_stream (demo_after_one_failure.2.2.pos + j) = 0xfe
            ∧ rd_byte demo_retry_stream (demo_after_one_failure.2.2.pos + j + 1) = 0xca))
      ∧ (((reads_duration demo_retry_stream demo_after_one_failure.2.2.pos 0) / 1000000 : Nat)
          : Int) < 3
      ∧ ((demo_retry_stream (demo_after_one_failure.2.2.pos + 0 + 2)).rv = 0
        ∧ (demo_retry_stream (demo_after_one_failure.2.2.pos + 0 + 2)).data.take BS_HEADER_SIZE
          = demo_reply_header
        ∧ demo_reply_header.length = BS_HEADER_SIZE)
      ∧ rd32 demo_reply_header OFF_PAYLOAD_LENGTH = 3
      ∧ ((demo_retry_stream (demo_after_one_failure.2.2.pos + 0 + 3)).rv = 0
        ∧ (demo_retry_stream (demo_after_one_failure.2.2.pos + 0 + 3)).data.take 3 = [1, 2, 3]
        ∧ ([1, 2, 3] : List Nat).length = 3)
      ∧ rd32 demo_reply_header OFF_SEQUENCE_NUMBER
        = demo_after_one_failure.2.2.seq.bs_sequence_number
      ∧ crc_mem (wr32 (demo_reply_header ++ [1, 2, 3]) OFF_CHECKSUM 0)
          (to_int (BS_HEADER_SIZE + 3)) = rd32 demo_reply_header OFF_CHECKSUM)
    ∧ ∃ readarr' w', busside_requestreply (-100) 10 demo_retry_stream true true (fun _ => 0)
          (fun _ => 0) 7 3 2000 1 3 [0x9F] [0, 0, 0] demo_world = some (0, readarr', w')
        ∧ readarr'.take 3 = [1, 2, 3]
        ∧ frames_sent w'.trace = frames_sent demo_world.trace + (1 + 1)
        ∧ markers_sent w'.trace = markers_sent demo_world.trace + (1 + 1) :=
  ⟨by decide,
    reply_after_failures (-100) 10 demo_retry_stream (fun _ => 0) (fun _ => 0) 7 3 2000 1 3
      [0x9F] [0, 0, 0] demo_world 1 0 demo_after_one_failure demo_reply_header [1, 2, 3]
      (by norm_num) (by norm_num) (by decide) (by decide)
      (show requestreply_after_failures 10 demo_retry_stream (fun _ => 0) (fun _ => 0) 7 1 3
        [0x9F] demo_world 1 = some demo_after_one_failure by decide)
      (by decide) (by omega) (by decide)
      (show rd_byte demo_retry_stream 3 = 0xfe by decide)
      (show rd_byte demo_retry_stream 4 = 0xca by decide)
      (by intro j hj; omega) (by decide)
      ⟨by decide, by decide, rfl⟩
      (show rd32 demo_reply_header 4 = 3 by decide)
      ⟨by decide, by decide, rfl⟩
      (show rd32 demo_reply_header 8 = 6 by decide)
      (by decide)⟩

set_option maxRecDepth 16384 in
/-- A request that fails after a header and a part of a payload were received leaves
`readarr` as it was. -/
theorem failure_keeps_readarr_witness :
    (busside_requestreply (-100) 10 demo_short_payload_stream true true (fun _ => 0x55)
          (fun _ => 0x55) 7 1 2000 1 3 [0x9F] [7, 7, 7] demo_world = some demo_failed_result
      ∧ demo_failed_result.1 ≠ 0)
    ∧ demo_failed_result.2.1 = [7, 7, 7] :=
  ⟨⟨by decide, by decide⟩,
    failure_keeps_readarr (-100) 10 demo_short_payload_stream true true (fun _ => 0x55)
      (fun _ => 0x55) 7 1 2000 1 3 [0x9F] [7, 7, 7] demo_world demo_failed_result
      (by decide) (by decide)⟩

/-! ## Stream synchroniser: failed reads -/

/-- A step at label `got1` on a read that fails or delivers nothing: back to the top of
the loop. -/
theorem bs_sync_loop_got1_nothing (timeout : Int) (rd : Nat → Rd) (tv_start fuel : Nat)
    (w : World) (hd : ¬ rd_delivers rd w.pos) :
    bs_sync_loop timeout rd tv_start (fuel + 1) true w
      = bs_sync_loop timeout rd tv_start fuel false (sp_read rd w 1).2 := by
  rw [bs_sync_loop]
  by_cases hrv : (sp_read rd w 1).1.1 ≠ 0
  · rw [if_pos hrv]
  · rw [if_neg hrv]
    have hrv0 : (rd w.pos).rv = 0 := by simpa [sp_read] using hrv
    have hnil : (rd w.pos).data = [] := by
      by_contra hne
      exact hd ⟨hrv0, hne⟩
    have hl : (sp_read rd w 1).1.2.length ≠ 1 := by simp [sp_read, hnil]
    rw [if_pos hl]

/-- What the conditions tested after a one-byte read say about the read. -/
theorem sp_read_one_delivers (rd : Nat → Rd) (w : World)
    (h1 : ¬ (sp_read rd w 1).1.1 ≠ 0) (h2 : ¬ (sp_read rd w 1).1.2.length ≠ 1) :
    rd_delivers rd w.pos ∧ (sp_read rd w 1).1.2.getD 0 0 = rd_byte rd w.pos := by
  have hrv0 : (rd w.pos).rv = 0 := by simpa [sp_read] using h1
  have hne : (rd w.pos).data ≠ [] := by
    intro hnil
    apply h2
    simp [sp_read, hnil]
  exact ⟨⟨hrv0, hne⟩, (take_one_of_ne_nil _ hne).2⟩

/-- Whenever the scanner returns success, its last two reads were delivered and carried
`FE` and `CA`. -/
theorem bs_sync_loop_success_reads (timeout : Int) (rd : Nat → Rd) (tv_start : Nat) :
    ∀ (fuel : Nat) (got1 : Bool) (w w' : World),
      bs_sync_loop timeout rd tv_start fuel got1 w = some (0, w') →
      (got1 = true → 1 ≤ w.pos ∧ rd_delivers rd (w.pos - 1) ∧ rd_byte rd (w.pos - 1) = 0xfe) →
      w.pos + 1 ≤ w'.pos ∧ (got1 = false → w.pos + 2 ≤ w'.pos) ∧ 2 ≤ w'.pos
        ∧ rd_delivers rd (w'.pos - 2) ∧ rd_byte rd (w'.pos - 2) = 0xfe
        ∧ rd_delivers rd (w'.pos - 1) ∧ rd_byte rd (w'.pos - 1) = 0xca := by
  intro fuel
  induction fuel with
  | zero => intro got1 w w' h; simp [bs_sync_loop] at h
  | succ n ih =>
    intro got1 w w' h hg
    have hsearch : bs_sync_loop timeout rd tv_start n false (sp_read rd w 1).2 = some (0, w') →
        w.pos + 1 ≤ w'.pos ∧ (got1 = false → w.pos + 2 ≤ w'.pos) ∧ 2 ≤ w'.pos
          ∧ rd_delivers rd (w'.pos - 2) ∧ rd_byte rd (w'.pos - 2) = 0xfe
          ∧ rd_delivers rd (w'.pos - 1) ∧ rd_byte rd (w'.pos - 1) = 0xca := by
      intro hr
      have := ih false _ w' hr (by intro hc; cases hc)
      rw [sp_read_pos] at this
      obtain ⟨a, b, c⟩ := this
      have b' := b rfl
      exact ⟨by omega, fun _ => by omega, c⟩
    have hgot : rd_delivers rd w.pos → rd_byte rd w.pos = 0xfe →
        bs_sync_loop timeout rd tv_start n true (sp_read rd w 1).2 = some (0, w') →
        w.pos + 1 ≤ w'.pos ∧ (got1 = false → w.pos + 2 ≤ w'.pos) ∧ 2 ≤ w'.pos
          ∧ rd_delivers rd (w'.pos - 2) ∧ rd_byte rd (w'.pos - 2) = 0xfe
          ∧ rd_delivers rd (w'.pos - 1) ∧ rd_byte rd (w'.pos - 1) = 0xca := by
      intro hd hfe hr
      have := ih true _ w' hr (by
        intro _
        rw [sp_read_pos]
        exact ⟨by omega, by simpa using hd, by simpa using hfe⟩)
      rw [sp_read_pos] at this
      obtain ⟨a, _, c⟩ := this
      exact ⟨by omega, fun _ => by omega, c⟩
    cases got1 with
    | false =>
      rw [bs_sync_loop] at h
      dsimp only at h
      split_ifs at h with c0 c1 c2 c3
      · cases h
      · exact hsearch h
      · exact hsearch h
      · obtain ⟨hd, hb⟩ := sp_read_one_delivers rd w c1 c2
        exact hgot hd (by rw [← hb]; exact c3) h
      · exact hsearch h
    | true =>
      rw [bs_sync_loop] at h
      split_ifs at h with c1 c2 c3 c4
      · exact hsearch h
      · exact hsearch h
      · obtain ⟨hd, hb⟩ := sp_read_one_delivers rd w c1 c2
        obtain ⟨g1, g2, g3⟩ := hg rfl
        have hw : w' = (sp_read rd w 1).2 := by
          simp only [Option.some.injEq, Prod.mk.injEq, true_and] at h
          exact h.symm
        rw [hw, sp_read_pos]
        refine ⟨by omega, (fun hc => by cases hc), by omega, ?_, ?_, ?_, ?_⟩
        · simpa using g2
        · simpa using g3
        · simpa using hd
        · rw [Nat.add_sub_cancel, ← hb]
          exact c3
      · obtain ⟨hd, hb⟩ := sp_read_one_delivers rd w c1 c2
        exact hgot hd (by rw [← hb]; exact c4) h
      · exact hsearch h

/-- C20: in `bs_sync`, when a delivered `FE` is followed by a read that fails or delivers
no byte and then by a delivered `CA`, the scanner does not return at that `CA`: after the
three reads it is at the top of its loop again, searching; and whenever `bs_sync` returns
0, its last two reads, one right after the other, were both delivered and carried `FE`
and `CA`. -/
theorem bs_sync_failed_read_resets (timeout : Int) (rd : Nat → Rd) (tv_start fuel : Nat)
    (got1 : Bool) (w : World)
    (h0 : rd_delivers rd w.pos) (hfe : rd_byte rd w.pos = 0xfe)
    (h1 : ¬ rd_delivers rd (w.pos + 1))
    (h2 : rd_delivers rd (w.pos + 2)) (hca : rd_byte rd (w.pos + 2) = 0xca)
    (ht0 : got1 = false → (((w.now - tv_start) / 1000000 : Nat) : Int) < timeout)
    (ht2 : (((w.now + (rd w.pos).dt + (rd (w.pos + 1)).dt - tv_start) / 1000000 : Nat) : Int)
      < timeout) :
    bs_sync_loop timeout rd tv_start (fuel + 3) got1 w
        = bs_sync_loop timeout rd tv_start fuel false
            (sp_read rd (sp_read rd (sp_read rd w 1).2 1).2 1).2
      ∧ ∀ (fuel' : Nat) (w0 w' : World), bs_sync fuel' timeout rd w0 = some (0, w') →
          w0.pos + 2 ≤ w'.pos
            ∧ rd_delivers rd (w'.pos - 2) ∧ rd_byte rd (w'.pos - 2) = 0xfe
            ∧ rd_delivers rd (w'.pos - 1) ∧ rd_byte rd (w'.pos - 1) = 0xca := by
  constructor
  · have hfirst : bs_sync_loop timeout rd tv_start (fuel + 2 + 1) got1 w
        = bs_sync_loop timeout rd tv_start (fuel + 2) true (sp_read rd w 1).2 := by
      cases got1 with
      | false =>
        rw [bs_sync_loop_search_step timeout rd tv_start (fuel + 2) w (ht0 rfl) h0,
          decide_eq_true hfe]
      | true =>
        rw [bs_sync_loop_got1_step timeout rd tv_start (fuel + 2) w h0 (by rw [hfe]; decide),
          decide_eq_true hfe]
    rw [show fuel + 3 = fuel + 2 + 1 from rfl, hfirst,
      show fuel + 2 = fuel + 1 + 1 from rfl,
      bs_sync_loop_got1_nothing timeout rd tv_start (fuel + 1) _ (by rw [sp_read_pos]; exact h1),
      bs_sync_loop_search_step timeout rd tv_start fuel _
        (by rw [sp_read_now, sp_read_now, sp_read_pos]; exact ht2)
        (by rw [sp_read_pos, sp_read_pos]; exact h2)]
    have hnotfe : ¬ rd_byte rd (sp_read rd (sp_read rd w 1).2 1).2.pos = 0xfe := by
      rw [sp_read_pos, sp_read_pos, hca]
      decide
    rw [decide_eq_false hnotfe]
  · intro fuel' w0 w' h
    unfold bs_sync at h
    obtain ⟨_, b, _, d⟩ := bs_sync_loop_success_reads timeout rd w0.now fuel' false w0 w' h
      (by intro hc; cases hc)
    exact ⟨b rfl, d⟩

/-- On `FE`, a failed read, `CA`, `FE`, `CA` the scanner is searching again after the
first three reads. -/
theorem bs_sync_failed_read_resets_witness :
    (rd_delivers demo_broken_marker_stream demo_world.pos
      ∧ rd_byte demo_broken_marker_stream demo_world.pos = 0xfe
      ∧ ¬ rd_delivers demo_broken_marker_stream (demo_world.pos + 1)
      ∧ rd_delivers demo_broken_marker_stream (demo_world.pos + 2)
      ∧ rd_byte demo_broken_marker_stream (demo_world.pos + 2) = 0xca
      ∧ (false = false → (((demo_world.now - 0) / 1000000 : Nat) : Int) < 3)
      ∧ (((demo_world.now + (demo_broken_marker_stream demo_world.pos).dt
            + (demo_broken_marker_stream (demo_world.pos + 1)).dt - 0) / 1000000 : Nat) : Int)
          < 3)
    ∧ (bs_sync_loop 3 demo_broken_marker_stream 0 (4 + 3) false demo_world
          = bs_sync_loop 3 demo_broken_marker_stream 0 4 false
              (sp_read demo_broken_marker_stream (sp_read demo_broken_marker_stream
                (sp_read demo_broken_marker_stream demo_world 1).2 1).2 1).2
        ∧ ∀ (fuel' : Nat) (w0 w' : World),
            bs_sync fuel' 3 demo_broken_marker_stream w0 = some (0, w') →
            w0.pos + 2 ≤ w'.pos
              ∧ rd_delivers demo_broken_marker_stream (w'.pos - 2)
              ∧ rd_byte demo_broken_marker_stream (w'.pos - 2) = 0xfe
              ∧ rd_delivers demo_broken_marker_stream (w'.pos - 1)
              ∧ rd_byte demo_broken_marker_stream (w'.pos - 1) = 0xca) :=
  ⟨by decide,
    bs_sync_failed_read_resets 3 demo_broken_marker_stream 0 4 false demo_world
      (by decide) (show rd_byte demo_broken_marker_stream 0 = 0xfe by decide)
      (by decide) (by decide) (show rd_byte demo_broken_marker_stream 2 = 0xca by decide)
      (by intro _; decide) (by decide)⟩

/-! ## Clock speed parameter -/

theorem get_spispeed_loop_range (tmp : List Char) :
    ∀ (rows : List (Option String × Nat × Nat)) (i : Nat) (speed : Int),
      (∀ row ∈ rows, row.2.1 ≤ 7) → 0 ≤ speed → speed ≤ 7 →
      0 ≤ (get_spispeed_loop tmp rows i speed).2 ∧ (get_spispeed_loop tmp rows i speed).2 ≤ 7 := by
  intro rows
  induction rows with
  | nil => intro i speed _ h0 h7; exact ⟨h0, h7⟩
  | cons row rest ih =>
    intro i speed hr h0 h7
    obtain ⟨name, code, hz⟩ := row
    cases name with
    | none => exact ⟨h0, h7⟩
    | some nm =>
      simp only [get_spispeed_loop]
      split_ifs
      · have := hr (some nm, code, hz) (List.mem_cons_self _ _)
        simp only at this
        exact ⟨by omega, by omega⟩
      · exact ih (i + 1) speed (fun r hm => hr r (List.mem_cons_of_mem _ hm)) h0 h7

theorem get_spispeed_loop_no_match (tmp : List Char) :
    ∀ (rows : List (Option String × Nat × Nat)) (i : Nat) (speed : Int),
      (∀ row ∈ rows, ∀ name, row.1 = some name →
        strncasecmp name.toList tmp (strlen name.toList) ≠ 0) →
      (get_spispeed_loop tmp rows i speed).2 = speed := by
  intro rows
  induction rows with
  | nil => intro i speed _; rfl
  | cons row rest ih =>
    intro i speed hr
    obtain ⟨name, code, hz⟩ := row
    cases name with
    | none => rfl
    | some nm =>
      simp only [get_spispeed_loop]
      rw [if_neg (hr (some nm, code, hz) (List.mem_cons_self _ _) nm rfl)]
      exact ih (i + 1) speed (fun r hm => hr r (List.mem_cons_of_mem _ hm))

theorem spispeeds_real_entry (r : Int) (h0 : 0 ≤ r) (h7 : r ≤ 7) :
    r.toNat < 8 ∧ (spispeeds.getD r.toNat (none, 0, 0)).1 ≠ none := by
  have hlt : r.toNat < 8 := by omega
  refine ⟨hlt, ?_⟩
  generalize r.toNat = k at hlt
  interval_cases k <;> simp [spispeeds]

/-- C18: whatever the `spispeed` parameter is (absent, a listed name, any other string),
`busside_get_spispeed` returns a code between 0 and 7, and 7 when the parameter is absent
or matches no name of the table; the row `spispeeds[code]` is then one of the eight rows
with a name, not the `NULL` sentinel and not outside the table.  For instance `8M` gives
7, `1m` gives 3, `30kHz` gives 0 and `fast` gives 7. -/
theorem get_spispeed_in_table (tmp : Option String) :
    0 ≤ busside_get_spispeed tmp ∧ busside_get_spispeed tmp ≤ 7
      ∧ (tmp = none → busside_get_spispeed tmp = 7)
      ∧ (∀ t, tmp = some t →
          (∀ row ∈ spispeeds, ∀ name, row.1 = some name →
            strncasecmp name.toList t.toList (strlen name.toList) ≠ 0) →
          busside_get_spispeed tmp = 7)
      ∧ (busside_get_spispeed tmp).toNat < 8
      ∧ (spispeeds.getD (busside_get_spispeed tmp).toNat (none, 0, 0)).1 ≠ none
      ∧ busside_get_spispeed (some "8M") = 7
      ∧ busside_get_spispeed (some "1m") = 3
      ∧ busside_get_spispeed (some "30kHz") = 0
      ∧ busside_get_spispeed (some "fast") = 7 := by
  have hrange : 0 ≤ busside_get_spispeed tmp ∧ busside_get_spispeed tmp ≤ 7 := by
    cases tmp with
    | none => simp [busside_get_spispeed]
    | some t =>
      simp only [busside_get_spispeed]
      exact get_spispeed_loop_range t.toList spispeeds 0 7 (by decide) (by decide) (by decide)
  obtain ⟨hreal1, hreal2⟩ := spispeeds_real_entry _ hrange.1 hrange.2
  refine ⟨hrange.1, hrange.2, ?_, ?_, hreal1, hreal2, by decide, by decide, by decide,
    by decide⟩
  · intro h
    rw [h]
    rfl
  · intro t h hno
    rw [h]
    simp only [busside_get_spispeed]
    exact get_spispeed_loop_no_match t.toList spispeeds 0 7 hno

/-- The parameter absent, and the parameter `4M`. -/
theorem get_spispeed_in_table_witness :
    busside_get_spispeed none = 7
      ∧ 0 ≤ busside_get_spispeed (some "4M") ∧ busside_get_spispeed (some "4M") ≤ 7
      ∧ (spispeeds.getD (busside_get_spispeed (some "4M")).toNat (none, 0, 0)).1 ≠ none :=
  ⟨(get_spispeed_in_table none).2.2.1 rfl, (get_spispeed_in_table (some "4M")).1,
    (get_spispeed_in_table (some "4M")).2.1, (get_spispeed_in_table (some "4M")).2.2.2.2.2.1⟩

/-! ## The SPI passthrough request -/

theorem getD_take (buf : List Nat) (n i : Nat) (h : i < n) :
    (buf.take n).getD i 0 = buf.getD i 0 := by
  simp [List.getD_eq_getElem?_getD, List.getElem?_take, h]

theorem rd32_take (buf : List Nat) (n off : Nat) (h : off + 4 ≤ n) :
    rd32 (buf.take n) off = rd32 buf off := by
  unfold rd32
  rw [getD_take _ _ _ (by omega), getD_take _ _ _ (by omega), getD_take _ _ _ (by omega),
    getD_take _ _ _ (by omega)]

theorem rd32_mem_write_below (buf data : List Nat) (o off : Nat) (h : off + 4 ≤ o)
    (hl : o ≤ buf.length) : rd32 (mem_write buf o data) off = rd32 buf off := by
  unfold mem_write
  rw [List.append_assoc, rd32_append_left _ _ _ (by rw [List.length_take]; omega),
    rd32_take _ _ _ h]

theorem spispeeds_spispeed_lt (i : Nat) : spispeeds_spispeed i < 4294967296 := by
  unfold spispeeds_spispeed spispeeds
  rcases Nat.lt_or_ge i 9 with h | h
  · interval_cases i <;> simp
  · rw [List.getD_eq_default _ _ (by simpa using h)]
    decide

theorem requestreply_request_eq (buf : List Nat) (request_size spispeed writecnt readcnt : Nat)
    (writearr : List Nat) :
    requestreply_request buf request_size spispeed writecnt readcnt writearr
      = mem_write (wr32 (wr32 (wr32 (wr32 (wr32 (wr32 (wr32 (wr32 (wr32 buf 0 43) 4
          ((request_size + 4294967296 - 16) % 4294967296)) 16 (spispeeds_spispeed spispeed))
          20 9) 24 6) 28 8) 32 7) 36 writecnt) 40 readcnt) 44 (writearr.take writecnt) := by
  simp only [requestreply_request, BS_HEADER_SIZE, OFF_COMMAND, OFF_PAYLOAD_LENGTH,
    BUSSIDE_SPI_COMMAND]

/-- The fields of the request buffer built by `busside_requestreply` before its loop. -/
theorem requestreply_request_fields (buf : List Nat)
    (request_size spispeed writecnt readcnt : Nat) (writearr : List Nat)
    (hb : 44 + writecnt ≤ buf.length) (hw : writecnt < 4294967296)
    (hr : readcnt < 4294967296) :
    rd32 (requestreply_request buf request_size spispeed writecnt readcnt writearr) 0 = 43
      ∧ rd32 (requestreply_request buf request_size spispeed writecnt readcnt writearr) 4
          = (request_size + 4294967296 - 16) % 4294967296
      ∧ rd32 (requestreply_request buf request_size spispeed writecnt readcnt writearr) 16
          = spispeeds_spispeed spispeed
      ∧ rd32 (requestreply_request buf request_size spispeed writecnt readcnt writearr) 20 = 9
      ∧ rd32 (requestreply_request buf request_size spispeed writecnt readcnt writearr) 24 = 6
      ∧ rd32 (requestreply_request buf request_size spispeed writecnt readcnt writearr) 28 = 8
      ∧ rd32 (requestreply_request buf request_size spispeed writecnt readcnt writearr) 32 = 7
      ∧ rd32 (requestreply_request buf request_size spispeed writecnt readcnt writearr) 36
          = writecnt
      ∧ rd32 (requestreply_request buf request_size spispeed writecnt readcnt writearr) 40
          = readcnt := by
  rw [requestreply_request_eq]
  have hmod : (request_size + 4294967296 - 16) % 4294967296 < 4294967296 :=
    Nat.mod_lt _ (by norm_num)
  have hsp := spispeeds_spispeed_lt spispeed
  refine ⟨?_, ?_, ?_, ?_, ?_, ?_, ?_, ?_, ?_⟩ <;>
    rw [rd32_mem_write_below _ _ _ _ (by omega) (by simp only [wr32_length]; omega)] <;>
    (try simp (disch := omega) only [rd32_wr32_other]) <;>
    rw [rd32_wr32_same _ _ _ (by (try simp only [wr32_length]); omega) (by omega)]

/-- The bytes after the argument block are the bytes to write. -/
theorem requestreply_request_tail (buf : List Nat)
    (request_size spispeed writecnt readcnt : Nat) (writearr : List Nat)
    (hb : buf.length = 44 + writecnt) (hl : writearr.length = writecnt) :
    (requestreply_request buf request_size spispeed writecnt readcnt writearr).drop 44
      = writearr := by
  rw [requestreply_request_eq]
  unfold mem_write
  rw [List.append_assoc, List.drop_append_of_le_length (by simp [wr32_length]; omega)]
  have h1 : (List.take 44 (wr32 (wr32 (wr32 (wr32 (wr32 (wr32 (wr32 (wr32 (wr32 buf 0 43) 4
      ((request_size + 4294967296 - 16) % 4294967296)) 16 (spispeeds_spispeed spispeed))
      20 9) 24 6) 28 8) 32 7) 36 writecnt) 40 readcnt)).length = 44 := by
    simp [wr32_length]
    omega
  rw [List.drop_of_length_le (by omega), List.nil_append, List.take_of_length_le (by omega),
    List.drop_of_length_le (by simp [wr32_length]; omega), List.append_nil]

/-! ## Stamping keeps the rest of the request -/

theorem wr32_comm (buf : List Nat) (o o' v v' : Nat) (h : o + 4 ≤ o' ∨ o' + 4 ≤ o) :
    wr32 (wr32 buf o v) o' v' = wr32 (wr32 buf o' v') o v := by
  conv_rhs => rw [show wr32 buf o' v' = (((buf.set o' (v' % 256)).set (o' + 1)
    (v' / 256 % 256)).set (o' + 2) (v' / 65536 % 256)).set (o' + 3) (v' / 16777216 % 256)
    from rfl]
  rw [wr32_set_outside _ _ _ _ _ (by omega), wr32_set_outside _ _ _ _ _ (by omega),
    wr32_set_outside _ _ _ _ _ (by omega), wr32_set_outside _ _ _ _ _ (by omega)]
  rfl

theorem take_set_of_le (l : List Nat) (n m a : Nat) (h : m ≤ n) :
    (l.set n a).take m = l.take m := by
  apply List.ext_getElem?
  intro i
  rw [List.getElem?_take, List.getElem?_take]
  split
  · rw [List.getElem?_set_ne (by omega)]
  · rfl

theorem wr32_take (buf : List Nat) (off v n : Nat) (h : n ≤ off) :
    (wr32 buf off v).take n = buf.take n := by
  unfold wr32
  rw [take_set_of_le _ _ _ _ (by omega), take_set_of_le _ _ _ _ (by omega),
    take_set_of_le _ _ _ _ (by omega), take_set_of_le _ _ _ _ (by omega)]

/-- Stamping a stamped request again is stamping the request once. -/
theorem bs_stamp_bs_stamp (request : List Nat) (request_size a b : Nat) :
    bs_stamp (bs_stamp request request_size a) request_size b
      = bs_stamp request request_size b := by
  have e8 : OFF_SEQUENCE_NUMBER = 8 := rfl
  have e12 : OFF_CHECKSUM = 12 := rfl
  have h : wr32 (wr32 (bs_stamp request request_size a) OFF_SEQUENCE_NUMBER b) OFF_CHECKSUM 0
      = wr32 (wr32 request OFF_SEQUENCE_NUMBER b) OFF_CHECKSUM 0 := by
    simp only [bs_stamp]
    rw [wr32_wr32_same, wr32_comm _ OFF_CHECKSUM OFF_SEQUENCE_NUMBER _ _ (by omega),
      wr32_wr32_same, wr32_wr32_same]
  simp only [bs_stamp] at h ⊢
  rw [h]

theorem bs_stamp_rd32_other (request : List Nat) (request_size seq off : Nat)
    (h : off + 4 ≤ 8 ∨ 16 ≤ off) :
    rd32 (bs_stamp request request_size seq) off = rd32 request off := by
  have e8 : OFF_SEQUENCE_NUMBER = 8 := rfl
  have e12 : OFF_CHECKSUM = 12 := rfl
  simp only [bs_stamp]
  rw [rd32_wr32_other _ _ _ _ (by omega), rd32_wr32_other _ _ _ _ (by omega),
    rd32_wr32_other _ _ _ _ (by omega)]

theorem bs_stamp_seq_field (request : List Nat) (request_size seq : Nat)
    (hl : 12 ≤ request.length) (hs : seq < 4294967296) :
    rd32 (bs_stamp request request_size seq) OFF_SEQUENCE_NUMBER = seq := by
  have e8 : OFF_SEQUENCE_NUMBER = 8 := rfl
  have e12 : OFF_CHECKSUM = 12 := rfl
  simp only [bs_stamp]
  rw [rd32_wr32_other _ _ _ _ (by omega), rd32_wr32_other _ _ _ _ (by omega),
    rd32_wr32_same _ _ _ (by omega) hs]

theorem bs_stamp_drop (request : List Nat) (request_size seq n : Nat) (h : 16 ≤ n) :
    (bs_stamp request request_size seq).drop n = request.drop n := by
  have e8 : OFF_SEQUENCE_NUMBER = 8 := rfl
  have e12 : OFF_CHECKSUM = 12 := rfl
  simp only [bs_stamp]
  rw [wr32_drop _ _ _ _ (by omega), wr32_drop _ _ _ _ (by omega), wr32_drop _ _ _ _ (by omega)]

theorem bs_stamp_take (request : List Nat) (request_size seq n : Nat) (h : n ≤ 8) :
    (bs_stamp request request_size seq).take n = request.take n := by
  have e8 : OFF_SEQUENCE_NUMBER = 8 := rfl
  have e12 : OFF_CHECKSUM = 12 := rfl
  simp only [bs_stamp]
  rw [wr32_take _ _ _ _ (by omega), wr32_take _ _ _ _ (by omega), wr32_take _ _ _ _ (by omega)]

/-! ## The writes of a run -/

theorem io_log_append (a b : List Ev) : io_log (a ++ b) = io_log a ++ io_log b := by
  simp [io_log, List.filter_append]

theorem tx_log_append (a b : List Ev) : tx_log (a ++ b) = tx_log a ++ tx_log b := by
  simp [tx_log, List.filterMap_append]

theorem io_log_quiet (q : List Ev) (h : is_quiet q = true) : io_log q = [] := by
  induction q with
  | nil => rfl
  | cons e t ih =>
    simp only [is_quiet, List.all_cons, Bool.and_eq_true] at h
    have ht : io_log t = [] := ih (by simpa [is_quiet] using h.2)
    cases e <;> simp_all [io_log, List.filter_cons]

theorem tx_log_io_log (t : List Ev) : tx_log (io_log t) = tx_log t := by
  induction t with
  | nil => rfl
  | cons e r ih =>
    have hr : tx_log (io_log r) = tx_log r := ih
    cases e <;> simp_all [io_log, tx_log, List.filter_cons, List.filterMap_cons]

theorem quiet_ext_refl (t : List Ev) : quiet_ext t t := ⟨[], rfl, by simp⟩

theorem quiet_ext_read (t : List Ev) (rd : Nat → Rd) (w : World) (cnt : Nat)
    (h : quiet_ext t w.trace) : quiet_ext t (sp_read rd w cnt).2.trace := by
  obtain ⟨q, hq, he⟩ := h
  refine ⟨q ++ [Ev.rx w.now], ?_, ?_⟩
  · simp only [is_quiet, List.all_append, Bool.and_eq_true] at hq ⊢
    exact ⟨hq, by simp⟩
  · simp only [sp_read, he, List.append_assoc]

theorem quiet_ext_err (t : List Ev) (w : World) (h : quiet_ext t w.trace) :
    quiet_ext t (attempt_err w).trace := by
  obtain ⟨q, hq, he⟩ := h
  refine ⟨q ++ [Ev.flush], ?_, ?_⟩
  · simp only [is_quiet, List.all_append, Bool.and_eq_true] at hq ⊢
    exact ⟨hq, by simp⟩
  · simp only [attempt_err, he, List.append_assoc]

theorem quiet_ext_io_log (t t' : List Ev) (h : quiet_ext t t') : io_log t' = io_log t := by
  obtain ⟨q, hq, he⟩ := h
  rw [he, io_log_append, io_log_quiet q hq, List.append_nil]

/-- Function `bs_sync` only adds transport reads to the trace. -/
theorem bs_sync_loop_quiet (timeout : Int) (rd : Nat → Rd) (tv_start : Nat) :
    ∀ (fuel : Nat) (got1 : Bool) (w : World) (r : Int) (w' : World) (t : List Ev),
      bs_sync_loop timeout rd tv_start fuel got1 w = some (r, w') →
      quiet_ext t w.trace → quiet_ext t w'.trace := by
  intro fuel
  induction fuel with
  | zero => intro got1 w r w' t h; simp [bs_sync_loop] at h
  | succ n ih =>
    intro got1 w r w' t h hq
    have hstep : ∀ g, bs_sync_loop timeout rd tv_start n g (sp_read rd w 1).2 = some (r, w') →
        quiet_ext t w'.trace :=
      fun g hg => ih g _ r w' t hg (quiet_ext_read t rd w 1 hq)
    cases got1 with
    | false =>
      rw [bs_sync_loop] at h
      dsimp only at h
      split_ifs at h
      · cases h; exact hq
      · exact hstep _ h
      · exact hstep _ h
      · exact hstep _ h
      · exact hstep _ h
    | true =>
      rw [bs_sync_loop] at h
      split_ifs at h
      · exact hstep _ h
      · exact hstep _ h
      · cases h
        exact quiet_ext_read t rd w 1 hq
      · exact hstep _ h
      · exact hstep _ h

theorem attempt_send_io_log (request : List Nat) (request_size : Nat) (w : World) :
    io_log (attempt_send request request_size w).2.trace
      = io_log w.trace ++ attempt_events request request_size w.seq := by
  simp only [attempt_send, serialport_write, io_log_append, attempt_events, bs_stamp,
    List.append_assoc]
  rfl

/-- The writes of an iteration of the loop of `busside_requestreply` are those of its
stamping and sending part. -/
theorem requestreply_attempt_events (fuel : Nat) (rd : Nat → Rd)
    (readcnt request_size : Nat) (request reply : List Nat) (w : World)
    (ok : Bool) (rq' rp' : List Nat) (w' : World)
    (h : requestreply_attempt fuel rd readcnt request_size request reply w
      = some (ok, rq', rp', w')) :
    rq' = bs_stamp request request_size w.seq.bs_sequence_number
      ∧ w'.seq = bs_next_sequence_number w.seq
      ∧ io_log w'.trace = io_log w.trace ++ attempt_events request request_size w.seq := by
  obtain ⟨h1, _, h3⟩ := requestreply_attempt_effect (fun _ => true) fuel rd readcnt
    request_size request reply w ok rq' rp' w' h
  refine ⟨by rw [h1, attempt_send_eq_stamp], by rw [h3]; rfl, ?_⟩
  rw [← attempt_send_io_log]
  apply quiet_ext_io_log
  unfold requestreply_attempt at h
  dsimp only at h
  split at h
  · cases h
  · rename_i r w1 hb
    have hs := bs_sync_loop_quiet 3 rd _ fuel false _ r w1 _ hb (quiet_ext_refl _)
    split_ifs at h <;> cases h <;>
      repeat (first | exact hs | apply quiet_ext_err | apply quiet_ext_read)

/-- The same for an iteration of the loop of `busside_echo`. -/
theorem echo_attempt_events (fuel : Nat) (rd : Nat → Rd)
    (request reply : List Nat) (w : World)
    (ok : Bool) (rq' rp' : List Nat) (w' : World)
    (h : echo_attempt fuel rd request reply w = some (ok, rq', rp', w')) :
    rq' = bs_stamp request BS_HEADER_SIZE w.seq.bs_sequence_number
      ∧ w'.seq = bs_next_sequence_number w.seq
      ∧ io_log w'.trace = io_log w.trace ++ attempt_events request BS_HEADER_SIZE w.seq := by
  obtain ⟨h1, _, h3⟩ := echo_attempt_effect (fun _ => true) fuel rd request reply w ok rq'
    rp' w' h
  refine ⟨by rw [h1, attempt_send_eq_stamp], by rw [h3]; rfl, ?_⟩
  rw [← attempt_send_io_log]
  apply quiet_ext_io_log
  unfold echo_attempt at h
  dsimp only at h
  split at h
  · cases h
  · rename_i r w1 hb
    have hs := bs_sync_loop_quiet 3 rd _ fuel false _ r w1 _ hb (quiet_ext_refl _)
    split_ifs at h <;> cases h <;>
      repeat (first | exact hs | apply quiet_ext_err | apply quiet_ext_read)

theorem attempts_events_stamp (request : List Nat) (request_size a : Nat) :
    ∀ (m : Nat) (seq : SeqState),
      attempts_events (bs_stamp request request_size a) request_size m seq
        = attempts_events request request_size m seq := by
  intro m
  induction m with
  | zero => intro seq; rfl
  | succ n ih =>
    intro seq
    simp only [attempts_events, attempt_events, bs_stamp_bs_stamp, ih]

/-- The writes of a run of the retry loop: `m` attempts are made, `m` being the loop
bound when no iteration reached `break` and the number of the accepting iteration
otherwise; each stamps the request buffer as it stood before the loop. -/
theorem retry_loop_events
    (attempt : List Nat → List Nat → World → Option (Bool × List Nat × List Nat × World))
    (request_size : Nat)
    (hev : ∀ rq rp w ok rq' rp' w', attempt rq rp w = some (ok, rq', rp', w') →
      rq' = bs_stamp rq request_size w.seq.bs_sequence_number
        ∧ w'.seq = bs_next_sequence_number w.seq
        ∧ io_log w'.trace = io_log w.trace ++ attempt_events rq request_size w.seq) :
    ∀ (n i : Nat) (rq rp : List Nat) (w : World) (i' : Nat) (rq' rp' : List Nat) (w' : World),
      retry_loop attempt n i rq rp w = some (i', rq', rp', w') →
      ∃ m, m ≤ n ∧ (i' = i + n → m = n) ∧ (i' ≠ i + n → i' + 1 = i + m)
        ∧ w'.seq = next_n m w.seq
        ∧ io_log w'.trace = io_log w.trace ++ attempts_events rq request_size m w.seq := by
  intro n
  induction n with
  | zero =>
    intro i rq rp w i' rq' rp' w' h
    simp only [retry_loop, Option.some.injEq, Prod.mk.injEq] at h
    obtain ⟨rfl, rfl, rfl, rfl⟩ := h
    exact ⟨0, le_refl _, fun _ => rfl, fun hc => absurd rfl hc, rfl, by simp [attempts_events]⟩
  | succ k ih =>
    intro i rq rp w i' rq' rp' w' h
    rw [retry_loop] at h
    split at h
    · cases h
    · rename_i rq1 rp1 w1 ha
      simp only [Option.some.injEq, Prod.mk.injEq] at h
      obtain ⟨rfl, rfl, rfl, rfl⟩ := h
      obtain ⟨_, e2, e3⟩ := hev rq rp w true rq1 rp1 w1 ha
      refine ⟨1, by omega, fun hc => by omega, fun _ => rfl, by rw [e2]; rfl, ?_⟩
      rw [e3]
      simp [attempts_events]
    · rename_i rq1 rp1 w1 ha
      obtain ⟨e1, e2, e3⟩ := hev rq rp w false rq1 rp1 w1 ha
      obtain ⟨m, m1, m2, m3, m4, m5⟩ := ih (i + 1) rq1 rp1 w1 i' rq' rp' w' h
      refine ⟨m + 1, by omega, fun hc => by have := m2 (by omega); omega,
        fun hc => by have := m3 (by omega); omega, by rw [m4, e2]; rfl, ?_⟩
      rw [m5, e3, e1, attempts_events_stamp, e2, List.append_assoc]
      rfl

/-- A call of `busside_requestreply` whose allocations succeed is a run of the retry
loop followed by the test `i == nretries`. -/
theorem busside_requestreply_run (ERROR_OOM : Int) (fuel : Nat) (rd : Nat → Rd)
    (junk1 junk2 : Nat → Nat) (spispeed : Nat) (nretries timeout : Int)
    (writecnt readcnt : Nat) (writearr readarr : List Nat) (w : World)
    (res : Int) (readarr' : List Nat) (w' : World)
    (h : busside_requestreply ERROR_OOM fuel rd true true junk1 junk2 spispeed nretries
      timeout writecnt readcnt writearr readarr w = some (res, readarr', w')) :
    ∃ i rq' rp',
      retry_loop
          (requestreply_attempt fuel rd readcnt ((BS_HEADER_SIZE + 7 * 4 + writecnt) % 4294967296))
          (to_u32 nretries) 0
          (requestreply_request
            ((List.range ((BS_HEADER_SIZE + 7 * 4 + writecnt) % 4294967296)).map junk1)
            ((BS_HEADER_SIZE + 7 * 4 + writecnt) % 4294967296) spispeed writecnt readcnt
            writearr)
          ((List.range ((BS_HEADER_SIZE + readcnt) % 4294967296)).map junk2) w
        = some (i, rq', rp', w')
      ∧ ((i = to_u32 nretries ∧ res = -1 ∧ readarr' = readarr)
        ∨ (i ≠ to_u32 nretries ∧ res = 0
          ∧ readarr' = mem_write readarr 0 ((rp'.drop BS_HEADER_SIZE).take readcnt))) := by
  unfold busside_requestreply at h
  simp only [malloc, if_true] at h
  split at h
  · cases h
  · rename_i i rq' rp' w1 hl
    split_ifs at h with hi
    · simp only [Option.some.injEq, Prod.mk.injEq] at h
      obtain ⟨rfl, rfl, rfl⟩ := h
      exact ⟨i, rq', rp', hl, Or.inl ⟨hi, rfl, rfl⟩⟩
    · simp only [Option.some.injEq, Prod.mk.injEq] at h
      obtain ⟨rfl, rfl, rfl⟩ := h
      exact ⟨i, rq', rp', hl, Or.inr ⟨hi, rfl, rfl⟩⟩

/-- The same for `busside_echo`. -/
theorem busside_echo_run (ERROR_OOM : Int) (fuel : Nat) (rd : Nat → Rd)
    (junk1 junk2 : Nat → Nat) (nretries timeout : Int) (w : World)
    (res : Int) (w' : World)
    (h : busside_echo ERROR_OOM fuel rd true true junk1 junk2 nretries timeout w
      = some (res, w')) :
    ∃ i rq' rp',
      retry_loop (echo_attempt fuel rd) (to_u32 nretries) 0
          (wr32 (wr32 ((List.range BS_HEADER_SIZE).map junk1) OFF_COMMAND BUSSIDE_SPI_ECHO)
            OFF_PAYLOAD_LENGTH 0)
          ((List.range BS_HEADER_SIZE).map junk2) w
        = some (i, rq', rp', w')
      ∧ ((i = to_u32 nretries ∧ res = -1) ∨ (i ≠ to_u32 nretries ∧ res = 0)) := by
  unfold busside_echo at h
  simp only [malloc, if_true] at h
  split at h
  · cases h
  · rename_i i rq' rp' w1 hl
    split_ifs at h with hi
    · simp only [Option.some.injEq, Prod.mk.injEq] at h
      obtain ⟨rfl, rfl⟩ := h
      exact ⟨i, rq', rp', hl, Or.inl ⟨hi, rfl⟩⟩
    · simp only [Option.some.injEq, Prod.mk.injEq] at h
      obtain ⟨rfl, rfl⟩ := h
      exact ⟨i, rq', rp', hl, Or.inr ⟨hi, rfl⟩⟩

theorem next_n_succ (m : Nat) (seq : SeqState) :
    next_n (m + 1) seq = bs_next_sequence_number (next_n m seq) := by
  induction m generalizing seq with
  | zero => rfl
  | succ k ih =>
    rw [next_n, ih (bs_next_sequence_number seq)]
    rfl

theorem next_counter (seq : SeqState) :
    (bs_next_sequence_number seq).bs_sequence_number
      = (seq.bs_sequence_number + 1) % 4294967296 := by
  unfold bs_next_sequence_number
  cases seq.store <;> rfl

/-- After `m` attempts the counter has gone up by `m` (32 bits). -/
theorem next_n_counter (m : Nat) (seq : SeqState) (hs : seq.bs_sequence_number < 4294967296) :
    (next_n m seq).bs_sequence_number = (seq.bs_sequence_number + m) % 4294967296 := by
  induction m with
  | zero => simp [next_n, Nat.mod_eq_of_lt hs]
  | succ k ih =>
    rw [next_n_succ, next_counter, ih]
    omega

theorem next_n_store_some (m : Nat) (seq : SeqState) (h : ∃ c, seq.store = some c) :
    ∃ c, (next_n m seq).store = some c := by
  induction m with
  | zero => exact h
  | succ k ih =>
    rw [next_n_succ]
    exact next_store_some _ ih

/-- After at least one attempt the store holds the counter. -/
theorem next_n_synced (m : Nat) (seq : SeqState) (h : ∃ c, seq.store = some c) (hm : 0 < m) :
    Synced (next_n m seq) := by
  obtain ⟨k, rfl⟩ : ∃ k, m = k + 1 := ⟨m - 1, by omega⟩
  rw [next_n_succ]
  exact next_synced _ (next_n_store_some k seq h)

/-- The transport writes among the writes of `m` attempts. -/
theorem tx_log_attempts_events (request : List Nat) (request_size : Nat) :
    ∀ (m : Nat) (seq : SeqState),
      tx_log (attempts_events request request_size m seq)
        = sent_log (fun v => (bs_stamp request request_size v).take request_size) m
            seq.bs_sequence_number := by
  intro m
  induction m with
  | zero => intro seq; rfl
  | succ k ih =>
    intro seq
    simp only [attempts_events, attempt_events, tx_log_append, sent_log, ih, next_counter]
    rfl

/-- In the transport writes of `m` attempts, write `2j` is the marker and write `2j + 1`
the frame for the counter value `s + j` (32 bits). -/
theorem sent_log_at (frame : Nat → List Nat) :
    ∀ (m s j : Nat), s < 4294967296 → j < m →
      (sent_log frame m s)[2 * j]? = some bs_sync_word
        ∧ (sent_log frame m s)[2 * j + 1]? = some (frame ((s + j) % 4294967296)) := by
  intro m
  induction m with
  | zero => intro s j _ hj; omega
  | succ k ih =>
    intro s j hs hj
    cases j with
    | zero => simp [sent_log, Nat.mod_eq_of_lt hs]
    | succ i =>
      have := ih ((s + 1) % 4294967296) i (Nat.mod_lt _ (by norm_num)) (by omega)
      have e : ((s + 1) % 4294967296 + i) % 4294967296 = (s + (i + 1)) % 4294967296 := by
        omega
      rw [e] at this
      simp only [sent_log]
      rw [show 2 * (i + 1) = 2 * i + 1 + 1 by omega, List.getElem?_cons_succ,
        List.getElem?_cons_succ, List.getElem?_cons_succ, List.getElem?_cons_succ]
      exact this

theorem sent_log_length (frame : Nat → List Nat) :
    ∀ (m s : Nat), (sent_log frame m s).length = 2 * m := by
  intro m
  induction m with
  | zero => intro s; rfl
  | succ k ih => intro s; simp only [sent_log, List.length_cons, ih]; omega

theorem requestreply_request_header (buf : List Nat)
    (request_size spispeed writecnt readcnt : Nat) (writearr : List Nat)
    (hb : 44 + writecnt ≤ buf.length) :
    rd32 (requestreply_request buf request_size spispeed writecnt readcnt writearr) 0 = 43
      ∧ rd32 (requestreply_request buf request_size spispeed writecnt readcnt writearr) 4
          = (request_size + 4294967296 - 16) % 4294967296 := by
  rw [requestreply_request_eq]
  have hmod : (request_size + 4294967296 - 16) % 4294967296 < 4294967296 :=
    Nat.mod_lt _ (by norm_num)
  refine ⟨?_, ?_⟩ <;>
    rw [rd32_mem_write_below _ _ _ _ (by omega) (by simp only [wr32_length]; omega)] <;>
    (try simp (disch := omega) only [rd32_wr32_other]) <;>
    rw [rd32_wr32_same _ _ _ (by (try simp only [wr32_length]); omega) (by omega)]

theorem requestreply_frame_eq (junk1 : Nat → Nat) (spispeed writecnt readcnt : Nat)
    (writearr : List Nat) (seq : Nat) (hw : BS_HEADER_SIZE + 7 * 4 + writecnt < 4294967296) :
    requestreply_frame junk1 spispeed writecnt readcnt writearr seq
      = bs_stamp (requestreply_request ((List.range (44 + writecnt)).map junk1)
          (44 + writecnt) spispeed writecnt readcnt writearr) (44 + writecnt) seq := by
  have hsz : (BS_HEADER_SIZE + 7 * 4 + writecnt) % 4294967296 = 44 + writecnt := by
    rw [Nat.mod_eq_of_lt hw]
    rfl
  unfold requestreply_frame
  rw [hsz]
  apply List.take_of_length_le
  rw [bs_stamp_length, requestreply_request_length]
  · simp
  · simp [BS_HEADER_SIZE]

/-- The header of the frame of an attempt made with counter value `seq`. -/
theorem requestreply_frame_header (junk1 : Nat → Nat) (spispeed writecnt readcnt : Nat)
    (writearr : List Nat) (seq : Nat) (hw : BS_HEADER_SIZE + 7 * 4 + writecnt < 4294967296)
    (hs : seq < 4294967296) :
    (requestreply_frame junk1 spispeed writecnt readcnt writearr seq).length
        = 16 + 28 + writecnt
      ∧ rd32 (requestreply_frame junk1 spispeed writecnt readcnt writearr seq) OFF_COMMAND = 43
      ∧ rd32 (requestreply_frame junk1 spispeed writecnt readcnt writearr seq)
          OFF_PAYLOAD_LENGTH = 28 + writecnt
      ∧ rd32 (requestreply_frame junk1 spispeed writecnt readcnt writearr seq)
          OFF_SEQUENCE_NUMBER = seq
      ∧ rd32 (requestreply_frame junk1 spispeed writecnt readcnt writearr seq) OFF_CHECKSUM
          = crc_mem (wr32 (requestreply_frame junk1 spispeed writecnt readcnt writearr seq)
              OFF_CHECKSUM 0) (to_int (16 + 28 + writecnt)) := by
  have e16 : BS_HEADER_SIZE = 16 := rfl
  have e0 : OFF_COMMAND = 0 := rfl
  have e4 : OFF_PAYLOAD_LENGTH = 4 := rfl
  rw [e16] at hw
  have hlen : (requestreply_request ((List.range (44 + writecnt)).map junk1)
      (44 + writecnt) spispeed writecnt readcnt writearr).length = 44 + writecnt := by
    rw [requestreply_request_length]
    · simp
    · simp [BS_HEADER_SIZE]
  obtain ⟨f0, f4⟩ := requestreply_request_header ((List.range (44 + writecnt)).map junk1)
    (44 + writecnt) spispeed writecnt readcnt writearr (by simp)
  rw [requestreply_frame_eq _ _ _ _ _ _ (by rw [e16]; exact hw)]
  refine ⟨?_, ?_, ?_, ?_, ?_⟩
  · rw [bs_stamp_length, hlen]
  · rw [e0, bs_stamp_rd32_other _ _ _ _ (by omega), f0]
  · rw [e4, bs_stamp_rd32_other _ _ _ _ (by omega), f4]
    omega
  · exact bs_stamp_seq_field _ _ _ (by omega) hs
  · rw [show 16 + 28 + writecnt = 44 + writecnt by omega]
    exact (bs_stamp_checksum _ _ _ (by rw [hlen, e16]; omega)).symm

/-- The payload of the frame of an attempt. -/
theorem requestreply_frame_payload (junk1 : Nat → Nat) (spispeed writecnt readcnt : Nat)
    (writearr : List Nat) (seq : Nat) (hw : BS_HEADER_SIZE + 7 * 4 + writecnt < 4294967296)
    (hr : readcnt < 4294967296) (hl : writearr.length = writecnt) :
    rd32 (requestreply_frame junk1 spispeed writecnt readcnt writearr seq) 16
        = spispeeds_spispeed spispeed
      ∧ rd32 (requestreply_frame junk1 spispeed writecnt readcnt writearr seq) 20 = 9
      ∧ rd32 (requestreply_frame junk1 spispeed writecnt readcnt writearr seq) 24 = 6
      ∧ rd32 (requestreply_frame junk1 spispeed writecnt readcnt writearr seq) 28 = 8
      ∧ rd32 (requestreply_frame junk1 spispeed writecnt readcnt writearr seq) 32 = 7
      ∧ rd32 (requestreply_frame junk1 spispeed writecnt readcnt writearr seq) 36 = writecnt
      ∧ rd32 (requestreply_frame junk1 spispeed writecnt readcnt writearr seq) 40 = readcnt
      ∧ (requestreply_frame junk1 spispeed writecnt readcnt writearr seq).drop 44
          = writearr := by
  have e16 : BS_HEADER_SIZE = 16 := rfl
  obtain ⟨_, _, g16, g20, g24, g28, g32, g36, g40⟩ :=
    requestreply_request_fields ((List.range (44 + writecnt)).map junk1)
      (44 + writecnt) spispeed writecnt readcnt writearr (by simp) (by rw [e16] at hw; omega) hr
  have gt := requestreply_request_tail ((List.range (44 + writecnt)).map junk1)
      (44 + writecnt) spispeed writecnt readcnt writearr (by simp) hl
  rw [requestreply_frame_eq _ _ _ _ _ _ hw]
  refine ⟨?_, ?_, ?_, ?_, ?_, ?_, ?_, ?_⟩
  · rw [bs_stamp_rd32_other _ _ _ _ (by omega), g16]
  · rw [bs_stamp_rd32_other _ _ _ _ (by omega), g20]
  · rw [bs_stamp_rd32_other _ _ _ _ (by omega), g24]
  · rw [bs_stamp_rd32_other _ _ _ _ (by omega), g28]
  · rw [bs_stamp_rd32_other _ _ _ _ (by omega), g32]
  · rw [bs_stamp_rd32_other _ _ _ _ (by omega), g36]
  · rw [bs_stamp_rd32_other _ _ _ _ (by omega), g40]
  · rw [bs_stamp_drop _ _ _ _ (by omega), gt]

/-- The transport writes of a call of `busside_requestreply` whose allocations succeed. -/
theorem busside_requestreply_tx_log (ERROR_OOM : Int) (fuel : Nat) (rd : Nat → Rd)
    (junk1 junk2 : Nat → Nat) (spispeed : Nat) (nretries timeout : Int)
    (writecnt readcnt : Nat) (writearr readarr : List Nat) (w : World)
    (res : Int) (readarr' : List Nat) (w' : World)
    (h : busside_requestreply ERROR_OOM fuel rd true true junk1 junk2 spispeed nretries
      timeout writecnt readcnt writearr readarr w = some (res, readarr', w')) :
    ∃ m, m ≤ to_u32 nretries ∧ (res = -1 → m = to_u32 nretries)
      ∧ w'.seq = next_n m w.seq
      ∧ io_log w'.trace = io_log w.trace ++ attempts_events
          (requestreply_request
            ((List.range ((BS_HEADER_SIZE + 7 * 4 + writecnt) % 4294967296)).map junk1)
            ((BS_HEADER_SIZE + 7 * 4 + writecnt) % 4294967296) spispeed writecnt readcnt
            writearr)
          ((BS_HEADER_SIZE + 7 * 4 + writecnt) % 4294967296) m w.seq
      ∧ tx_log w'.trace = tx_log w.trace
          ++ sent_log (requestreply_frame junk1 spispeed writecnt readcnt writearr) m
              w.seq.bs_sequence_number := by
  obtain ⟨i, rq', rp', hl, hres⟩ := busside_requestreply_run ERROR_OOM fuel rd junk1 junk2
    spispeed nretries timeout writecnt readcnt writearr readarr w res readarr' w' h
  obtain ⟨m, m1, m2, _, m4, m5⟩ := retry_loop_events _ _
    (requestreply_attempt_events fuel rd readcnt
      ((BS_HEADER_SIZE + 7 * 4 + writecnt) % 4294967296)) _ _ _ _ _ i rq' rp' w' hl
  refine ⟨m, m1, ?_, m4, m5, ?_⟩
  · intro hr
    rcases hres with ⟨hi, _, _⟩ | ⟨_, h0, _⟩
    · exact m2 (by omega)
    · omega
  · rw [← tx_log_io_log w'.trace, m5, tx_log_append, tx_log_io_log, tx_log_attempts_events]
    rfl

/-- C13: in a call of `busside_requestreply` (allocations succeeding, `16 + 28 + writecnt`
below `2^32`) each attempt writes to the transport the two marker bytes `FE CA` and then
one frame of `16 + 28 + writecnt` bytes; the frame has command 43, payload length
`28 + writecnt` (the number of bytes that follow the header; 29 for the write bytes `9F`),
the counter value of the attempt as sequence number, and the checksum of the frame taken
with the checksum field zeroed, in this order, then the payload. -/
theorem requestreply_wire_format (ERROR_OOM : Int) (fuel : Nat) (rd : Nat → Rd)
    (junk1 junk2 : Nat → Nat) (spispeed : Nat) (nretries timeout : Int)
    (writecnt readcnt : Nat) (writearr readarr : List Nat) (w : World)
    (res : Int) (readarr' : List Nat) (w' : World)
    (hw : BS_HEADER_SIZE + 7 * 4 + writecnt < 4294967296)
    (hs : w.seq.bs_sequence_number < 4294967296)
    (h : busside_requestreply ERROR_OOM fuel rd true true junk1 junk2 spispeed nretries
      timeout writecnt readcnt writearr readarr w = some (res, readarr', w')) :
    ∃ m, m ≤ to_u32 nretries
      ∧ tx_log w'.trace = tx_log w.trace
          ++ sent_log (requestreply_frame junk1 spispeed writecnt readcnt writearr) m
              w.seq.bs_sequence_number
      ∧ (∀ j, j < m →
          (sent_log (requestreply_frame junk1 spispeed writecnt readcnt writearr) m
              w.seq.bs_sequence_number)[2 * j]? = some [0xfe, 0xca]
          ∧ (sent_log (requestreply_frame junk1 spispeed writecnt readcnt writearr) m
              w.seq.bs_sequence_number)[2 * j + 1]?
            = some (requestreply_frame junk1 spispeed writecnt readcnt writearr
                ((w.seq.bs_sequence_number + j) % 4294967296)))
      ∧ (∀ seq, seq < 4294967296 →
          (requestreply_frame junk1 spispeed writecnt readcnt writearr seq).length
              = 16 + 28 + writecnt
          ∧ rd32 (requestreply_frame junk1 spispeed writecnt readcnt writearr seq)
              OFF_COMMAND = 43
          ∧ rd32 (requestreply_frame junk1 spispeed writecnt readcnt writearr seq)
              OFF_PAYLOAD_LENGTH = 28 + writecnt
          ∧ rd32 (requestreply_frame junk1 spispeed writecnt readcnt writearr seq)
              OFF_PAYLOAD_LENGTH
            = ((requestreply_frame junk1 spispeed writecnt readcnt writearr seq).drop
                BS_HEADER_SIZE).length
          ∧ rd32 (requestreply_frame junk1 spispeed writecnt readcnt writearr seq)
              OFF_SEQUENCE_NUMBER = seq
          ∧ rd32 (requestreply_frame junk1 spispeed writecnt readcnt writearr seq)
              OFF_CHECKSUM
            = crc_mem (wr32 (requestreply_frame junk1 spispeed writecnt readcnt writearr seq)
                OFF_CHECKSUM 0) (to_int (16 + 28 + writecnt)))
      ∧ rd32 (requestreply_frame (fun _ => 0) 7 1 3 [0x9F] 5) OFF_PAYLOAD_LENGTH = 29 := by
  obtain ⟨m, m1, _, _, _, m5⟩ := busside_requestreply_tx_log ERROR_OOM fuel rd junk1 junk2
    spispeed nretries timeout writecnt readcnt writearr readarr w res readarr' w' h
  refine ⟨m, m1, m5, ?_, ?_, by decide⟩
  · intro j hj
    exact sent_log_at _ m _ j hs hj
  · intro seq hseq
    obtain ⟨f1, f2, f3, f4, f5⟩ := requestreply_frame_header junk1 spispeed writecnt readcnt
      writearr seq hw hseq
    refine ⟨f1, f2, f3, ?_, f4, f5⟩
    have e16 : BS_HEADER_SIZE = 16 := rfl
    rw [f3, List.length_drop, f1, e16]
    omega

set_option maxRecDepth 16384 in
/-- A single failed attempt with the write bytes `9F` sends the marker and a 45-byte
frame. -/
theorem requestreply_wire_format_witness :
    (BS_HEADER_SIZE + 7 * 4 + 1 < 4294967296
      ∧ demo_world.seq.bs_sequence_number < 4294967296
      ∧ busside_requestreply (-100) 10 demo_short_payload_stream true true (fun _ => 0x55)
          (fun _ => 0x55) 7 1 2000 1 3 [0x9F] [7, 7, 7] demo_world
        = some (demo_failed_result.1, demo_failed_result.2.1, demo_failed_result.2.2))
    ∧ ∃ m, m ≤ to_u32 1
      ∧ tx_log demo_failed_result.2.2.trace = tx_log demo_world.trace
          ++ sent_log (requestreply_frame (fun _ => 0x55) 7 1 3 [0x9F]) m
              demo_world.seq.bs_sequence_number
      ∧ (∀ j, j < m →
          (sent_log (requestreply_frame (fun _ => 0x55) 7 1 3 [0x9F]) m
              demo_world.seq.bs_sequence_number)[2 * j]? = some [0xfe, 0xca]
          ∧ (sent_log (requestreply_frame (fun _ => 0x55) 7 1 3 [0x9F]) m
              demo_world.seq.bs_sequence_number)[2 * j + 1]?
            = some (requestreply_frame (fun _ => 0x55) 7 1 3 [0x9F]
                ((demo_world.seq.bs_sequence_number + j) % 4294967296)))
      ∧ (∀ seq, seq < 4294967296 →
          (requestreply_frame (fun _ => 0x55) 7 1 3 [0x9F] seq).length = 16 + 28 + 1
          ∧ rd32 (requestreply_frame (fun _ => 0x55) 7 1 3 [0x9F] seq) OFF_COMMAND = 43
          ∧ rd32 (requestreply_frame (fun _ => 0x55) 7 1 3 [0x9F] seq) OFF_PAYLOAD_LENGTH
            = 28 + 1
          ∧ rd32 (requestreply_frame (fun _ => 0x55) 7 1 3 [0x9F] seq) OFF_PAYLOAD_LENGTH
            = ((requestreply_frame (fun _ => 0x55) 7 1 3 [0x9F] seq).drop
                BS_HEADER_SIZE).length
          ∧ rd32 (requestreply_frame (fun _ => 0x55) 7 1 3 [0x9F] seq) OFF_SEQUENCE_NUMBER
            = seq
          ∧ rd32 (requestreply_frame (fun _ => 0x55) 7 1 3 [0x9F] seq) OFF_CHECKSUM
            = crc_mem (wr32 (requestreply_frame (fun _ => 0x55) 7 1 3 [0x9F] seq)
                OFF_CHECKSUM 0) (to_int (16 + 28 + 1)))
      ∧ rd32 (requestreply_frame (fun _ => 0) 7 1 3 [0x9F] 5) OFF_PAYLOAD_LENGTH = 29 :=
  ⟨by decide,
    requestreply_wire_format (-100) 10 demo_short_payload_stream (fun _ => 0x55)
      (fun _ => 0x55) 7 1 2000 1 3 [0x9F] [7, 7, 7] demo_world demo_failed_result.1
      demo_failed_result.2.1 demo_failed_result.2.2 (by norm_num [BS_HEADER_SIZE])
      (by decide) (by decide)⟩

/-- C14 (as amended): for every speed code `spispeed` in `0..7`, every `writecnt` (with
`16 + 28 + writecnt` below `2^32`), every `readcnt` below `2^32` and every write buffer of
`writecnt` bytes, the payload of the frame sent by `busside_requestreply` starts, at byte
16, with seven 32-bit words: the clock frequency in Hz of the table row `spispeeds[spispeed]`
(30000, 125000, 250000, 1000000, 2000000, 2600000, 4000000, 8000000 for the codes 0 to 7,
never the code itself), the constants 9, 6, 8, 7, then `writecnt` and `readcnt`; the bytes
of `writearr` follow at byte 44, unchanged and in order. -/
theorem request_payload_words (junk1 : Nat → Nat) (spispeed writecnt readcnt : Nat)
    (writearr : List Nat) (seq : Nat) (hsp : spispeed < 8)
    (hw : BS_HEADER_SIZE + 7 * 4 + writecnt < 4294967296)
    (hr : readcnt < 4294967296) (hl : writearr.length = writecnt) :
    rd32 (requestreply_frame junk1 spispeed writecnt readcnt writearr seq)
        (BS_HEADER_SIZE + 4 * 0) = spispeeds_spispeed spispeed
      ∧ rd32 (requestreply_frame junk1 spispeed writecnt readcnt writearr seq)
          (BS_HEADER_SIZE + 4 * 1) = 9
      ∧ rd32 (requestreply_frame junk1 spispeed writecnt readcnt writearr seq)
          (BS_HEADER_SIZE + 4 * 2) = 6
      ∧ rd32 (requestreply_frame junk1 spispeed writecnt readcnt writearr seq)
          (BS_HEADER_SIZE + 4 * 3) = 8
      ∧ rd32 (requestreply_frame junk1 spispeed writecnt readcnt writearr seq)
          (BS_HEADER_SIZE + 4 * 4) = 7
      ∧ rd32 (requestreply_frame junk1 spispeed writecnt readcnt writearr seq)
          (BS_HEADER_SIZE + 4 * 5) = writecnt
      ∧ rd32 (requestreply_frame junk1 spispeed writecnt readcnt writearr seq)
          (BS_HEADER_SIZE + 4 * 6) = readcnt
      ∧ (requestreply_frame junk1 spispeed writecnt readcnt writearr seq).drop
          (BS_HEADER_SIZE + 4 * 7) = writearr
      ∧ spispeeds_spispeed spispeed
          = [30000, 125000, 250000, 1000000, 2000000, 2600000, 4000000, 8000000].getD
              spispeed 0
      ∧ spispeeds_spispeed spispeed ≠ spispeed := by
  obtain ⟨g16, g20, g24, g28, g32, g36, g40, gt⟩ := requestreply_frame_payload junk1 spispeed
    writecnt readcnt writearr seq hw hr hl
  refine ⟨g16, g20, g24, g28, g32, g36, g40, gt, ?_, ?_⟩ <;>
    (interval_cases spispeed <;> decide)

/-- The payload of a request `9F` with `readcnt = 3` at speed code 3. -/
theorem request_payload_words_witness :
    ((3 : Nat) < 8 ∧ BS_HEADER_SIZE + 7 * 4 + 1 < 4294967296 ∧ (3 : Nat) < 4294967296
      ∧ ([0x9F] : List Nat).length = 1)
    ∧ (rd32 (requestreply_frame (fun _ => 0xAA) 3 1 3 [0x9F] 5) (BS_HEADER_SIZE + 4 * 0)
          = spispeeds_spispeed 3
      ∧ rd32 (requestreply_frame (fun _ => 0xAA) 3 1 3 [0x9F] 5) (BS_HEADER_SIZE + 4 * 1) = 9
      ∧ rd32 (requestreply_frame (fun _ => 0xAA) 3 1 3 [0x9F] 5) (BS_HEADER_SIZE + 4 * 2) = 6
      ∧ rd32 (requestreply_frame (fun _ => 0xAA) 3 1 3 [0x9F] 5) (BS_HEADER_SIZE + 4 * 3) = 8
      ∧ rd32 (requestreply_frame (fun _ => 0xAA) 3 1 3 [0x9F] 5) (BS_HEADER_SIZE + 4 * 4) = 7
      ∧ rd32 (requestreply_frame (fun _ => 0xAA) 3 1 3 [0x9F] 5) (BS_HEADER_SIZE + 4 * 5) = 1
      ∧ rd32 (requestreply_frame (fun _ => 0xAA) 3 1 3 [0x9F] 5) (BS_HEADER_SIZE + 4 * 6) = 3
      ∧ (requestreply_frame (fun _ => 0xAA) 3 1 3 [0x9F] 5).drop (BS_HEADER_SIZE + 4 * 7)
          = [0x9F]
      ∧ spispeeds_spispeed 3
          = [30000, 125000, 250000, 1000000, 2000000, 2600000, 4000000, 8000000].getD 3 0
      ∧ spispeeds_spispeed 3 ≠ 3) :=
  ⟨⟨by norm_num, by decide, by norm_num, rfl⟩,
    request_payload_words (fun _ => 0xAA) 3 1 3 [0x9F] 5 (by norm_num) (by decide)
      (by norm_num) rfl⟩

/-- C14 (as stated) fails on the first word: with the default speed code 7 the first
payload word of the request `9F` is 8000000, the clock in Hz, not the code 7. -/
theorem request_first_word_is_hertz :
    rd32 (requestreply_frame (fun _ => 0) 7 1 3 [0x9F] 5) (BS_HEADER_SIZE + 4 * 0) = 8000000
      ∧ ¬ rd32 (requestreply_frame (fun _ => 0) 7 1 3 [0x9F] 5) (BS_HEADER_SIZE + 4 * 0) = 7 := by
  decide

/-- The transport writes of a call of `busside_echo` whose allocations succeed. -/
theorem busside_echo_tx_log (ERROR_OOM : Int) (fuel : Nat) (rd : Nat → Rd)
    (junk1 junk2 : Nat → Nat) (nretries timeout : Int) (w : World)
    (res : Int) (w' : World)
    (h : busside_echo ERROR_OOM fuel rd true true junk1 junk2 nretries timeout w
      = some (res, w')) :
    ∃ m, m ≤ to_u32 nretries ∧ (res = -1 → m = to_u32 nretries)
      ∧ w'.seq = next_n m w.seq
      ∧ io_log w'.trace = io_log w.trace ++ attempts_events
          (wr32 (wr32 ((List.range BS_HEADER_SIZE).map junk1) OFF_COMMAND BUSSIDE_SPI_ECHO)
            OFF_PAYLOAD_LENGTH 0) BS_HEADER_SIZE m w.seq
      ∧ tx_log w'.trace = tx_log w.trace
          ++ sent_log (echo_frame junk1) m w.seq.bs_sequence_number := by
  obtain ⟨i, rq', rp', hl, hres⟩ := busside_echo_run ERROR_OOM fuel rd junk1 junk2
    nretries timeout w res w' h
  obtain ⟨m, m1, m2, _, m4, m5⟩ := retry_loop_events _ _
    (echo_attempt_events fuel rd) _ _ _ _ _ i rq' rp' w' hl
  refine ⟨m, m1, ?_, m4, m5, ?_⟩
  · intro hr
    rcases hres with ⟨hi, _⟩ | ⟨_, h0⟩
    · exact m2 (by omega)
    · omega
  · rw [← tx_log_io_log w'.trace, m5, tx_log_append, tx_log_io_log, tx_log_attempts_events]
    rfl

theorem echo_frame_eq (junk1 : Nat → Nat) (seq : Nat) :
    echo_frame junk1 seq
      = bs_stamp (wr32 (wr32 ((List.range 16).map junk1) 0 0) 4 0) 16 seq := by
  unfold echo_frame
  apply List.take_of_length_le
  rw [bs_stamp_length]
  simp [wr32_length, BS_HEADER_SIZE]

/-- The header fields of the frame of a probe made with counter value `seq`. -/
theorem echo_frame_header (junk1 : Nat → Nat) (seq : Nat) (hs : seq < 4294967296) :
    (echo_frame junk1 seq).length = 16
      ∧ rd32 (echo_frame junk1 seq) OFF_COMMAND = 0
      ∧ rd32 (echo_frame junk1 seq) OFF_PAYLOAD_LENGTH = 0
      ∧ rd32 (echo_frame junk1 seq) OFF_SEQUENCE_NUMBER = seq
      ∧ rd32 (echo_frame junk1 seq) OFF_CHECKSUM
          = crc_mem (wr32 (echo_frame junk1 seq) OFF_CHECKSUM 0) (to_int 16) := by
  have e0 : OFF_COMMAND = 0 := rfl
  have e4 : OFF_PAYLOAD_LENGTH = 4 := rfl
  have hl : (wr32 (wr32 ((List.range 16).map junk1) 0 0) 4 0).length = 16 := by
    simp [wr32_length]
  rw [echo_frame_eq]
  refine ⟨by rw [bs_stamp_length, hl], ?_, ?_, ?_, ?_⟩
  · rw [e0, bs_stamp_rd32_other _ _ _ _ (by omega), rd32_wr32_other _ _ _ _ (by omega),
      rd32_wr32_same _ _ _ (by simp) (by norm_num)]
  · rw [e4, bs_stamp_rd32_other _ _ _ _ (by omega),
      rd32_wr32_same _ _ _ (by simp [wr32_length]) (by norm_num)]
  · exact bs_stamp_seq_field _ _ _ (by omega) hs
  · exact (bs_stamp_checksum _ _ _ (by rw [hl]; decide)).symm

/-- Between two attempts only the sequence number and the checksum of the frame of
`busside_requestreply` differ. -/
theorem requestreply_frame_rest (junk1 : Nat → Nat) (spispeed writecnt readcnt : Nat)
    (writearr : List Nat) (a b : Nat) (hw : BS_HEADER_SIZE + 7 * 4 + writecnt < 4294967296) :
    (requestreply_frame junk1 spispeed writecnt readcnt writearr a).take 8
        = (requestreply_frame junk1 spispeed writecnt readcnt writearr b).take 8
      ∧ (requestreply_frame junk1 spispeed writecnt readcnt writearr a).drop 16
        = (requestreply_frame junk1 spispeed writecnt readcnt writearr b).drop 16 := by
  rw [requestreply_frame_eq _ _ _ _ _ _ hw, requestreply_frame_eq _ _ _ _ _ _ hw]
  exact ⟨by rw [bs_stamp_take _ _ _ _ (le_refl _), bs_stamp_take _ _ _ _ (le_refl _)],
    by rw [bs_stamp_drop _ _ _ _ (le_refl _), bs_stamp_drop _ _ _ _ (le_refl _)]⟩

/-- The same for the frame of `busside_echo`. -/
theorem echo_frame_rest (junk1 : Nat → Nat) (a b : Nat) :
    (echo_frame junk1 a).take 8 = (echo_frame junk1 b).take 8
      ∧ (echo_frame junk1 a).drop 16 = (echo_frame junk1 b).drop 16 := by
  rw [echo_frame_eq, echo_frame_eq]
  exact ⟨by rw [bs_stamp_take _ _ _ _ (le_refl _), bs_stamp_take _ _ _ _ (le_refl _)],
    by rw [bs_stamp_drop _ _ _ _ (le_refl _), bs_stamp_drop _ _ _ _ (le_refl _)]⟩

/-- The sequence manager after `m` attempts: the counter has gone up by `m` and, when the
store file exists, the store holds the counter (after no attempt at all: if it did
before). -/
theorem next_n_holds (m : Nat) (seq : SeqState) (hs : seq.bs_sequence_number < 4294967296)
    (hst : ∃ c, seq.store = some c) :
    (next_n m seq).bs_sequence_number = (seq.bs_sequence_number + m) % 4294967296
      ∧ ((0 < m ∨ Synced seq) → Synced (next_n m seq)) := by
  refine ⟨next_n_counter m seq hs, ?_⟩
  intro hm
  rcases Nat.eq_zero_or_pos m with h0 | hp
  · subst h0
    rcases hm with hm | hm
    · omega
    · exact hm
  · exact next_n_synced m seq hst hp

/-- C15: a call of `busside_requestreply`, and a call of `busside_echo`, that starts with
counter value `s` (allocations succeeding, the store file present) makes some number `m`
of attempts; the frame written on attempt `j < m` is the frame for the counter value
`(s + j) mod 2^32`, which carries this value as sequence number and the checksum of the
frame with the checksum field zeroed; the frames for two counter values agree on their
first eight bytes (command, payload length) and on everything after the header; after
the call the counter is `(s + m) mod 2^32`, and the first four bytes of the store are the
counter when at least one attempt was made or when they were before the call. -/
theorem restamping_across_retries (ERROR_OOM : Int) (fuel : Nat) (rd rd2 : Nat → Rd)
    (junk1 junk2 : Nat → Nat) (spispeed : Nat) (nretries timeout : Int)
    (writecnt readcnt : Nat) (writearr readarr : List Nat) (w w2 : World)
    (res res2 : Int) (readarr' : List Nat) (w' w2' : World)
    (hw : BS_HEADER_SIZE + 7 * 4 + writecnt < 4294967296)
    (hs : w.seq.bs_sequence_number < 4294967296)
    (hst : ∃ c, w.seq.store = some c)
    (h : busside_requestreply ERROR_OOM fuel rd true true junk1 junk2 spispeed nretries
      timeout writecnt readcnt writearr readarr w = some (res, readarr', w'))
    (hs2 : w2.seq.bs_sequence_number < 4294967296)
    (hst2 : ∃ c, w2.seq.store = some c)
    (h2 : busside_echo ERROR_OOM fuel rd2 true true junk1 junk2 nretries timeout w2
      = some (res2, w2')) :
    (∃ m, tx_log w'.trace = tx_log w.trace
          ++ sent_log (requestreply_frame junk1 spispeed writecnt readcnt writearr) m
              w.seq.bs_sequence_number
        ∧ (∀ j, j < m →
            (sent_log (requestreply_frame junk1 spispeed writecnt readcnt writearr) m
                w.seq.bs_sequence_number)[2 * j + 1]?
              = some (requestreply_frame junk1 spispeed writecnt readcnt writearr
                  ((w.seq.bs_sequence_number + j) % 4294967296)))
        ∧ w'.seq.bs_sequence_number = (w.seq.bs_sequence_number + m) % 4294967296
        ∧ ((0 < m ∨ Synced w.seq) → Synced w'.seq))
      ∧ (∀ a b, a < 4294967296 →
          rd32 (requestreply_frame junk1 spispeed writecnt readcnt writearr a)
              OFF_SEQUENCE_NUMBER = a
          ∧ rd32 (requestreply_frame junk1 spispeed writecnt readcnt writearr a) OFF_CHECKSUM
            = crc_mem (wr32 (requestreply_frame junk1 spispeed writecnt readcnt writearr a)
                OFF_CHECKSUM 0) (to_int (16 + 28 + writecnt))
          ∧ (requestreply_frame junk1 spispeed writecnt readcnt writearr a).take 8
            = (requestreply_frame junk1 spispeed writecnt readcnt writearr b).take 8
          ∧ (requestreply_frame junk1 spispeed writecnt readcnt writearr a).drop 16
            = (requestreply_frame junk1 spispeed writecnt readcnt writearr b).drop 16)
      ∧ (∃ m, tx_log w2'.trace = tx_log w2.trace
          ++ sent_log (echo_frame junk1) m w2.seq.bs_sequence_number
        ∧ (∀ j, j < m →
            (sent_log (echo_frame junk1) m w2.seq.bs_sequence_number)[2 * j + 1]?
              = some (echo_frame junk1 ((w2.seq.bs_sequence_number + j) % 4294967296)))
        ∧ w2'.seq.bs_sequence_number = (w2.seq.bs_sequence_number + m) % 4294967296
        ∧ ((0 < m ∨ Synced w2.seq) → Synced w2'.seq))
      ∧ (∀ a b, a < 4294967296 →
          rd32 (echo_frame junk1 a) OFF_SEQUENCE_NUMBER = a
          ∧ rd32 (echo_frame junk1 a) OFF_CHECKSUM
            = crc_mem (wr32 (echo_frame junk1 a) OFF_CHECKSUM 0) (to_int 16)
          ∧ (echo_frame junk1 a).take 8 = (echo_frame junk1 b).take 8
          ∧ (echo_frame junk1 a).drop 16 = (echo_frame junk1 b).drop 16) := by
  refine ⟨?_, ?_, ?_, ?_⟩
  · obtain ⟨m, _, _, m3, _, m5⟩ := busside_requestreply_tx_log ERROR_OOM fuel rd junk1 junk2
      spispeed nretries timeout writecnt readcnt writearr readarr w res readarr' w' h
    obtain ⟨n1, n2⟩ := next_n_holds m w.seq hs hst
    rw [← m3] at n1 n2
    exact ⟨m, m5, fun j hj => (sent_log_at _ m _ j hs hj).2, n1, n2⟩
  · intro a b ha
    obtain ⟨_, _, _, f4, f5⟩ := requestreply_frame_header junk1 spispeed writecnt readcnt
      writearr a hw ha
    obtain ⟨r1, r2⟩ := requestreply_frame_rest junk1 spispeed writecnt readcnt writearr a b hw
    exact ⟨f4, f5, r1, r2⟩
  · obtain ⟨m, _, _, m3, _, m5⟩ := busside_echo_tx_log ERROR_OOM fuel rd2 junk1 junk2
      nretries timeout w2 res2 w2' h2
    obtain ⟨n1, n2⟩ := next_n_holds m w2.seq hs2 hst2
    rw [← m3] at n1 n2
    exact ⟨m, m5, fun j hj => (sent_log_at _ m _ j hs2 hj).2, n1, n2⟩
  · intro a b ha
    obtain ⟨_, _, _, f4, f5⟩ := echo_frame_header junk1 a ha
    obtain ⟨r1, r2⟩ := echo_frame_rest junk1 a b
    exact ⟨f4, f5, r1, r2⟩

set_option maxRecDepth 16384 in
/-- A request and a probe that each need two attempts, from counter value 5. -/
theorem restamping_across_retries_witness :
    (BS_HEADER_SIZE + 7 * 4 + 1 < 4294967296
      ∧ demo_world.seq.bs_sequence_number < 4294967296
      ∧ (∃ c, demo_world.seq.store = some c)
      ∧ busside_requestreply (-100) 10 demo_retry_stream true true (fun _ => 0) (fun _ => 0)
          7 3 2000 1 3 [0x9F] [7, 7, 7] demo_world
        = some (demo_retry_result.1, demo_retry_result.2.1, demo_retry_result.2.2)
      ∧ busside_echo (-100) 10 demo_echo_six_stream true true (fun _ => 0) (fun _ => 0) 3 2000
          demo_world = some (demo_echo_six_result.1, demo_echo_six_result.2))
    ∧ ((∃ m, tx_log demo_retry_result.2.2.trace = tx_log demo_world.trace
          ++ sent_log (requestreply_frame (fun _ => 0) 7 1 3 [0x9F]) m
              demo_world.seq.bs_sequence_number
        ∧ (∀ j, j < m →
            (sent_log (requestreply_frame (fun _ => 0) 7 1 3 [0x9F]) m
                demo_world.seq.bs_sequence_number)[2 * j + 1]?
              = some (requestreply_frame (fun _ => 0) 7 1 3 [0x9F]
                  ((demo_world.seq.bs_sequence_number + j) % 4294967296)))
        ∧ demo_retry_result.2.2.seq.bs_sequence_number
            = (demo_world.seq.bs_sequence_number + m) % 4294967296
        ∧ ((0 < m ∨ Synced demo_world.seq) → Synced demo_retry_result.2.2.seq))
      ∧ (∀ a b, a < 4294967296 →
          rd32 (requestreply_frame (fun _ => 0) 7 1 3 [0x9F] a) OFF_SEQUENCE_NUMBER = a
          ∧ rd32 (requestreply_frame (fun _ => 0) 7 1 3 [0x9F] a) OFF_CHECKSUM
            = crc_mem (wr32 (requestreply_frame (fun _ => 0) 7 1 3 [0x9F] a) OFF_CHECKSUM 0)
                (to_int (16 + 28 + 1))
          ∧ (requestreply_frame (fun _ => 0) 7 1 3 [0x9F] a).take 8
            = (requestreply_frame (fun _ => 0) 7 1 3 [0x9F] b).take 8
          ∧ (requestreply_frame (fun _ => 0) 7 1 3 [0x9F] a).drop 16
            = (requestreply_frame (fun _ => 0) 7 1 3 [0x9F] b).drop 16)
      ∧ (∃ m, tx_log demo_echo_six_result.2.trace = tx_log demo_world.trace
          ++ sent_log (echo_frame (fun _ => 0)) m demo_world.seq.bs_sequence_number
        ∧ (∀ j, j < m →
            (sent_log (echo_frame (fun _ => 0)) m demo_world.seq.bs_sequence_number)[2 * j + 1]?
              = some (echo_frame (fun _ => 0)
                  ((demo_world.seq.bs_sequence_number + j) % 4294967296)))
        ∧ demo_echo_six_result.2.seq.bs_sequence_number
            = (demo_world.seq.bs_sequence_number + m) % 4294967296
        ∧ ((0 < m ∨ Synced demo_world.seq) → Synced demo_echo_six_result.2.seq))
      ∧ (∀ a b, a < 4294967296 →
          rd32 (echo_frame (fun _ => 0) a) OFF_SEQUENCE_NUMBER = a
          ∧ rd32 (echo_frame (fun _ => 0) a) OFF_CHECKSUM
            = crc_mem (wr32 (echo_frame (fun _ => 0) a) OFF_CHECKSUM 0) (to_int 16)
          ∧ (echo_frame (fun _ => 0) a).take 8 = (echo_frame (fun _ => 0) b).take 8
          ∧ (echo_frame (fun _ => 0) a).drop 16 = (echo_frame (fun _ => 0) b).drop 16)) :=
  ⟨⟨by decide, by decide, ⟨_, rfl⟩, by decide, by decide⟩,
    restamping_across_retries (-100) 10 demo_retry_stream demo_echo_six_stream (fun _ => 0)
      (fun _ => 0) 7 3 2000 1 3 [0x9F] [7, 7, 7] demo_world demo_world demo_retry_result.1
      demo_echo_six_result.1 demo_retry_result.2.1 demo_retry_result.2.2 demo_echo_six_result.2
      (by norm_num [BS_HEADER_SIZE]) (by decide) ⟨_, rfl⟩ (by decide) (by decide) ⟨_, rfl⟩
      (by decide)⟩

theorem attempts_events_length (request : List Nat) (request_size : Nat) :
    ∀ (m : Nat) (seq : SeqState), (attempts_events request request_size m seq).length = 3 * m := by
  intro m
  induction m with
  | zero => intro seq; rfl
  | succ k ih =>
    intro seq
    simp only [attempts_events, attempt_events, List.length_append, List.length_cons,
      List.length_nil, ih]
    omega

/-- Among the writes of `m` attempts, write `3j` is the rewriting of the store by the
`j + 1`-th increment, write `3j + 1` the marker and write `3j + 2` the request stamped
with the counter value left by `j` increments. -/
theorem attempts_events_at (request : List Nat) (request_size : Nat) :
    ∀ (m : Nat) (seq : SeqState) (j : Nat), j < m →
      (attempts_events request request_size m seq)[3 * j]?
          = some (Ev.persist (next_n (j + 1) seq).store)
        ∧ (attempts_events request request_size m seq)[3 * j + 1]? = some (Ev.tx bs_sync_word)
        ∧ (attempts_events request request_size m seq)[3 * j + 2]?
          = some (Ev.tx ((bs_stamp request request_size
              (next_n j seq).bs_sequence_number).take request_size)) := by
  intro m
  induction m with
  | zero => intro seq j hj; omega
  | succ k ih =>
    intro seq j hj
    cases j with
    | zero => simp [attempts_events, attempt_events, next_n]
    | succ i =>
      have := ih (bs_next_sequence_number seq) i (by omega)
      simp only [attempts_events, attempt_events]
      rw [show 3 * (i + 1) = 3 * i + 1 + 1 + 1 by omega]
      simp only [List.cons_append, List.nil_append, List.getElem?_cons_succ]
      exact this

/-- The value held by the store after an increment, when the store file exists. -/
theorem next_store_value (seq : SeqState) (hst : ∃ c, seq.store = some c) :
    ∃ c, (bs_next_sequence_number seq).store = some c
      ∧ rd32 c 0 = (seq.bs_sequence_number + 1) % 4294967296 := by
  obtain ⟨c, hc, _, hv⟩ := next_synced seq hst
  refine ⟨c, hc, ?_⟩
  rw [rd32_take _ _ _ (le_refl _), next_counter] at hv
  exact hv

/-- The writes of `m` attempts are blocks in which the store is rewritten with the
sequence number of the block's frame plus one before the marker and the frame go out. -/
theorem attempts_events_persisted_ahead (request : List Nat) (request_size : Nat)
    (hl : 12 ≤ request.length) (hsz : 12 ≤ request_size) :
    ∀ (m : Nat) (seq : SeqState), seq.bs_sequence_number < 4294967296 →
      (∃ c, seq.store = some c) →
      persisted_ahead (attempts_events request request_size m seq) = true := by
  intro m
  induction m with
  | zero => intro seq _ _; rfl
  | succ k ih =>
    intro seq hs hst
    obtain ⟨c, hc, hv⟩ := next_store_value seq hst
    have hf : rd32 ((bs_stamp request request_size seq.bs_sequence_number).take request_size)
        OFF_SEQUENCE_NUMBER = seq.bs_sequence_number := by
      rw [rd32_take _ _ _ (by simpa [OFF_SEQUENCE_NUMBER] using hsz)]
      exact bs_stamp_seq_field _ _ _ hl hs
    have hn : (bs_next_sequence_number seq).bs_sequence_number < 4294967296 := by
      rw [next_counter]
      exact Nat.mod_lt _ (by norm_num)
    simp only [attempts_events, attempt_events, hc, List.cons_append, List.nil_append,
      persisted_ahead, hf, hv, ih _ hn (next_store_some seq hst), Bool.and_true,
      Bool.and_eq_true, decide_eq_true_eq]
    refine ⟨⟨trivial, trivial⟩, ?_⟩
    omega
theorem attempts_events_persist_before_send (request : List Nat) (request_size : Nat)
    (hl : 12 ≤ request.length) (hsz : 12 ≤ request_size) (m : Nat) (seq : SeqState)
    (hs : seq.bs_sequence_number < 4294967296) (hst : ∃ c, seq.store = some c) :
    persist_before_send seq.bs_sequence_number m
      (attempts_events request request_size m seq) := by
  have key : ∀ j, j < m → ∃ c f,
      (attempts_events request request_size m seq)[3 * j]? = some (Ev.persist (some c))
        ∧ (attempts_events request request_size m seq)[3 * j + 1]? = some (Ev.tx bs_sync_word)
        ∧ (attempts_events request request_size m seq)[3 * j + 2]? = some (Ev.tx f)
        ∧ rd32 f OFF_SEQUENCE_NUMBER = (seq.bs_sequence_number + j) % 4294967296
        ∧ rd32 c 0 = (seq.bs_sequence_number + j + 1) % 4294967296 := by
    intro j hj
    obtain ⟨a1, a2, a3⟩ := attempts_events_at request request_size m seq j hj
    have hcj := next_n_counter j seq hs
    obtain ⟨c, hc, hv⟩ := next_store_value (next_n j seq) (next_n_store_some j seq hst)
    rw [← next_n_succ] at hc
    refine ⟨c, _, by rw [a1, hc], a2, a3, ?_, ?_⟩
    · rw [rd32_take _ _ _ (by simpa [OFF_SEQUENCE_NUMBER] using hsz),
        bs_stamp_seq_field _ _ _ hl (by rw [hcj]; exact Nat.mod_lt _ (by norm_num)), hcj]
    · rw [hv, hcj]
      omega
  refine ⟨attempts_events_length request request_size m seq, key, ?_⟩
  intro hm i j c f hij hj hf hc
  obtain ⟨ci, fi, _, _, b3, b4, _⟩ := key i (by omega)
  obtain ⟨cj, fj, d1, _, _, _, d5⟩ := key j hj
  rw [b3] at hf
  rw [d1] at hc
  simp only [Option.some.injEq, Ev.tx.injEq, Ev.persist.injEq] at hf hc
  subst hf
  subst hc
  rw [b4, d5]
  omega

/-- C16: in a call of `busside_requestreply`, and in a call of `busside_echo`, that
starts with counter value `s` (allocations succeeding, the store file present), the
writes to the store and to the transport come in blocks of three, one block per attempt:
first the store is rewritten and then holds the attempt's sequence number plus one (32
bits), then the marker is sent, then the frame; and when the counter does not wrap
during the call, the store content at and after the sending of a frame is greater than
the sequence number of that frame. -/
theorem persist_precedes_send (ERROR_OOM : Int) (fuel : Nat) (rd rd2 : Nat → Rd)
    (junk1 junk2 : Nat → Nat) (spispeed : Nat) (nretries timeout : Int)
    (writecnt readcnt : Nat) (writearr readarr : List Nat) (w w2 : World)
    (res res2 : Int) (readarr' : List Nat) (w' w2' : World)
    (hw : BS_HEADER_SIZE + 7 * 4 + writecnt < 4294967296)
    (hs : w.seq.bs_sequence_number < 4294967296)
    (hst : ∃ c, w.seq.store = some c)
    (h : busside_requestreply ERROR_OOM fuel rd true true junk1 junk2 spispeed nretries
      timeout writecnt readcnt writearr readarr w = some (res, readarr', w'))
    (hs2 : w2.seq.bs_sequence_number < 4294967296)
    (hst2 : ∃ c, w2.seq.store = some c)
    (h2 : busside_echo ERROR_OOM fuel rd2 true true junk1 junk2 nretries timeout w2
      = some (res2, w2')) :
    (∃ m L, io_log w'.trace = io_log w.trace ++ L
        ∧ tx_log L = sent_log (requestreply_frame junk1 spispeed writecnt readcnt writearr) m
            w.seq.bs_sequence_number
        ∧ persist_before_send w.seq.bs_sequence_number m L ∧ persisted_ahead L = true)
      ∧ (∃ m L, io_log w2'.trace = io_log w2.trace ++ L
        ∧ tx_log L = sent_log (echo_frame junk1) m w2.seq.bs_sequence_number
        ∧ persist_before_send w2.seq.bs_sequence_number m L ∧ persisted_ahead L = true) := by
  have e16 : BS_HEADER_SIZE = 16 := rfl
  constructor
  · obtain ⟨m, _, _, _, m5, _⟩ := busside_requestreply_tx_log ERROR_OOM fuel rd junk1 junk2
      spispeed nretries timeout writecnt readcnt writearr readarr w res readarr' w' h
    have hsz : 12 ≤ (BS_HEADER_SIZE + 7 * 4 + writecnt) % 4294967296 := by
      rw [Nat.mod_eq_of_lt hw]
      omega
    have hl : 12 ≤ (requestreply_request
        ((List.range ((BS_HEADER_SIZE + 7 * 4 + writecnt) % 4294967296)).map junk1)
        ((BS_HEADER_SIZE + 7 * 4 + writecnt) % 4294967296) spispeed writecnt readcnt
        writearr).length := by
      rw [requestreply_request_length _ _ _ _ _ _
        (by rw [List.length_map, List.length_range, Nat.mod_eq_of_lt hw]),
        List.length_map, List.length_range]
      exact hsz
    exact ⟨m, _, m5, by rw [tx_log_attempts_events]; rfl,
      attempts_events_persist_before_send _ _ hl hsz m w.seq hs hst,
      attempts_events_persisted_ahead _ _ hl hsz m w.seq hs hst⟩
  · obtain ⟨m, _, _, _, m5, _⟩ := busside_echo_tx_log ERROR_OOM fuel rd2 junk1 junk2
      nretries timeout w2 res2 w2' h2
    have hl : 12 ≤ (wr32 (wr32 ((List.range BS_HEADER_SIZE).map junk1) OFF_COMMAND
        BUSSIDE_SPI_ECHO) OFF_PAYLOAD_LENGTH 0).length := by
      rw [wr32_length, wr32_length, List.length_map, List.length_range]
      omega
    exact ⟨m, _, m5, by rw [tx_log_attempts_events]; rfl,
      attempts_events_persist_before_send _ _ hl (by omega) m w2.seq hs2 hst2,
      attempts_events_persisted_ahead _ _ hl (by omega) m w2.seq hs2 hst2⟩

set_option maxRecDepth 16384 in
/-- A request and a probe that each need two attempts, from counter value 5 with the
store holding 5. -/
theorem persist_precedes_send_witness :
    (BS_HEADER_SIZE + 7 * 4 + 1 < 4294967296
      ∧ demo_world.seq.bs_sequence_number < 4294967296
      ∧ (∃ c, demo_world.seq.store = some c)
      ∧ busside_requestreply (-100) 10 demo_retry_stream true true (fun _ => 0) (fun _ => 0)
          7 3 2000 1 3 [0x9F] [7, 7, 7] demo_world
        = some (demo_retry_result.1, demo_retry_result.2.1, demo_retry_result.2.2)
      ∧ busside_echo (-100) 10 demo_echo_six_stream true true (fun _ => 0) (fun _ => 0) 3 2000
          demo_world = some (demo_echo_six_result.1, demo_echo_six_result.2))
    ∧ ((∃ m L, io_log demo_retry_result.2.2.trace = io_log demo_world.trace ++ L
        ∧ tx_log L = sent_log (requestreply_frame (fun _ => 0) 7 1 3 [0x9F]) m
            demo_world.seq.bs_sequence_number
        ∧ persist_before_send demo_world.seq.bs_sequence_number m L
        ∧ persisted_ahead L = true)
      ∧ (∃ m L, io_log demo_echo_six_result.2.trace = io_log demo_world.trace ++ L
        ∧ tx_log L = sent_log (echo_frame (fun _ => 0)) m demo_world.seq.bs_sequence_number
        ∧ persist_before_send demo_world.seq.bs_sequence_number m L
        ∧ persisted_ahead L = true)) :=
  ⟨⟨by norm_num [BS_HEADER_SIZE], by decide, ⟨_, rfl⟩, by decide, by decide⟩,
    persist_precedes_send (-100) 10 demo_retry_stream demo_echo_six_stream (fun _ => 0)
      (fun _ => 0) 7 3 2000 1 3 [0x9F] [7, 7, 7] demo_world demo_world demo_retry_result.1
      demo_echo_six_result.1 demo_retry_result.2.1 demo_retry_result.2.2 demo_echo_six_result.2
      (by decide) (by norm_num [demo_world, world0]) ⟨_, rfl⟩ (by decide)
      (by norm_num [demo_world, world0]) ⟨_, rfl⟩ (by decide)⟩

/-- What an accepted attempt of `busside_requestreply` has received: the marker was found,
the header read delivered 16 bytes `H` and the payload read `readcnt` bytes `P`, and
`H ++ P` passes the three checks against the request stamped in this attempt. -/
theorem requestreply_attempt_accepted (fuel : Nat) (rd : Nat → Rd) (readcnt request_size : Nat)
    (request reply : List Nat) (w : World) (rq' rp' : List Nat) (w' : World)
    (hl : 12 ≤ request.length) (hs : w.seq.bs_sequence_number < 4294967296)
    (hrp : reply.length = BS_HEADER_SIZE + readcnt)
    (hr : BS_HEADER_SIZE + readcnt < 2147483648)
    (h : requestreply_attempt fuel rd readcnt request_size request reply w
      = some (true, rq', rp', w')) :
    ∃ ws H P, bs_sync fuel 3 rd (attempt_send request request_size w).2 = some (0, ws)
      ∧ (rd ws.pos).rv = 0 ∧ H = (rd ws.pos).data.take BS_HEADER_SIZE
      ∧ H.length = BS_HEADER_SIZE
      ∧ (rd (ws.pos + 1)).rv = 0 ∧ P = (rd (ws.pos + 1)).data.take readcnt
      ∧ P.length = readcnt
      ∧ rd32 H OFF_PAYLOAD_LENGTH = readcnt
      ∧ rd32 H OFF_SEQUENCE_NUMBER = w.seq.bs_sequence_number
      ∧ rd32 H OFF_CHECKSUM
          = crc_mem (wr32 (H ++ P) OFF_CHECKSUM 0) (to_int (BS_HEADER_SIZE + readcnt))
      ∧ rp' = wr32 (H ++ P) OFF_CHECKSUM 0 ∧ w'.pos = ws.pos + 2 := by
  have e16 : BS_HEADER_SIZE = 16 := rfl
  have e4 : OFF_PAYLOAD_LENGTH = 4 := rfl
  have e8 : OFF_SEQUENCE_NUMBER = 8 := rfl
  have e12 : OFF_CHECKSUM = 12 := rfl
  have G5 : rd32 (attempt_send request request_size w).1 OFF_SEQUENCE_NUMBER
      = w.seq.bs_sequence_number := by
    rw [attempt_send_eq_stamp]
    exact bs_stamp_seq_field _ _ _ hl hs
  unfold requestreply_attempt at h
  dsimp only at h
  split at h
  · cases h
  · rename_i r ws hb
    split_ifs at h with c0 c1 c2 c3 c4 c5
    all_goals try (exfalso; simp at h; done)
    simp only [Option.some.injEq, Prod.mk.injEq, true_and] at h
    obtain ⟨-, hrp', hw'⟩ := h
    simp only [ne_eq, not_not] at c0 c2 c4 c5
    simp only [ne_eq, not_or, not_not] at c1 c3
    subst c0
    obtain ⟨H, hH⟩ : ∃ H, H = (rd ws.pos).data.take BS_HEADER_SIZE := ⟨_, rfl⟩
    obtain ⟨P, hP⟩ : ∃ P, P = (rd (ws.pos + 1)).data.take readcnt := ⟨_, rfl⟩
    have F2 : (sp_read rd ws BS_HEADER_SIZE).1.2 = H := by rw [hH]; rfl
    have F4 : (sp_read rd (sp_read rd ws BS_HEADER_SIZE).2 readcnt).1.2 = P := by rw [hP]; rfl
    simp only [F2, F4] at c1 c2 c3 c4 c5 hrp'
    obtain ⟨hrv1, hHl⟩ := c1
    obtain ⟨hrv2, hPl⟩ := c3
    have G1 : mem_write reply 0 H = H ++ reply.drop BS_HEADER_SIZE := by
      rw [mem_write_zero, hHl]
    have G2 : mem_write (H ++ reply.drop BS_HEADER_SIZE) BS_HEADER_SIZE P = H ++ P := by
      have := mem_write_after H (reply.drop BS_HEADER_SIZE) P
      rw [hHl, hPl] at this
      rw [this, List.drop_drop, List.drop_of_length_le (by omega), List.append_nil]
    simp only [G1, G2] at c2 c4 c5 hrp'
    have hHP : (H ++ P).length = BS_HEADER_SIZE + readcnt := by
      rw [List.length_append, hHl, hPl]
    rw [rd32_append_left _ _ _ (by omega)] at c2 c4 c5
    rw [G5] at c4
    rw [rd32_wr32_other _ _ _ _ (by omega), rd32_append_left _ _ _ (by omega), c2,
      Nat.mod_eq_of_lt (by omega)] at c5
    refine ⟨ws, H, P, hb, hrv1, hH, hHl, hrv2, hP, hPl, c2, c4, c5.symm, hrp'.symm, ?_⟩
    rw [← hw']
    rfl
theorem mem_write_take_length (buf data : List Nat) (off n : Nat) (h : off + n ≤ buf.length) :
    (mem_write buf off (data.take n)).length = buf.length := by
  apply mem_write_length
  rw [List.length_take]
  omega

/-- No attempt of `busside_requestreply` changes the size of the request buffer or of a
reply buffer of `16 + readcnt` bytes: what the two reads deliver fits into it. -/
theorem requestreply_attempt_lengths (fuel : Nat) (rd : Nat → Rd) (readcnt request_size : Nat)
    (request reply : List Nat) (w : World) (ok : Bool) (rq' rp' : List Nat) (w' : World)
    (hrp : reply.length = BS_HEADER_SIZE + readcnt)
    (h : requestreply_attempt fuel rd readcnt request_size request reply w
      = some (ok, rq', rp', w')) :
    rq'.length = request.length ∧ rp'.length = BS_HEADER_SIZE + readcnt := by
  have e16 : BS_HEADER_SIZE = 16 := rfl
  unfold requestreply_attempt at h
  dsimp only at h
  split at h
  · cases h
  · rename_i r ws hb
    have M1 : (mem_write reply 0 (sp_read rd ws BS_HEADER_SIZE).1.2).length
        = BS_HEADER_SIZE + readcnt := by
      rw [← hrp]
      exact mem_write_take_length _ _ _ _ (by omega)
    have M2 : (mem_write (mem_write reply 0 (sp_read rd ws BS_HEADER_SIZE).1.2) BS_HEADER_SIZE
        (sp_read rd (sp_read rd ws BS_HEADER_SIZE).2 readcnt).1.2).length
        = BS_HEADER_SIZE + readcnt := by
      rw [← M1]
      exact mem_write_take_length _ _ _ _ (by omega)
    split_ifs at h <;>
      (simp only [Option.some.injEq, Prod.mk.injEq] at h
       obtain ⟨-, rfl, rfl, -⟩ := h
       refine ⟨attempt_send_length _ _ _, ?_⟩
       first | exact hrp | exact M1 | exact M2 | (rw [wr32_length]; exact M2))

/-- A run of the retry loop that ends by `break` is a number of failed attempts followed
by an accepted one. -/
theorem retry_loop_break
    (attempt : List Nat → List Nat → World → Option (Bool × List Nat × List Nat × World)) :
    ∀ (n i : Nat) (rq rp : List Nat) (w : World) (i' : Nat) (rq' rp' : List Nat) (w' : World),
      retry_loop attempt n i rq rp w = some (i', rq', rp', w') → i' ≠ i + n →
      ∃ k rqk rpk wk, k < n ∧ i' = i + k
        ∧ failed_attempts attempt k rq rp w = some (rqk, rpk, wk)
        ∧ attempt rqk rpk wk = some (true, rq', rp', w') := by
  intro n
  induction n with
  | zero =>
    intro i rq rp w i' rq' rp' w' h hne
    simp only [retry_loop, Option.some.injEq, Prod.mk.injEq] at h
    omega
  | succ k ih =>
    intro i rq rp w i' rq' rp' w' h hne
    rw [retry_loop] at h
    split at h
    · cases h
    · rename_i rq1 rp1 w1 ha
      simp only [Option.some.injEq, Prod.mk.injEq] at h
      obtain ⟨rfl, rfl, rfl, rfl⟩ := h
      exact ⟨0, rq, rp, w, by omega, rfl, rfl, ha⟩
    · rename_i rq1 rp1 w1 ha
      obtain ⟨j, rqk, rpk, wk, j1, j2, j3, j4⟩ := ih (i + 1) rq1 rp1 w1 i' rq' rp' w' h
        (by omega)
      refine ⟨j + 1, rqk, rpk, wk, by omega, by omega, ?_, j4⟩
      rw [failed_attempts, ha]
      exact j3

/-- A property of the buffers and the world that every attempt keeps holds after any
number of failed attempts. -/
theorem failed_attempts_keeps
    (attempt : List Nat → List Nat → World → Option (Bool × List Nat × List Nat × World))
    (Inv : Nat → List Nat → List Nat → World → Prop)
    (hstep : ∀ j rq rp w ok rq' rp' w', attempt rq rp w = some (ok, rq', rp', w') →
      Inv j rq rp w → Inv (j + 1) rq' rp' w') :
    ∀ (k j : Nat) (rq rp : List Nat) (w : World) (rq' rp' : List Nat) (w' : World),
      failed_attempts attempt k rq rp w = some (rq', rp', w') →
      Inv j rq rp w → Inv (j + k) rq' rp' w' := by
  intro k
  induction k with
  | zero =>
    intro j rq rp w rq' rp' w' h hi
    simp only [failed_attempts, Option.some.injEq, Prod.mk.injEq] at h
    obtain ⟨rfl, rfl, rfl⟩ := h
    exact hi
  | succ n ih =>
    intro j rq rp w rq' rp' w' h hi
    rw [failed_attempts] at h
    split at h
    · rename_i rq1 rp1 w1 ha
      have := ih (j + 1) rq1 rp1 w1 rq' rp' w' h (hstep j rq rp w false rq1 rp1 w1 ha hi)
      rw [show j + (n + 1) = j + 1 + n by omega]
      exact this
    · cases h

/-- The buffers and the sequence manager after `k` failed attempts of
`busside_requestreply`: the request buffer stamps to the same frames as at the start, the
sizes of the buffers are unchanged, and the counter has been incremented `k` times. -/
theorem requestreply_failed_attempts_state (fuel : Nat) (rd : Nat → Rd)
    (readcnt request_size : Nat) (request reply : List Nat) (w : World) (k : Nat)
    (rq rp : List Nat) (wk : World)
    (hrp : reply.length = BS_HEADER_SIZE + readcnt)
    (h : failed_attempts (requestreply_attempt fuel rd readcnt request_size) k request reply w
      = some (rq, rp, wk)) :
    (∀ v, bs_stamp rq request_size v = bs_stamp request request_size v)
      ∧ rq.length = request.length ∧ rp.length = BS_HEADER_SIZE + readcnt
      ∧ wk.seq = next_n k w.seq := by
  have := failed_attempts_keeps (requestreply_attempt fuel rd readcnt request_size)
    (fun j rq rp wk => (∀ v, bs_stamp rq request_size v = bs_stamp request request_size v)
      ∧ rq.length = request.length ∧ rp.length = BS_HEADER_SIZE + readcnt
      ∧ wk.seq = next_n j w.seq)
    (by
      intro j rq0 rp0 w0 ok rq1 rp1 w1 ha ⟨i1, i2, i3, i4⟩
      obtain ⟨a1, a2, _⟩ := requestreply_attempt_events fuel rd readcnt request_size rq0 rp0
        w0 ok rq1 rp1 w1 ha
      obtain ⟨b1, b2⟩ := requestreply_attempt_lengths fuel rd readcnt request_size rq0 rp0
        w0 ok rq1 rp1 w1 i3 ha
      refine ⟨fun v => by rw [a1, bs_stamp_bs_stamp, i1], by rw [b1, i2], b2, ?_⟩
      rw [a2, i4, next_n_succ])
    k 0 request reply w rq rp wk h ⟨fun _ => rfl, rfl, hrp, rfl⟩
  simpa using this

/-- C11: whenever `busside_requestreply` returns 0 (with `ERROR_OOM` nonzero and
`16 + 28 + writecnt < 2^32`, `16 + readcnt < 2^31`), some number `k + 1` of attempts was
made, and in the last of them the last two reads of the call delivered a header `H` of 16
bytes and a payload `P` of `readcnt` bytes such that the payload length of `H` is
`readcnt`, its sequence number is the one stamped on the frame of that attempt,
`(s + k) mod 2^32` for a call that starts with counter value `s`, and its checksum field
is `crc_mem` over the `16 + readcnt` bytes of `H ++ P` with the checksum field zeroed;
`readarr` then receives `P`. -/
theorem acceptance_sound (ERROR_OOM : Int) (fuel : Nat) (rd : Nat → Rd)
    (malloc1 malloc2 : Bool) (junk1 junk2 : Nat → Nat) (spispeed : Nat)
    (nretries timeout : Int) (writecnt readcnt : Nat) (writearr readarr : List Nat)
    (w : World) (readarr' : List Nat) (w' : World)
    (hoom : ERROR_OOM ≠ 0)
    (hw : BS_HEADER_SIZE + 7 * 4 + writecnt < 4294967296)
    (hr : BS_HEADER_SIZE + readcnt < 2147483648)
    (hs : w.seq.bs_sequence_number < 4294967296)
    (h : busside_requestreply ERROR_OOM fuel rd malloc1 malloc2 junk1 junk2 spispeed nretries
      timeout writecnt readcnt writearr readarr w = some (0, readarr', w')) :
    ∃ k H P, k < to_u32 nretries
      ∧ tx_log w'.trace = tx_log w.trace
          ++ sent_log (requestreply_frame junk1 spispeed writecnt readcnt writearr) (k + 1)
              w.seq.bs_sequence_number
      ∧ rd32 (requestreply_frame junk1 spispeed writecnt readcnt writearr
            ((w.seq.bs_sequence_number + k) % 4294967296)) OFF_SEQUENCE_NUMBER
          = (w.seq.bs_sequence_number + k) % 4294967296
      ∧ 2 ≤ w'.pos
      ∧ (rd (w'.pos - 2)).rv = 0 ∧ H = (rd (w'.pos - 2)).data.take BS_HEADER_SIZE
      ∧ H.length = BS_HEADER_SIZE
      ∧ (rd (w'.pos - 1)).rv = 0 ∧ P = (rd (w'.pos - 1)).data.take readcnt
      ∧ P.length = readcnt
      ∧ rd32 H OFF_PAYLOAD_LENGTH = readcnt
      ∧ rd32 H OFF_SEQUENCE_NUMBER = (w.seq.bs_sequence_number + k) % 4294967296
      ∧ rd32 H OFF_CHECKSUM
          = crc_mem (wr32 (H ++ P) OFF_CHECKSUM 0) (to_int (BS_HEADER_SIZE + readcnt))
      ∧ readarr' = mem_write readarr 0 P := by
  have e16 : BS_HEADER_SIZE = 16 := rfl
  have hm : malloc1 = true ∧ malloc2 = true := by
    cases malloc1 <;> cases malloc2 <;>
      simp [busside_requestreply, malloc, hoom] at h ⊢
  obtain ⟨rfl, rfl⟩ := hm
  obtain ⟨i, rq', rp', hl, hres⟩ := busside_requestreply_run ERROR_OOM fuel rd junk1 junk2
    spispeed nretries timeout writecnt readcnt writearr readarr w 0 readarr' w' h
  rcases hres with ⟨_, hc, _⟩ | ⟨hi, _, hra⟩
  · cases hc
  obtain ⟨m, _, _, m3, _, m5⟩ := retry_loop_events _ _
    (requestreply_attempt_events fuel rd readcnt
      ((BS_HEADER_SIZE + 7 * 4 + writecnt) % 4294967296)) _ _ _ _ _ i rq' rp' w' hl
  have hm : m = i + 1 := by
    have := m3 (by omega)
    omega
  subst hm
  obtain ⟨k, rqk, rpk, wk, k1, k2, k3, k4⟩ := retry_loop_break _ _ _ _ _ _ i rq' rp' w' hl
    (by omega)
  rw [Nat.zero_add] at k2
  subst k2
  have hsz : (BS_HEADER_SIZE + 7 * 4 + writecnt) % 4294967296 = 44 + writecnt := by
    rw [Nat.mod_eq_of_lt hw]
    rfl
  have hrl : ((List.range ((BS_HEADER_SIZE + readcnt) % 4294967296)).map junk2).length
      = BS_HEADER_SIZE + readcnt := by
    rw [List.length_map, List.length_range, Nat.mod_eq_of_lt (by omega)]
  obtain ⟨_, s2, s3, s4⟩ := requestreply_failed_attempts_state fuel rd readcnt _ _ _ w i rqk
    rpk wk hrl k3
  have hcnt : wk.seq.bs_sequence_number = (w.seq.bs_sequence_number + i) % 4294967296 := by
    rw [s4]
    exact next_n_counter i w.seq hs
  have hql : 12 ≤ rqk.length := by
    rw [s2, requestreply_request_length _ _ _ _ _ _
      (by rw [List.length_map, List.length_range, hsz]; simp [BS_HEADER_SIZE]),
      List.length_map, List.length_range, hsz]
    omega
  obtain ⟨ws, H, P, _, a2, a3, a4, a5, a6, a7, a8, a9, a10, a11, a12⟩ :=
    requestreply_attempt_accepted fuel rd readcnt _ rqk rpk wk rq' rp' w' hql
      (by rw [hcnt]; exact Nat.mod_lt _ (by norm_num)) s3 hr k4
  have hp2 : w'.pos - 2 = ws.pos := by omega
  have hp1 : w'.pos - 1 = ws.pos + 1 := by omega
  refine ⟨i, H, P, k1, ?_, ?_, by omega, by rw [hp2]; exact a2, by rw [hp2]; exact a3, a4,
    by rw [hp1]; exact a5, by rw [hp1]; exact a6, a7, a8, by rw [a9, hcnt], a10, ?_⟩
  · rw [← tx_log_io_log w'.trace, m5, tx_log_append, tx_log_io_log, tx_log_attempts_events]
    rfl
  · exact (requestreply_frame_header junk1 spispeed writecnt readcnt writearr _ hw
      (Nat.mod_lt _ (by norm_num))).2.2.2.1
  · rw [hra, a11, wr32_drop _ _ _ _ (by simp [OFF_CHECKSUM, BS_HEADER_SIZE]),
      List.drop_left' a4, List.take_of_length_le (by omega)]

set_option maxRecDepth 16384 in
/-- The request `9F` on `demo_retry_stream`: the second attempt is accepted. -/
theorem acceptance_sound_witness :
    ((-100 : Int) ≠ 0 ∧ BS_HEADER_SIZE + 7 * 4 + 1 < 4294967296
      ∧ BS_HEADER_SIZE + 3 < 2147483648
      ∧ demo_world.seq.bs_sequence_number < 4294967296
      ∧ busside_requestreply (-100) 10 demo_retry_stream true true (fun _ => 0) (fun _ => 0)
          7 3 2000 1 3 [0x9F] [7, 7, 7] demo_world
        = some (0, demo_retry_result.2.1, demo_retry_result.2.2))
    ∧ ∃ k H P, k < to_u32 3
      ∧ tx_log demo_retry_result.2.2.trace = tx_log demo_world.trace
          ++ sent_log (requestreply_frame (fun _ => 0) 7 1 3 [0x9F]) (k + 1)
              demo_world.seq.bs_sequence_number
      ∧ rd32 (requestreply_frame (fun _ => 0) 7 1 3 [0x9F]
            ((demo_world.seq.bs_sequence_number + k) % 4294967296)) OFF_SEQUENCE_NUMBER
          = (demo_world.seq.bs_sequence_number + k) % 4294967296
      ∧ 2 ≤ demo_retry_result.2.2.pos
      ∧ (demo_retry_stream (demo_retry_result.2.2.pos - 2)).rv = 0
      ∧ H = (demo_retry_stream (demo_retry_result.2.2.pos - 2)).data.take BS_HEADER_SIZE
      ∧ H.length = BS_HEADER_SIZE
      ∧ (demo_retry_stream (demo_retry_result.2.2.pos - 1)).rv = 0
      ∧ P = (demo_retry_stream (demo_retry_result.2.2.pos - 1)).data.take 3
      ∧ P.length = 3
      ∧ rd32 H OFF_PAYLOAD_LENGTH = 3
      ∧ rd32 H OFF_SEQUENCE_NUMBER = (demo_world.seq.bs_sequence_number + k) % 4294967296
      ∧ rd32 H OFF_CHECKSUM = crc_mem (wr32 (H ++ P) OFF_CHECKSUM 0) (to_int (BS_HEADER_SIZE + 3))
      ∧ demo_retry_result.2.1 = mem_write [7, 7, 7] 0 P :=
  ⟨⟨by decide, by decide, by decide, by decide, by decide⟩,
    acceptance_sound (-100) 10 demo_retry_stream true true (fun _ => 0) (fun _ => 0) 7 3 2000
      1 3 [0x9F] [7, 7, 7] demo_world demo_retry_result.2.1 demo_retry_result.2.2
      (by norm_num) (by norm_num [BS_HEADER_SIZE]) (by norm_num [BS_HEADER_SIZE])
      (show (5 : Nat) < 4294967296 by norm_num) (by decide)⟩

/-- An attempt of `busside_requestreply` whose header read delivers 16 bytes `H` that
declare a payload length other than `readcnt` leaves through `err:` right after the
header read. -/
theorem requestreply_attempt_length_mismatch (fuel : Nat) (rd : Nat → Rd)
    (readcnt request_size : Nat) (request reply : List Nat) (w ws : World)
    (hb : bs_sync fuel 3 rd (attempt_send request request_size w).2 = some (0, ws))
    (hrv : (rd ws.pos).rv = 0)
    (hHl : ((rd ws.pos).data.take BS_HEADER_SIZE).length = BS_HEADER_SIZE)
    (hne : rd32 ((rd ws.pos).data.take BS_HEADER_SIZE) OFF_PAYLOAD_LENGTH ≠ readcnt) :
    requestreply_attempt fuel rd readcnt request_size request reply w
      = some (false, (attempt_send request request_size w).1,
          (rd ws.pos).data.take BS_HEADER_SIZE ++ reply.drop BS_HEADER_SIZE,
          attempt_err (sp_read rd ws BS_HEADER_SIZE).2) := by
  have e16 : BS_HEADER_SIZE = 16 := rfl
  have e4 : OFF_PAYLOAD_LENGTH = 4 := rfl
  have F1 : (sp_read rd ws BS_HEADER_SIZE).1.1 = 0 := hrv
  have F2 : (sp_read rd ws BS_HEADER_SIZE).1.2 = (rd ws.pos).data.take BS_HEADER_SIZE := rfl
  have G1 : mem_write reply 0 ((rd ws.pos).data.take BS_HEADER_SIZE)
      = (rd ws.pos).data.take BS_HEADER_SIZE ++ reply.drop BS_HEADER_SIZE := by
    rw [mem_write_zero, hHl]
  have G3 : rd32 ((rd ws.pos).data.take BS_HEADER_SIZE ++ reply.drop BS_HEADER_SIZE)
      OFF_PAYLOAD_LENGTH ≠ readcnt := by
    rw [rd32_append_left _ _ _ (by omega)]
    exact hne
  unfold requestreply_attempt
  dsimp only
  rw [hb]
  simp only [F1, F2, G1, hHl, ne_eq, not_true_eq_false, if_false, or_self]
  rw [if_pos G3]

/-- The transport reads of an attempt of `busside_requestreply` after the marker: the
header read, and a payload read only when the header read delivered 16 bytes that
declare `readcnt` payload bytes. -/
theorem requestreply_attempt_reads (fuel : Nat) (rd : Nat → Rd)
    (readcnt request_size : Nat) (request reply : List Nat) (w ws : World)
    (ok : Bool) (rq' rp' : List Nat) (w' : World)
    (hb : bs_sync fuel 3 rd (attempt_send request request_size w).2 = some (0, ws))
    (h : requestreply_attempt fuel rd readcnt request_size request reply w
      = some (ok, rq', rp', w')) :
    (w'.pos = ws.pos + 1 ∨ w'.pos = ws.pos + 2)
      ∧ (w'.pos = ws.pos + 2 → (rd ws.pos).rv = 0
          ∧ ((rd ws.pos).data.take BS_HEADER_SIZE).length = BS_HEADER_SIZE
          ∧ rd32 ((rd ws.pos).data.take BS_HEADER_SIZE) OFF_PAYLOAD_LENGTH = readcnt) := by
  have e16 : BS_HEADER_SIZE = 16 := rfl
  have e4 : OFF_PAYLOAD_LENGTH = 4 := rfl
  have F2 : (sp_read rd ws BS_HEADER_SIZE).1.2 = (rd ws.pos).data.take BS_HEADER_SIZE := rfl
  have hp1 : (attempt_err (sp_read rd ws BS_HEADER_SIZE).2).pos = ws.pos + 1 := rfl
  have hp2 : (attempt_err (sp_read rd (sp_read rd ws BS_HEADER_SIZE).2 readcnt).2).pos
      = ws.pos + 2 := rfl
  unfold requestreply_attempt at h
  dsimp only at h
  rw [hb] at h
  dsimp only at h
  rw [if_neg (by simp)] at h
  split_ifs at h with c1 c2 c3 c4 c5 <;>
    (simp only [Option.some.injEq, Prod.mk.injEq] at h
     obtain ⟨-, -, -, rfl⟩ := h)
  · exact ⟨Or.inl hp1, fun hc => by rw [hp1] at hc; omega⟩
  · exact ⟨Or.inl hp1, fun hc => by rw [hp1] at hc; omega⟩
  all_goals
    simp only [ne_eq, not_or, not_not] at c1 c2
    obtain ⟨hrv, hHl⟩ := c1
    rw [F2] at hHl c2
    rw [mem_write_zero, hHl, rd32_append_left _ _ _ (by omega)] at c2
    exact ⟨Or.inr hp2, fun _ => ⟨hrv, hHl, c2⟩⟩

/-- C17: take attempt `k + 1` of a call of `busside_requestreply` (the first `k` attempts
having failed; `16 + 28 + writecnt < 2^32`, `16 + readcnt < 2^31`).  The reply buffer has
`16 + readcnt` bytes before and after the attempt.  When the attempt finds the marker, it
makes one or two further reads, the second (the payload read) only when the header read
delivered 16 bytes declaring the payload length `readcnt`; if the header read delivers 16
bytes `H` declaring another length, the attempt leaves through `err:` after that one read
and the loop goes on to the next iteration; and an attempt that reaches `break` has
checked the checksum of `H` against `crc_mem` over the `16 + readcnt` bytes `H ++ P`. -/
theorem length_checked_before_payload (fuel : Nat) (rd : Nat → Rd) (junk1 junk2 : Nat → Nat)
    (spispeed writecnt readcnt : Nat) (writearr : List Nat) (w : World) (k : Nat)
    (rq rp : List Nat) (wk : World) (ok : Bool) (rq' rp' : List Nat) (w' : World)
    (hw : BS_HEADER_SIZE + 7 * 4 + writecnt < 4294967296)
    (hr : BS_HEADER_SIZE + readcnt < 2147483648)
    (hs : w.seq.bs_sequence_number < 4294967296)
    (hk : requestreply_after_failures fuel rd junk1 junk2 spispeed writecnt readcnt writearr
      w k = some (rq, rp, wk))
    (h : requestreply_attempt fuel rd readcnt ((BS_HEADER_SIZE + 7 * 4 + writecnt) % 4294967296)
      rq rp wk = some (ok, rq', rp', w')) :
    rp.length = BS_HEADER_SIZE + readcnt ∧ rp'.length = BS_HEADER_SIZE + readcnt
      ∧ ∀ ws, bs_sync fuel 3 rd
            (attempt_send rq ((BS_HEADER_SIZE + 7 * 4 + writecnt) % 4294967296) wk).2
          = some (0, ws) →
        (w'.pos = ws.pos + 1 ∨ w'.pos = ws.pos + 2)
        ∧ (w'.pos = ws.pos + 2 → (rd ws.pos).rv = 0
            ∧ ((rd ws.pos).data.take BS_HEADER_SIZE).length = BS_HEADER_SIZE
            ∧ rd32 ((rd ws.pos).data.take BS_HEADER_SIZE) OFF_PAYLOAD_LENGTH = readcnt)
        ∧ ((rd ws.pos).rv = 0
            → ((rd ws.pos).data.take BS_HEADER_SIZE).length = BS_HEADER_SIZE
            → rd32 ((rd ws.pos).data.take BS_HEADER_SIZE) OFF_PAYLOAD_LENGTH ≠ readcnt
            → ok = false ∧ w'.pos = ws.pos + 1
              ∧ ∀ n i, retry_loop
                  (requestreply_attempt fuel rd readcnt
                    ((BS_HEADER_SIZE + 7 * 4 + writecnt) % 4294967296)) (n + 1) i rq rp wk
                = retry_loop
                  (requestreply_attempt fuel rd readcnt
                    ((BS_HEADER_SIZE + 7 * 4 + writecnt) % 4294967296)) n (i + 1) rq' rp' w')
        ∧ (ok = true →
            rd32 ((rd ws.pos).data.take BS_HEADER_SIZE) OFF_CHECKSUM
              = crc_mem (wr32 ((rd ws.pos).data.take BS_HEADER_SIZE
                  ++ (rd (ws.pos + 1)).data.take readcnt) OFF_CHECKSUM 0)
                (to_int (BS_HEADER_SIZE + readcnt))) := by
  have e16 : BS_HEADER_SIZE = 16 := rfl
  have hsz : (BS_HEADER_SIZE + 7 * 4 + writecnt) % 4294967296 = 44 + writecnt := by
    rw [Nat.mod_eq_of_lt hw]
    rfl
  have hrl : ((List.range ((BS_HEADER_SIZE + readcnt) % 4294967296)).map junk2).length
      = BS_HEADER_SIZE + readcnt := by
    rw [List.length_map, List.length_range, Nat.mod_eq_of_lt (by omega)]
  unfold requestreply_after_failures at hk
  obtain ⟨_, s2, s3, s4⟩ := requestreply_failed_attempts_state fuel rd readcnt _ _ _ w k rq
    rp wk hrl hk
  have hcnt : wk.seq.bs_sequence_number < 4294967296 := by
    rw [s4, next_n_counter k w.seq hs]
    exact Nat.mod_lt _ (by norm_num)
  have hql : 12 ≤ rq.length := by
    rw [s2, requestreply_request_length _ _ _ _ _ _
      (by rw [List.length_map, List.length_range, hsz]; simp [BS_HEADER_SIZE]),
      List.length_map, List.length_range, hsz]
    omega
  refine ⟨s3, (requestreply_attempt_lengths fuel rd readcnt _ rq rp wk ok rq' rp' w' s3 h).2,
    ?_⟩
  intro ws hb
  obtain ⟨r1, r2⟩ := requestreply_attempt_reads fuel rd readcnt _ rq rp wk ws ok rq' rp' w'
    hb h
  refine ⟨r1, r2, ?_, ?_⟩
  · intro hrv hHl hne
    have hm := requestreply_attempt_length_mismatch fuel rd readcnt _ rq rp wk ws hb hrv hHl
      hne
    rw [hm] at h
    simp only [Option.some.injEq, Prod.mk.injEq] at h
    obtain ⟨rfl, rfl, rfl, rfl⟩ := h
    refine ⟨rfl, rfl, ?_⟩
    intro n i
    rw [retry_loop, hm]
  · intro hok
    subst hok
    obtain ⟨ws', H, P, b1, _, b3, _, _, b6, _, _, _, b10, _, _⟩ :=
      requestreply_attempt_accepted fuel rd readcnt _ rq rp wk rq' rp' w' hql hcnt s3 hr h
    rw [hb] at b1
    simp only [Option.some.injEq, Prod.mk.injEq, true_and] at b1
    subst b1
    rw [← b3, ← b6]
    exact b10

set_option maxRecDepth 16384 in
/-- The first attempt of the request `9F` with `readcnt = 3` on a stream whose header
declares no payload. -/
theorem length_checked_before_payload_witness :
    (BS_HEADER_SIZE + 7 * 4 + 1 < 4294967296 ∧ BS_HEADER_SIZE + 3 < 2147483648
      ∧ demo_world.seq.bs_sequence_number < 4294967296
      ∧ requestreply_after_failures 10 demo_echo_stream (fun _ => 0) (fun _ => 0) 7 1 3 [0x9F]
          demo_world 0 = some (demo_request, demo_reply_buffer, demo_world)
      ∧ requestreply_attempt 10 demo_echo_stream 3 ((BS_HEADER_SIZE + 7 * 4 + 1) % 4294967296)
          demo_request demo_reply_buffer demo_world
        = some (demo_mismatch_attempt.1, demo_mismatch_attempt.2.1, demo_mismatch_attempt.2.2.1,
            demo_mismatch_attempt.2.2.2))
    ∧ (demo_reply_buffer.length = BS_HEADER_SIZE + 3
      ∧ demo_mismatch_attempt.2.2.1.length = BS_HEADER_SIZE + 3
      ∧ ∀ ws, bs_sync 10 3 demo_echo_stream
            (attempt_send demo_request ((BS_HEADER_SIZE + 7 * 4 + 1) % 4294967296) demo_world).2
          = some (0, ws) →
        (demo_mismatch_attempt.2.2.2.pos = ws.pos + 1
          ∨ demo_mismatch_attempt.2.2.2.pos = ws.pos + 2)
        ∧ (demo_mismatch_attempt.2.2.2.pos = ws.pos + 2 → (demo_echo_stream ws.pos).rv = 0
            ∧ ((demo_echo_stream ws.pos).data.take BS_HEADER_SIZE).length = BS_HEADER_SIZE
            ∧ rd32 ((demo_echo_stream ws.pos).data.take BS_HEADER_SIZE) OFF_PAYLOAD_LENGTH = 3)
        ∧ ((demo_echo_stream ws.pos).rv = 0
            → ((demo_echo_stream ws.pos).data.take BS_HEADER_SIZE).length = BS_HEADER_SIZE
            → rd32 ((demo_echo_stream ws.pos).data.take BS_HEADER_SIZE) OFF_PAYLOAD_LENGTH ≠ 3
            → demo_mismatch_attempt.1 = false ∧ demo_mismatch_attempt.2.2.2.pos = ws.pos + 1
              ∧ ∀ n i, retry_loop
                  (requestreply_attempt 10 demo_echo_stream 3
                    ((BS_HEADER_SIZE + 7 * 4 + 1) % 4294967296)) (n + 1) i demo_request
                  demo_reply_buffer demo_world
                = retry_loop
                  (requestreply_attempt 10 demo_echo_stream 3
                    ((BS_HEADER_SIZE + 7 * 4 + 1) % 4294967296)) n (i + 1)
                  demo_mismatch_attempt.2.1 demo_mismatch_attempt.2.2.1
                  demo_mismatch_attempt.2.2.2)
        ∧ (demo_mismatch_attempt.1 = true →
            rd32 ((demo_echo_stream ws.pos).data.take BS_HEADER_SIZE) OFF_CHECKSUM
              = crc_mem (wr32 ((demo_echo_stream ws.pos).data.take BS_HEADER_SIZE
                  ++ (demo_echo_stream (ws.pos + 1)).data.take 3) OFF_CHECKSUM 0)
                (to_int (BS_HEADER_SIZE + 3)))) :=
  ⟨by decide,
    length_checked_before_payload 10 demo_echo_stream (fun _ => 0) (fun _ => 0) 7 1 3 [0x9F]
      demo_world 0 demo_request demo_reply_buffer demo_world demo_mismatch_attempt.1
      demo_mismatch_attempt.2.1 demo_mismatch_attempt.2.2.1 demo_mismatch_attempt.2.2.2
      (by norm_num [BS_HEADER_SIZE]) (by norm_num [BS_HEADER_SIZE])
      (show (5 : Nat) < 4294967296 by norm_num) (by decide) (by decide)⟩

/-- The verdict of an attempt of `busside_echo` that has found the marker and whose
header read delivers 16 bytes `H`: it reaches `break` exactly when `H` declares no
payload, carries the sequence number stamped in this attempt, and its checksum field is
`crc_mem` over `H` with that field zeroed; otherwise it leaves through `err:`. -/
theorem echo_attempt_verdict (fuel : Nat) (rd : Nat → Rd) (request reply : List Nat)
    (w ws : World) (H : List Nat)
    (hl : 12 ≤ request.length) (hs : w.seq.bs_sequence_number < 4294967296)
    (hb : bs_sync fuel 3 rd (attempt_send request BS_HEADER_SIZE w).2 = some (0, ws))
    (hrv : (rd ws.pos).rv = 0) (hH : (rd ws.pos).data.take BS_HEADER_SIZE = H)
    (hHl : H.length = BS_HEADER_SIZE) :
    ∃ rp', echo_attempt fuel rd request reply w
      = some (decide (rd32 H OFF_PAYLOAD_LENGTH = 0
            ∧ rd32 H OFF_SEQUENCE_NUMBER = w.seq.bs_sequence_number
            ∧ crc_mem (wr32 H OFF_CHECKSUM 0) (to_int BS_HEADER_SIZE) = rd32 H OFF_CHECKSUM),
          (attempt_send request BS_HEADER_SIZE w).1, rp',
          if rd32 H OFF_PAYLOAD_LENGTH = 0
            ∧ rd32 H OFF_SEQUENCE_NUMBER = w.seq.bs_sequence_number
            ∧ crc_mem (wr32 H OFF_CHECKSUM 0) (to_int BS_HEADER_SIZE) = rd32 H OFF_CHECKSUM
          then (sp_read rd ws BS_HEADER_SIZE).2
          else attempt_err (sp_read rd ws BS_HEADER_SIZE).2) := by
  have e16 : BS_HEADER_SIZE = 16 := rfl
  have e4 : OFF_PAYLOAD_LENGTH = 4 := rfl
  have e8 : OFF_SEQUENCE_NUMBER = 8 := rfl
  have e12 : OFF_CHECKSUM = 12 := rfl
  have F1 : (sp_read rd ws BS_HEADER_SIZE).1.1 = 0 := hrv
  have F2 : (sp_read rd ws BS_HEADER_SIZE).1.2 = H := hH
  have G1 : mem_write reply 0 H = H ++ reply.drop BS_HEADER_SIZE := by
    rw [mem_write_zero, hHl]
  have G3 : rd32 (H ++ reply.drop BS_HEADER_SIZE) OFF_PAYLOAD_LENGTH
      = rd32 H OFF_PAYLOAD_LENGTH := rd32_append_left _ _ _ (by omega)
  have G4 : rd32 (H ++ reply.drop BS_HEADER_SIZE) OFF_SEQUENCE_NUMBER
      = rd32 H OFF_SEQUENCE_NUMBER := rd32_append_left _ _ _ (by omega)
  have G5 : rd32 (attempt_send request BS_HEADER_SIZE w).1 OFF_SEQUENCE_NUMBER
      = w.seq.bs_sequence_number := by
    rw [attempt_send_eq_stamp]
    exact bs_stamp_seq_field _ _ _ hl hs
  have G6 : rd32 (H ++ reply.drop BS_HEADER_SIZE) OFF_CHECKSUM = rd32 H OFF_CHECKSUM :=
    rd32_append_left _ _ _ (by omega)
  have G9 : crc_mem (wr32 (H ++ reply.drop BS_HEADER_SIZE) OFF_CHECKSUM 0)
      (to_int BS_HEADER_SIZE) = crc_mem (wr32 H OFF_CHECKSUM 0) (to_int BS_HEADER_SIZE) := by
    rw [wr32_append_left _ _ _ _ (by omega), to_int_of_lt _ (by omega)]
    have := crc_mem_append (wr32 H OFF_CHECKSUM 0) (reply.drop BS_HEADER_SIZE)
    rw [wr32_length, hHl] at this
    exact this
  unfold echo_attempt
  dsimp only
  rw [hb]
  simp only [F1, F2, G1, G3, G4, G5, G6, G9, hHl, ne_eq, not_true_eq_false, if_false, or_self]
  by_cases c1 : rd32 H OFF_PAYLOAD_LENGTH = 0
  · by_cases c2 : rd32 H OFF_SEQUENCE_NUMBER = w.seq.bs_sequence_number
    · by_cases c3 : crc_mem (wr32 H OFF_CHECKSUM 0) (to_int BS_HEADER_SIZE) = rd32 H OFF_CHECKSUM
      · simp [c1, c2, c3]
      · simp [c1, c2, c3]
    · simp [c1, c2]
  · simp [c1]

/-- C12: a call of `busside_echo` with counter value `s` (allocations succeeding, at least
one attempt allowed) whose first probe is answered by the marker, found within the time
bound, followed by a 16-byte header `H` that declares no payload and has a correct
checksum.  If the sequence number of `H` is `s`, the call returns 0 after a single
attempt: one marker and one frame were sent.  If it is not `s`, the first attempt leaves
through `err:`, and any result of the call comes after at least two attempts when it is 0
or when more than one attempt is allowed. -/
theorem echo_probe_end_to_end (ERROR_OOM : Int) (fuel : Nat) (rd : Nat → Rd)
    (junk1 junk2 : Nat → Nat) (nretries timeout : Int) (w : World) (idx : Nat) (H : List Nat)
    (hn : 0 < to_u32 nretries)
    (hs : w.seq.bs_sequence_number < 4294967296)
    (hfuel : idx + 2 ≤ fuel)
    (hdel : ∀ j, j ≤ idx + 1 → rd_delivers rd (w.pos + j))
    (hfe : rd_byte rd (w.pos + idx) = 0xfe)
    (hca : rd_byte rd (w.pos + idx + 1) = 0xca)
    (hfirst : ∀ j, j < idx →
      ¬ (rd_byte rd (w.pos + j) = 0xfe ∧ rd_byte rd (w.pos + j + 1) = 0xca))
    (htime : (((reads_duration rd w.pos idx) / 1000000 : Nat) : Int) < 3)
    (hH : (rd (w.pos + idx + 2)).rv = 0
      ∧ (rd (w.pos + idx + 2)).data.take BS_HEADER_SIZE = H ∧ H.length = BS_HEADER_SIZE)
    (hpl : rd32 H OFF_PAYLOAD_LENGTH = 0)
    (hsum : crc_mem (wr32 H OFF_CHECKSUM 0) (to_int BS_HEADER_SIZE) = rd32 H OFF_CHECKSUM) :
    (rd32 H OFF_SEQUENCE_NUMBER = w.seq.bs_sequence_number →
        ∃ w', busside_echo ERROR_OOM fuel rd true true junk1 junk2 nretries timeout w
            = some (0, w')
          ∧ tx_log w'.trace = tx_log w.trace
              ++ [bs_sync_word, echo_frame junk1 w.seq.bs_sequence_number]
          ∧ w'.pos = w.pos + idx + 3)
      ∧ (rd32 H OFF_SEQUENCE_NUMBER ≠ w.seq.bs_sequence_number →
        (∃ rq' rp' w1, echo_attempt fuel rd
            (wr32 (wr32 ((List.range BS_HEADER_SIZE).map junk1) OFF_COMMAND BUSSIDE_SPI_ECHO)
              OFF_PAYLOAD_LENGTH 0)
            ((List.range BS_HEADER_SIZE).map junk2) w = some (false, rq', rp', w1))
          ∧ ∀ res w', busside_echo ERROR_OOM fuel rd true true junk1 junk2 nretries timeout w
              = some (res, w') →
            ∃ m, 1 ≤ m ∧ ((res = 0 ∨ 1 < to_u32 nretries) → 2 ≤ m)
              ∧ (res = 0 ∨ res = -1)
              ∧ tx_log w'.trace = tx_log w.trace
                  ++ sent_log (echo_frame junk1) m w.seq.bs_sequence_number) := by
  have e16 : BS_HEADER_SIZE = 16 := rfl
  obtain ⟨hHrv, hHd, hHl⟩ := hH
  obtain ⟨n, hn1⟩ : ∃ n, to_u32 nretries = n + 1 := ⟨to_u32 nretries - 1, by omega⟩
  have hql : 12 ≤ (wr32 (wr32 ((List.range BS_HEADER_SIZE).map junk1) OFF_COMMAND
      BUSSIDE_SPI_ECHO) OFF_PAYLOAD_LENGTH 0).length := by
    rw [wr32_length, wr32_length, List.length_map, List.length_range]
    omega
  obtain ⟨ws, hb, hp1⟩ : ∃ ws, bs_sync fuel 3 rd (attempt_send
      (wr32 (wr32 ((List.range BS_HEADER_SIZE).map junk1) OFF_COMMAND BUSSIDE_SPI_ECHO)
        OFF_PAYLOAD_LENGTH 0) BS_HEADER_SIZE w).2 = some (0, ws)
      ∧ ws.pos = w.pos + idx + 2 := by
    unfold bs_sync
    apply bs_sync_loop_finds 3 rd _ idx fuel false _ hfuel
      (by simpa only [attempt_send_pos] using hdel)
      (by simpa only [attempt_send_pos] using hfe)
      (by simpa only [attempt_send_pos] using hca)
      (by simpa only [attempt_send_pos] using hfirst)
    · intro h; cases h
    · rw [Nat.add_sub_cancel_left, attempt_send_pos]
      exact htime
  rw [← hp1] at hHrv hHd
  obtain ⟨rp1, hv⟩ := echo_attempt_verdict fuel rd _ ((List.range BS_HEADER_SIZE).map junk2)
    w ws H hql hs hb hHrv hHd hHl
  constructor
  · intro hseq
    have hc : (rd32 H OFF_PAYLOAD_LENGTH = 0
        ∧ rd32 H OFF_SEQUENCE_NUMBER = w.seq.bs_sequence_number
        ∧ crc_mem (wr32 H OFF_CHECKSUM 0) (to_int BS_HEADER_SIZE) = rd32 H OFF_CHECKSUM) :=
      ⟨hpl, hseq, hsum⟩
    rw [decide_eq_true hc, if_pos hc] at hv
    have hloop : retry_loop (echo_attempt fuel rd) (to_u32 nretries) 0
        (wr32 (wr32 ((List.range BS_HEADER_SIZE).map junk1) OFF_COMMAND BUSSIDE_SPI_ECHO)
          OFF_PAYLOAD_LENGTH 0) ((List.range BS_HEADER_SIZE).map junk2) w
        = some (0, (attempt_send
            (wr32 (wr32 ((List.range BS_HEADER_SIZE).map junk1) OFF_COMMAND BUSSIDE_SPI_ECHO)
              OFF_PAYLOAD_LENGTH 0) BS_HEADER_SIZE w).1, rp1,
            (sp_read rd ws BS_HEADER_SIZE).2) := by
      rw [hn1, retry_loop, hv]
    have hcall : busside_echo ERROR_OOM fuel rd true true junk1 junk2 nretries timeout w
        = some (0, (sp_read rd ws BS_HEADER_SIZE).2) := by
      unfold busside_echo
      simp only [malloc, if_true]
      rw [hloop]
      simp only
      rw [if_neg (by omega)]
    refine ⟨_, hcall, ?_, by rw [sp_read_pos, hp1]⟩
    obtain ⟨m, _, _, m3, _, m5⟩ := retry_loop_events _ _ (echo_attempt_events fuel rd)
      _ _ _ _ _ _ _ _ _ hloop
    have hm : m = 1 := by
      have := m3 (by omega)
      omega
    subst hm
    rw [← tx_log_io_log (sp_read rd ws BS_HEADER_SIZE).2.trace, m5, tx_log_append,
      tx_log_io_log, tx_log_attempts_events]
    rfl
  · intro hseq
    have hc : ¬ (rd32 H OFF_PAYLOAD_LENGTH = 0
        ∧ rd32 H OFF_SEQUENCE_NUMBER = w.seq.bs_sequence_number
        ∧ crc_mem (wr32 H OFF_CHECKSUM 0) (to_int BS_HEADER_SIZE) = rd32 H OFF_CHECKSUM) :=
      fun hc => hseq hc.2.1
    rw [decide_eq_false hc, if_neg hc] at hv
    refine ⟨⟨_, _, _, hv⟩, ?_⟩
    intro res w' hcall
    obtain ⟨i, rq', rp', hl, hres⟩ := busside_echo_run ERROR_OOM fuel rd junk1 junk2
      nretries timeout w res w' hcall
    obtain ⟨m, _, m2, m3, _, m5⟩ := retry_loop_events _ _ (echo_attempt_events fuel rd)
      _ _ _ _ _ i rq' rp' w' hl
    have hi : i ≠ to_u32 nretries → 1 ≤ i := by
      intro hne
      obtain ⟨k, rqk, rpk, wk, _, k2, k3, k4⟩ := retry_loop_break _ _ _ _ _ _ i rq' rp' w' hl
        (by omega)
      rcases Nat.eq_zero_or_pos k with h0 | hp
      · subst h0
        simp only [failed_attempts, Option.some.injEq, Prod.mk.injEq] at k3
        obtain ⟨rfl, rfl, rfl⟩ := k3
        rw [hv] at k4
        simp at k4
      · omega
    have hm : 1 ≤ m ∧ ((res = 0 ∨ 1 < to_u32 nretries) → 2 ≤ m) := by
      by_cases hin : i = to_u32 nretries
      · have := m2 (by omega)
        rcases hres with ⟨_, hr⟩ | ⟨hne, _⟩
        · refine ⟨by omega, fun ho => ?_⟩
          rcases ho with ho | ho
          · omega
          · omega
        · exact absurd hin hne
      · have := m3 (by omega)
        have := hi hin
        exact ⟨by omega, fun _ => by omega⟩
    refine ⟨m, hm.1, hm.2, ?_, ?_⟩
    · rcases hres with ⟨_, hr⟩ | ⟨_, hr⟩
      · exact Or.inr hr
      · exact Or.inl hr
    · rw [← tx_log_io_log w'.trace, m5, tx_log_append, tx_log_io_log, tx_log_attempts_events]
      rfl

set_option maxRecDepth 16384 in
/-- With counter value 5: a probe answered by a header for sequence number 5 succeeds at
once; answered by the header for 6 it is rejected and retried. -/
theorem echo_probe_end_to_end_witness :
    (0 < to_u32 3 ∧ demo_world.seq.bs_sequence_number < 4294967296 ∧ 0 + 2 ≤ 10
      ∧ (∀ j, j ≤ 0 + 1 → rd_delivers demo_echo_stream (demo_world.pos + j))
      ∧ rd_byte demo_echo_stream (demo_world.pos + 0) = 0xfe
      ∧ rd_byte demo_echo_stream (demo_world.pos + 0 + 1) = 0xca
      ∧ (((reads_duration demo_echo_stream demo_world.pos 0) / 1000000 : Nat) : Int) < 3
      ∧ ((demo_echo_stream (demo_world.pos + 0 + 2)).rv = 0
        ∧ (demo_echo_stream (demo_world.pos + 0 + 2)).data.take BS_HEADER_SIZE
          = demo_echo_header
        ∧ demo_echo_header.length = BS_HEADER_SIZE)
      ∧ rd32 demo_echo_header OFF_PAYLOAD_LENGTH = 0
      ∧ crc_mem (wr32 demo_echo_header OFF_CHECKSUM 0) (to_int BS_HEADER_SIZE)
          = rd32 demo_echo_header OFF_CHECKSUM
      ∧ rd32 demo_echo_header OFF_SEQUENCE_NUMBER = demo_world.seq.bs_sequence_number
      ∧ rd32 demo_echo_header_six OFF_SEQUENCE_NUMBER ≠ demo_world.seq.bs_sequence_number)
    ∧ (∃ w', busside_echo (-100) 10 demo_echo_stream true true (fun _ => 0) (fun _ => 0) 3
            2000 demo_world = some (0, w')
          ∧ tx_log w'.trace = tx_log demo_world.trace
              ++ [bs_sync_word, echo_frame (fun _ => 0) demo_world.seq.bs_sequence_number]
          ∧ w'.pos = demo_world.pos + 0 + 3)
    ∧ ((∃ rq' rp' w1, echo_attempt 10 demo_echo_six_stream
            (wr32 (wr32 ((List.range BS_HEADER_SIZE).map (fun _ => 0)) OFF_COMMAND
              BUSSIDE_SPI_ECHO) OFF_PAYLOAD_LENGTH 0)
            ((List.range BS_HEADER_SIZE).map (fun _ => 0)) demo_world
            = some (false, rq', rp', w1))
      ∧ ∀ res w', busside_echo (-100) 10 demo_echo_six_stream true true (fun _ => 0)
            (fun _ => 0) 3 2000 demo_world = some (res, w') →
          ∃ m, 1 ≤ m ∧ ((res = 0 ∨ 1 < to_u32 3) → 2 ≤ m)
            ∧ (res = 0 ∨ res = -1)
            ∧ tx_log w'.trace = tx_log demo_world.trace
                ++ sent_log (echo_frame (fun _ => 0)) m demo_world.seq.bs_sequence_number) :=
  ⟨by decide,
    (echo_probe_end_to_end (-100) 10 demo_echo_stream (fun _ => 0) (fun _ => 0) 3 2000
      demo_world 0 demo_echo_header (by decide) (show (5 : Nat) < 4294967296 by norm_num)
      (by omega) (by decide) (show rd_byte demo_echo_stream 0 = 0xfe by decide)
      (show rd_byte demo_echo_stream 1 = 0xca by decide) (by intro j hj; omega)
      (by decide) ⟨rfl, rfl, rfl⟩ (show rd32 demo_echo_header 4 = 0 by decide)
      (by decide)).1 (show rd32 demo_echo_header 8 = 5 by decide),
    (echo_probe_end_to_end (-100) 10 demo_echo_six_stream (fun _ => 0) (fun _ => 0) 3 2000
      demo_world 0 demo_echo_header_six (by decide) (show (5 : Nat) < 4294967296 by norm_num)
      (by omega) (by decide) (show rd_byte demo_echo_six_stream 0 = 0xfe by decide)
      (show rd_byte demo_echo_six_stream 1 = 0xca by decide) (by intro j hj; omega)
      (by decide) ⟨rfl, rfl, rfl⟩ (show rd32 demo_echo_header_six 4 = 0 by decide)
      (by decide)).2 (show rd32 demo_echo_header_six 8 ≠ 5 by decide)⟩

/-- The verdict of an attempt of `busside_requestreply` that has found the marker, read a
header `H` of 16 bytes declaring `readcnt` payload bytes, and read `readcnt` payload bytes
`P`: it reaches `break` exactly when `H` carries the sequence number stamped in this
attempt and its checksum field is `crc_mem` over `H ++ P` with that field zeroed. -/
theorem requestreply_attempt_verdict (fuel : Nat) (rd : Nat → Rd) (readcnt request_size : Nat)
    (request reply : List Nat) (w ws : World) (H P : List Nat)
    (hl : 12 ≤ request.length) (hs : w.seq.bs_sequence_number < 4294967296)
    (hrp : reply.length = BS_HEADER_SIZE + readcnt)
    (hr : BS_HEADER_SIZE + readcnt < 2147483648)
    (hb : bs_sync fuel 3 rd (attempt_send request request_size w).2 = some (0, ws))
    (hrv : (rd ws.pos).rv = 0) (hH : (rd ws.pos).data.take BS_HEADER_SIZE = H)
    (hHl : H.length = BS_HEADER_SIZE) (hpl : rd32 H OFF_PAYLOAD_LENGTH = readcnt)
    (hrv2 : (rd (ws.pos + 1)).rv = 0) (hP : (rd (ws.pos + 1)).data.take readcnt = P)
    (hPl : P.length = readcnt) :
    ∃ rp' w', requestreply_attempt fuel rd readcnt request_size request reply w
      = some (decide (rd32 H OFF_SEQUENCE_NUMBER = w.seq.bs_sequence_number
            ∧ crc_mem (wr32 (H ++ P) OFF_CHECKSUM 0) (to_int (BS_HEADER_SIZE + readcnt))
              = rd32 H OFF_CHECKSUM),
          (attempt_send request request_size w).1, rp', w') := by
  have e16 : BS_HEADER_SIZE = 16 := rfl
  have e4 : OFF_PAYLOAD_LENGTH = 4 := rfl
  have e8 : OFF_SEQUENCE_NUMBER = 8 := rfl
  have e12 : OFF_CHECKSUM = 12 := rfl
  have F1 : (sp_read rd ws BS_HEADER_SIZE).1.1 = 0 := hrv
  have F2 : (sp_read rd ws BS_HEADER_SIZE).1.2 = H := hH
  have F3 : (sp_read rd (sp_read rd ws BS_HEADER_SIZE).2 readcnt).1.1 = 0 := hrv2
  have F4 : (sp_read rd (sp_read rd ws BS_HEADER_SIZE).2 readcnt).1.2 = P := hP
  have G1 : mem_write reply 0 H = H ++ reply.drop BS_HEADER_SIZE := by
    rw [mem_write_zero, hHl]
  have G2 : mem_write (H ++ reply.drop BS_HEADER_SIZE) BS_HEADER_SIZE P = H ++ P := by
    have := mem_write_after H (reply.drop BS_HEADER_SIZE) P
    rw [hHl, hPl] at this
    rw [this, List.drop_drop, List.drop_of_length_le (by omega), List.append_nil]
  have hHP : (H ++ P).length = BS_HEADER_SIZE + readcnt := by
    rw [List.length_append, hHl, hPl]
  have G3 : rd32 (H ++ reply.drop BS_HEADER_SIZE) OFF_PAYLOAD_LENGTH = readcnt := by
    rw [rd32_append_left _ _ _ (by omega), hpl]
  have G4 : rd32 (H ++ P) OFF_SEQUENCE_NUMBER = rd32 H OFF_SEQUENCE_NUMBER :=
    rd32_append_left _ _ _ (by omega)
  have G5 : rd32 (attempt_send request request_size w).1 OFF_SEQUENCE_NUMBER
      = w.seq.bs_sequence_number := by
    rw [attempt_send_eq_stamp]
    exact bs_stamp_seq_field _ _ _ hl hs
  have G6 : rd32 (H ++ P) OFF_CHECKSUM = rd32 H OFF_CHECKSUM :=
    rd32_append_left _ _ _ (by omega)
  have G8 : rd32 (wr32 (H ++ P) OFF_CHECKSUM 0) OFF_PAYLOAD_LENGTH = readcnt := by
    rw [rd32_wr32_other _ _ _ _ (by omega), rd32_append_left _ _ _ (by omega), hpl]
  have G9 : (BS_HEADER_SIZE + readcnt) % 4294967296 = BS_HEADER_SIZE + readcnt :=
    Nat.mod_eq_of_lt (by omega)
  unfold requestreply_attempt
  dsimp only
  rw [hb]
  simp only [F1, F2, F3, F4, G1, G2, G3, G4, G5, G6, G8, G9, hHl, hPl, ne_eq,
    not_true_eq_false, if_false, or_self]
  by_cases c2 : rd32 H OFF_SEQUENCE_NUMBER = w.seq.bs_sequence_number
  · by_cases c3 : crc_mem (wr32 (H ++ P) OFF_CHECKSUM 0) (to_int (BS_HEADER_SIZE + readcnt))
        = rd32 H OFF_CHECKSUM
    · simp [c2, c3]
    · simp [c2, c3]
  · simp [c2]

/-- The fields of a well-formed frame. -/
theorem reply_frame_fields (command seq : Nat) (B : List Nat)
    (hq : seq < 4294967296) (hB : BS_HEADER_SIZE + B.length < 4294967296) :
    (reply_frame command seq B).length = BS_HEADER_SIZE + B.length
      ∧ rd32 (reply_frame command seq B) OFF_PAYLOAD_LENGTH = B.length
      ∧ rd32 (reply_frame command seq B) OFF_SEQUENCE_NUMBER = seq
      ∧ (reply_frame command seq B).drop BS_HEADER_SIZE = B
      ∧ crc_mem (wr32 (reply_frame command seq B) OFF_CHECKSUM 0)
          (to_int (BS_HEADER_SIZE + B.length)) = rd32 (reply_frame command seq B) OFF_CHECKSUM := by
  have e16 : BS_HEADER_SIZE = 16 := rfl
  have e4 : OFF_PAYLOAD_LENGTH = 4 := rfl
  have hX : (u32_bytes command ++ u32_bytes B.length ++ u32_bytes 0 ++ u32_bytes 0 ++ B).length
      = 16 + B.length := by
    simp [u32_bytes]
    omega
  unfold reply_frame
  refine ⟨by rw [bs_stamp_length, hX, e16], ?_, bs_stamp_seq_field _ _ _ (by omega) hq, ?_,
    bs_stamp_checksum _ _ _ (by omega)⟩
  · rw [e4, bs_stamp_rd32_other _ _ _ _ (by omega)]
    simp [rd32, u32_bytes]
    exact u32_value _ (by omega)
  · rw [bs_stamp_drop _ _ _ _ (by omega)]
    simp [u32_bytes, BS_HEADER_SIZE]

/-- An attempt of `busside_requestreply` to which the transport delivers, after the
marker, a well-formed frame with command `c`, sequence number `seqr` and payload `B`,
reaches `break` exactly when `B` has `readcnt` bytes and `seqr` is the sequence number
stamped in this attempt. -/
theorem requestreply_attempt_on_frame (fuel : Nat) (rd : Nat → Rd) (readcnt request_size : Nat)
    (request reply : List Nat) (w : World) (c seqr : Nat) (B : List Nat)
    (hl : 12 ≤ request.length) (hs : w.seq.bs_sequence_number < 4294967296)
    (hrp : reply.length = BS_HEADER_SIZE + readcnt)
    (hr : BS_HEADER_SIZE + readcnt < 2147483648)
    (hq : seqr < 4294967296) (hB : BS_HEADER_SIZE + B.length < 4294967296)
    (hd : reply_delivered fuel rd request request_size w readcnt (reply_frame c seqr B)
      = true) :
    ∃ rq' rp' w', requestreply_attempt fuel rd readcnt request_size request reply w
      = some (decide (B.length = readcnt ∧ seqr = w.seq.bs_sequence_number), rq', rp', w') := by
  have e16 : BS_HEADER_SIZE = 16 := rfl
  have e4 : OFF_PAYLOAD_LENGTH = 4 := rfl
  have e8 : OFF_SEQUENCE_NUMBER = 8 := rfl
  have e12 : OFF_CHECKSUM = 12 := rfl
  obtain ⟨f1, f2, f3, f4, f5⟩ := reply_frame_fields c seqr B hq hB
  have hHl : ((reply_frame c seqr B).take BS_HEADER_SIZE).length = BS_HEADER_SIZE := by
    rw [List.length_take, f1]
    omega
  unfold reply_delivered header_delivered at hd
  split at hd
  · rename_i r ws hb
    simp only [Bool.and_eq_true, decide_eq_true_eq] at hd
    obtain ⟨⟨rfl, hrv, hH⟩, hpay⟩ := hd
    by_cases hlen : B.length = readcnt
    · subst hlen
      obtain ⟨hrv2, hP⟩ := hpay f1
      rw [f4] at hP
      obtain ⟨rp', w', hv⟩ := requestreply_attempt_verdict fuel rd B.length request_size
        request reply w ws _ B hl hs hrp hr hb hrv hH hHl
        (by rw [rd32_take _ _ _ (by omega), f2]) hrv2 hP rfl
      have hFB : (reply_frame c seqr B).take BS_HEADER_SIZE ++ B = reply_frame c seqr B := by
        have := List.take_append_drop BS_HEADER_SIZE (reply_frame c seqr B)
        rw [f4] at this
        exact this
      rw [hFB, rd32_take _ _ _ (by omega), rd32_take _ _ _ (by omega), f3, f5] at hv
      refine ⟨(attempt_send request request_size w).1, rp', w', ?_⟩
      rw [hv]
      simp
    · have hm := requestreply_attempt_length_mismatch fuel rd readcnt request_size request
        reply w ws hb hrv (by rw [hH]; exact hHl)
        (by rw [hH, rd32_take _ _ _ (by omega), f2]; exact hlen)
      refine ⟨(attempt_send request request_size w).1,
        (rd ws.pos).data.take BS_HEADER_SIZE ++ reply.drop BS_HEADER_SIZE,
        attempt_err (sp_read rd ws BS_HEADER_SIZE).2, ?_⟩
      rw [hm]
      simp [hlen]
  · simp at hd

/-- The same for an attempt of `busside_echo`, which expects no payload. -/
theorem echo_attempt_on_frame (fuel : Nat) (rd : Nat → Rd)
    (request reply : List Nat) (w : World) (c seqr : Nat) (B : List Nat)
    (hl : 12 ≤ request.length) (hs : w.seq.bs_sequence_number < 4294967296)
    (hq : seqr < 4294967296) (hB : BS_HEADER_SIZE + B.length < 2147483648)
    (hd : header_delivered fuel rd request BS_HEADER_SIZE w (reply_frame c seqr B) = true) :
    ∃ rq' rp' w', echo_attempt fuel rd request reply w
      = some (decide (B.length = 0 ∧ seqr = w.seq.bs_sequence_number), rq', rp', w') := by
  have e16 : BS_HEADER_SIZE = 16 := rfl
  have e4 : OFF_PAYLOAD_LENGTH = 4 := rfl
  have e8 : OFF_SEQUENCE_NUMBER = 8 := rfl
  have e12 : OFF_CHECKSUM = 12 := rfl
  obtain ⟨f1, f2, f3, f4, f5⟩ := reply_frame_fields c seqr B hq (by omega)
  have hHl : ((reply_frame c seqr B).take BS_HEADER_SIZE).length = BS_HEADER_SIZE := by
    rw [List.length_take, f1]
    omega
  unfold header_delivered at hd
  split at hd
  · rename_i r ws hb
    simp only [decide_eq_true_eq] at hd
    obtain ⟨rfl, hrv, hH⟩ := hd
    obtain ⟨rp', hv⟩ := echo_attempt_verdict fuel rd request reply w ws _ hl hs hb hrv hH hHl
    rw [rd32_take _ _ _ (by omega), rd32_take _ _ _ (by omega), rd32_take _ _ _ (by omega),
      f2, f3] at hv
    have hdec : decide (B.length = 0 ∧ seqr = w.seq.bs_sequence_number
        ∧ crc_mem (wr32 ((reply_frame c seqr B).take BS_HEADER_SIZE) OFF_CHECKSUM 0)
            (to_int BS_HEADER_SIZE) = rd32 (reply_frame c seqr B) OFF_CHECKSUM)
        = decide (B.length = 0 ∧ seqr = w.seq.bs_sequence_number) := by
      by_cases hlen : B.length = 0
      · have hF : (reply_frame c seqr B).take BS_HEADER_SIZE = reply_frame c seqr B :=
          List.take_of_length_le (by rw [f1, hlen]; omega)
        have hsum : crc_mem (wr32 ((reply_frame c seqr B).take BS_HEADER_SIZE) OFF_CHECKSUM 0)
            (to_int BS_HEADER_SIZE) = rd32 (reply_frame c seqr B) OFF_CHECKSUM := by
          rw [hF, ← f5, hlen]
          rfl
        simp [hlen, hsum]
      · simp [hlen]
    rw [hv, hdec]
    exact ⟨_, _, _, rfl⟩
  · simp at hd

/-- C19: take an attempt of `busside_requestreply` and let the transport deliver after
the marker a well-formed frame with sequence number `seqr`, payload `B` and command `c1`;
take the same attempt with the frame that differs only in its command `c2` (and hence its
checksum).  The attempt reaches `break` on the one exactly when it does on the other,
namely when `B` has `readcnt` bytes and `seqr` is the sequence number stamped in the
attempt.  Likewise for an attempt of `busside_echo` and frames with sequence number
`seqr2` and payload `B2`: it reaches `break` on both or on neither, namely when `B2` is
empty and `seqr2` is the stamped number.  The values `c1` and `c2` are arbitrary. -/
theorem command_not_validated (fuel : Nat) (rd1 rd2 rd3 rd4 : Nat → Rd)
    (readcnt request_size : Nat) (request reply : List Nat) (w : World)
    (request2 reply2 : List Nat) (w2 : World) (c1 c2 seqr seqr2 : Nat) (B B2 : List Nat)
    (hl : 12 ≤ request.length) (hs : w.seq.bs_sequence_number < 4294967296)
    (hrp : reply.length = BS_HEADER_SIZE + readcnt)
    (hr : BS_HEADER_SIZE + readcnt < 2147483648)
    (hl2 : 12 ≤ request2.length) (hs2 : w2.seq.bs_sequence_number < 4294967296)
    (hq : seqr < 4294967296) (hB : BS_HEADER_SIZE + B.length < 2147483648)
    (hq2 : seqr2 < 4294967296) (hB2 : BS_HEADER_SIZE + B2.length < 2147483648)
    (hd1 : reply_delivered fuel rd1 request request_size w readcnt (reply_frame c1 seqr B)
      = true)
    (hd2 : reply_delivered fuel rd2 request request_size w readcnt (reply_frame c2 seqr B)
      = true)
    (hd3 : header_delivered fuel rd3 request2 BS_HEADER_SIZE w2 (reply_frame c1 seqr2 B2)
      = true)
    (hd4 : header_delivered fuel rd4 request2 BS_HEADER_SIZE w2 (reply_frame c2 seqr2 B2)
      = true) :
    (∃ ok rq1 rp1 w1 rq2 rp2 w2',
        requestreply_attempt fuel rd1 readcnt request_size request reply w
          = some (ok, rq1, rp1, w1)
        ∧ requestreply_attempt fuel rd2 readcnt request_size request reply w
          = some (ok, rq2, rp2, w2')
        ∧ (ok = true ↔ B.length = readcnt ∧ seqr = w.seq.bs_sequence_number))
      ∧ (∃ ok rq1 rp1 w1 rq2 rp2 w2',
        echo_attempt fuel rd3 request2 reply2 w2 = some (ok, rq1, rp1, w1)
        ∧ echo_attempt fuel rd4 request2 reply2 w2 = some (ok, rq2, rp2, w2')
        ∧ (ok = true ↔ B2.length = 0 ∧ seqr2 = w2.seq.bs_sequence_number)) := by
  obtain ⟨a1, a2, a3, ha⟩ := requestreply_attempt_on_frame fuel rd1 readcnt request_size
    request reply w c1 seqr B hl hs hrp hr hq (by omega) hd1
  obtain ⟨b1, b2, b3, hb⟩ := requestreply_attempt_on_frame fuel rd2 readcnt request_size
    request reply w c2 seqr B hl hs hrp hr hq (by omega) hd2
  obtain ⟨p1, p2, p3, hp⟩ := echo_attempt_on_frame fuel rd3 request2 reply2 w2 c1 seqr2 B2
    hl2 hs2 hq2 hB2 hd3
  obtain ⟨q1, q2, q3, hq4⟩ := echo_attempt_on_frame fuel rd4 request2 reply2 w2 c2 seqr2 B2
    hl2 hs2 hq2 hB2 hd4
  exact ⟨⟨_, a1, a2, a3, b1, b2, b3, ha, hb, by simp⟩,
    ⟨_, p1, p2, p3, q1, q2, q3, hp, hq4, by simp⟩⟩

set_option maxRecDepth 16384 in
/-- Replies with the commands 43 and 7: a reply of three payload bytes to the request
`9F`, and an empty reply to a probe, each with the sequence number 5 that was stamped. -/
theorem command_not_validated_witness :
    (12 ≤ demo_request.length ∧ demo_world.seq.bs_sequence_number < 4294967296
      ∧ demo_reply_buffer.length = BS_HEADER_SIZE + 3 ∧ BS_HEADER_SIZE + 3 < 2147483648
      ∧ 12 ≤ (List.replicate 16 0).length
      ∧ (5 : Nat) < 4294967296 ∧ BS_HEADER_SIZE + [1, 2, 3].length < 2147483648
      ∧ BS_HEADER_SIZE + ([] : List Nat).length < 2147483648
      ∧ reply_delivered 10 (demo_frame_stream (reply_frame 43 5 [1, 2, 3])) demo_request 45
          demo_world 3 (reply_frame 43 5 [1, 2, 3]) = true
      ∧ reply_delivered 10 (demo_frame_stream (reply_frame 7 5 [1, 2, 3])) demo_request 45
          demo_world 3 (reply_frame 7 5 [1, 2, 3]) = true
      ∧ header_delivered 10 (demo_frame_stream (reply_frame 43 5 [])) (List.replicate 16 0)
          BS_HEADER_SIZE demo_world (reply_frame 43 5 []) = true
      ∧ header_delivered 10 (demo_frame_stream (reply_frame 7 5 [])) (List.replicate 16 0)
          BS_HEADER_SIZE demo_world (reply_frame 7 5 []) = true)
    ∧ ((∃ ok rq1 rp1 w1 rq2 rp2 w2',
        requestreply_attempt 10 (demo_frame_stream (reply_frame 43 5 [1, 2, 3])) 3 45
            demo_request demo_reply_buffer demo_world = some (ok, rq1, rp1, w1)
        ∧ requestreply_attempt 10 (demo_frame_stream (reply_frame 7 5 [1, 2, 3])) 3 45
            demo_request demo_reply_buffer demo_world = some (ok, rq2, rp2, w2')
        ∧ (ok = true ↔ [1, 2, 3].length = 3 ∧ 5 = demo_world.seq.bs_sequence_number))
      ∧ (∃ ok rq1 rp1 w1 rq2 rp2 w2',
        echo_attempt 10 (demo_frame_stream (reply_frame 43 5 [])) (List.replicate 16 0)
            (List.replicate 16 0) demo_world = some (ok, rq1, rp1, w1)
        ∧ echo_attempt 10 (demo_frame_stream (reply_frame 7 5 [])) (List.replicate 16 0)
            (List.replicate 16 0) demo_world = some (ok, rq2, rp2, w2')
        ∧ (ok = true ↔ ([] : List Nat).length = 0 ∧ 5 = demo_world.seq.bs_sequence_number))) :=
  ⟨by decide,
    command_not_validated 10 (demo_frame_stream (reply_frame 43 5 [1, 2, 3]))
      (demo_frame_stream (reply_frame 7 5 [1, 2, 3])) (demo_frame_stream (reply_frame 43 5 []))
      (demo_frame_stream (reply_frame 7 5 [])) 3 45 demo_request demo_reply_buffer demo_world
      (List.replicate 16 0) (List.replicate 16 0) demo_world 43 7 5 5 [1, 2, 3] []
      (by decide) (show (5 : Nat) < 4294967296 by norm_num) rfl (by norm_num [BS_HEADER_SIZE])
      (by decide) (show (5 : Nat) < 4294967296 by norm_num) (by norm_num)
      (by norm_num [BS_HEADER_SIZE]) (by norm_num) (by norm_num [BS_HEADER_SIZE])
      (by decide) (by decide) (by decide) (by decide)⟩

end Busside
